import Mathlib

/-!
# Touch pipeline of the shared drawing surface (`src/touch_handler.cpp`)

A shallow embedding of `averageXY` (sample filter) and `handleLocalTouch`
(dispatcher) together with the properties stated for them.

Conventions of the embedding:

* `int` values are integers (`Int`); the 32-bit arithmetic of the eraser guard, whose
  radius and centre are not bounded by the code, wraps (`wrap32`), and
  `guardFits_of_screenSized` shows that it does not for screen-sized values; the other
  quantities are derived from 16-bit sensor readings and small layout constants.
* `unsigned long` uptime values (32 bits on the target) are `Nat` readings of
  `millis()`; the difference of two readings wraps modulo `2 ^ 32` (`usub`).
* `float` results of `averageXY` are rationals: the sum of four 16-bit readings and
  its quotient by 4 are exact in binary floating point.
* successive `ts.getPoint()` results are a stream `Nat → TS_Point`.
* calls into other modules are recorded, in program order, as a list of `Event`s;
  variables of other modules that the dispatcher reads or writes are fields of
  `Externs`, its own `static` variables are fields of `Statics`.
-/

namespace TouchHandler

/-! ## Sample filter -/

/-- Raw reading of the touch controller (`TS_Point`): position and pressure. -/
structure TS_Point where
  x : Int
  y : Int
  z : Int
deriving DecidableEq

/-- Result of `averageXY`: filtered position and the `fly` (no reliable contact) flag.
When `fly` is set the source leaves `x` and `y` unassigned; they are `0` here and their
values are never used. -/
structure XY_TouchPoint_t where
  x : ℚ
  y : ℚ
  fly : Bool
deriving DecidableEq

/-- State at the exit of the collection loop of `averageXY`: the filled prefix of
`tmp[0]` and `tmp[1]`, the loop counter, the `fly` flag and the number of
`getPoint` calls made. -/
structure Burst where
  tmp0 : List Int
  tmp1 : List Int
  cnt : Nat
  fly : Bool
  polls : Nat
deriving DecidableEq

/-- Collection loop `for (cnt = 0; cnt < 10; cnt++)` of `averageXY`; `n` is the number of
iterations still allowed (`10 - cnt`), `ts k` the result of the `k`-th `getPoint` call. -/
def collectLoop (ts : Nat → TS_Point) : Nat → Nat → List Int → List Int → Burst
  | 0, cnt, tmp0, tmp1 => ⟨tmp0, tmp1, cnt, false, cnt⟩
  | n + 1, cnt, tmp0, tmp1 =>
    let p_sample := ts cnt
    if p_sample.z > 200 then
      collectLoop ts n (cnt + 1) (tmp0 ++ [p_sample.x]) (tmp1 ++ [p_sample.y])
    else
      ⟨tmp0, tmp1, cnt, true, cnt + 1⟩

/-- Inner loop `for (j = i + 1; j < cnt; j++)` of the sort: `n` iterations left,
current `j` and current `min_idx`. -/
def minLoop (a : List Int) : Nat → Nat → Nat → Nat
  | 0, _, min_idx => min_idx
  | n + 1, j, min_idx =>
    minLoop a n (j + 1) (if a.getD min_idx 0 > a.getD j 0 then j else min_idx)

/-- The three-assignment exchange of `tmp[k][i]` and `tmp[k][min_idx]`. -/
def swapAt (a : List Int) (i min_idx : Nat) : List Int :=
  let temp_val := a.getD i 0
  (a.set i (a.getD min_idx 0)).set min_idx temp_val

/-- Outer loop `for (i = 0; i < cnt - 1; i++)` of the sort: `n` iterations left. -/
def sortLoop (cnt : Nat) : Nat → Nat → List Int → List Int
  | 0, _, a => a
  | n + 1, i, a =>
    sortLoop cnt n (i + 1) (swapAt a i (minLoop a (cnt - (i + 1)) (i + 1) i))

/-- In-place ascending sort of the first `cnt` entries of one row of `tmp`. -/
def sortRow (cnt : Nat) (a : List Int) : List Int :=
  sortLoop cnt (cnt - 1) 0 a

/-- Entry `tmp[k][i]` of a row. -/
def cell (a : List Int) (i : Nat) : Int := a.getD i 0

/-- Sum loop of the 4..6 sample branch. -/
def sumFirst (a : List Int) (cnt : Nat) : Int :=
  ((List.range cnt).map (cell a)).sum

/-- The averaging part of `averageXY`, applied to the sorted rows. -/
def averageSorted (cnt : Nat) (s0 s1 : List Int) : XY_TouchPoint_t :=
  if cnt ≥ 10 then
    { x := ((cell s0 3 + cell s0 4 + cell s0 5 + cell s0 6 : Int) : ℚ) / 4
      y := ((cell s1 3 + cell s1 4 + cell s1 5 + cell s1 6 : Int) : ℚ) / 4
      fly := false }
  else if cnt ≥ 7 then
    let mid := cnt / 2
    { x := ((cell s0 (mid - 1) + cell s0 mid + cell s0 (mid + 1) : Int) : ℚ) / 3
      y := ((cell s1 (mid - 1) + cell s1 mid + cell s1 (mid + 1) : Int) : ℚ) / 3
      fly := false }
  else if cnt ≥ 4 then
    { x := (sumFirst s0 cnt : ℚ) / (cnt : ℚ)
      y := (sumFirst s1 cnt : ℚ) / (cnt : ℚ)
      fly := false }
  else
    { x := 0, y := 0, fly := true }

/-- Everything after the collection loop of `averageXY`. -/
def finishBurst (b : Burst) : XY_TouchPoint_t :=
  if b.fly || b.cnt < 4 then
    { x := 0, y := 0, fly := true }
  else
    averageSorted b.cnt (sortRow b.cnt b.tmp0) (sortRow b.cnt b.tmp1)

/-- The burst collected by one call of `averageXY`. -/
def collect (ts : Nat → TS_Point) : Burst := collectLoop ts 10 0 [] []

/-- Function `averageXY`: filtered point of one burst. -/
def averageXY (ts : Nat → TS_Point) : XY_TouchPoint_t := finishBurst (collect ts)

/-- Number of `getPoint` calls made by one call of `averageXY`. -/
def averageXY_polls (ts : Nat → TS_Point) : Nat := (collect ts).polls

/-- Loop invariant of the outer loop: entries before `i` are in order and below every
later entry of the first `cnt`. -/
def SortedUpTo (cnt i : Nat) (a : List Int) : Prop :=
  ∀ p q, p < q → q < cnt → p < i → cell a p ≤ cell a q


/-! ## Specification-side reference for the filter -/

/-- Value at 0-indexed rank `r` of the ascending arrangement of `l`. -/
def rankOf (l : List Int) (r : Nat) : Int := (l.insertionSort (· ≤ ·)).getD r 0

/-- Arithmetic mean of the values at ranks 3, 4, 5, 6 of the ascending arrangement. -/
def meanOfRanks3to6 (l : List Int) : ℚ :=
  ((rankOf l 3 + rankOf l 4 + rankOf l 5 + rankOf l 6 : Int) : ℚ) / 4

/-- X readings of the first `n` samples of a stream, in polling order. -/
def sampleXs (ts : Nat → TS_Point) (n : Nat) : List Int := (List.range n).map (fun k => (ts k).x)

/-- Y readings of the first `n` samples of a stream, in polling order. -/
def sampleYs (ts : Nat → TS_Point) (n : Nat) : List Int := (List.range n).map (fun k => (ts k).y)

/-! ## Dispatcher state -/

/-- Width of `unsigned long` uptime values on the target: readings live below `2 ^ 32`. -/
def UPTIME_MOD : Nat := 4294967296

/-- Subtraction of two `unsigned long` uptime readings (wraps modulo `2 ^ 32`). -/
def usub (a b : Nat) : Nat := (a % UPTIME_MOD + (UPTIME_MOD - b % UPTIME_MOD)) % UPTIME_MOD

/-- Debounce time of the eraser button, `ERASER_BUTTON_DEBOUNCE_TIME`. -/
def ERASER_BUTTON_DEBOUNCE_TIME : Nat := 300

/-- Colour constant `TFT_BLACK` of the display library (`0x0000`). -/
def TFT_BLACK : Nat := 0

/-- Layout and calibration constants of `config.h`, which is not part of the embedded file;
they are parameters of the model. -/
structure Config where
  SCREEN_WIDTH : Int
  SCREEN_HEIGHT : Int
  TOUCH_MIN_X : Int
  TOUCH_MAX_X : Int
  TOUCH_MIN_Y : Int
  TOUCH_MAX_Y : Int
  ERASER_SLIDER_X : Int
  ERASER_SLIDER_WIDTH : Int
  ERASER_SLIDER_HANDLE_W : Int
  PEER_INFO_BUTTON_Y : Int
  PEER_INFO_BUTTON_H : Int
  COLOR_BUTTON_WIDTH : Int
  TOUCH_STROKE_INTERVAL : Nat

/-- Right edge of the left protected area, `BUTTON_AREA_X_MAX`. -/
def BUTTON_AREA_X_MAX (cfg : Config) : Int :=
  cfg.ERASER_SLIDER_X + cfg.ERASER_SLIDER_WIDTH + cfg.ERASER_SLIDER_HANDLE_W + 10

/-- Lower edge of the left protected area, `BUTTON_AREA_Y_MAX`. -/
def BUTTON_AREA_Y_MAX (cfg : Config) : Int := cfg.PEER_INFO_BUTTON_Y + cfg.PEER_INFO_BUTTON_H + 10

/-- Left edge of the right protected area, `BUTTON_AREA_RIGHT_X_MIN`. -/
def BUTTON_AREA_RIGHT_X_MIN (cfg : Config) : Int := cfg.SCREEN_WIDTH - cfg.COLOR_BUTTON_WIDTH - 4

/-- Upper edge of the right protected area, `BUTTON_AREA_RIGHT_Y_MIN`. -/
def BUTTON_AREA_RIGHT_Y_MIN : Int := 4

/-- Lower edge of the right protected area, `BUTTON_AREA_RIGHT_Y_MAX`. -/
def BUTTON_AREA_RIGHT_Y_MAX (cfg : Config) : Int := cfg.SCREEN_HEIGHT - 4

/-- UI modes, `UIState_t` of the UI manager. -/
inductive UIState_t where
  | UI_STATE_MAIN
  | UI_STATE_COLOR_PICKER
  | UI_STATE_POPUP
  | UI_STATE_PEER_INFO
deriving DecidableEq

/-- Record of the drawing history and payload of a sync message, `TouchData_t`. -/
structure TouchData_t where
  x : Int
  y : Int
  timestamp : Nat
  isReset : Bool
  color : Nat
deriving DecidableEq

/-- Message kinds used by the dispatcher. -/
inductive MsgType where
  | MSG_TYPE_DRAW_POINT
  | MSG_TYPE_RESET_CANVAS
deriving DecidableEq

/-- Outbound envelope, `SyncMessage_t`. -/
structure SyncMessage_t where
  type : MsgType
  senderUptime : Nat
  senderOffset : Int
  touch_data : TouchData_t
deriving DecidableEq

/-- Calls into the collaborators (UI manager, raster, serial port, replication layer),
recorded in program order. Their bodies are outside the embedded file. -/
inductive Event where
  | hideCoffeePopup
  | hideProjectInfoPopup
  | handleCustomColorTouch (x y : Int)
  | showCoffeePopup
  | showProjectInfoPopup
  | toggleDebugInfo
  | serialEggLines
  | clearScreenAndCache
  | sendSyncMessage (msg : SyncMessage_t)
  | updateCurrentColor (color : Nat)
  | redrawStarButton
  | redrawEraserButton
  | redrawMainScreen
  | drawEraserSlider
  | handleEraserSliderTouch (x y : Int)
  | showPeerInfoScreen
  | saveScreenArea
  | drawColorSelectors
  | hideStarButton
  | saveScreenshotToSD
  | fillCircle (x y r : Int) (color : Nat)
  | drawPixel (x y : Int) (color : Nat)
  | drawLine (x0 y0 x1 y1 : Int) (color : Nat)
  | serialPeerInfoBackLine
  | hidePeerInfoScreen
deriving DecidableEq

/-- File-local (`static`) variables of the touch handler. -/
structure Statics where
  lastLocalPoint : TS_Point
  lastLocalTouchTime : Nat
  lastResetTime : Nat
  resetPressCount : Int
  lastEraserButtonTime : Nat
deriving DecidableEq

/-- Initial values of the file-local variables. -/
def Statics.init : Statics :=
  { lastLocalPoint := ⟨0, 0, 0⟩, lastLocalTouchTime := 0, lastResetTime := 0,
    resetPressCount := 0, lastEraserButtonTime := 0 }

/-- Modelled from the spec: the drawing-history log (`DrawingHistory`, declared in
`drawing_history.h`, which is not part of the embedded file) is an append-only log of
records with `clear()`; here the list of its records, oldest first. -/
abbrev DrawingHistory := List TouchData_t

/-- Variables owned by other modules that the dispatcher reads or writes. -/
structure Externs where
  isEraserMode : Bool
  eraserRadius : Int
  isEraserSliderVisible : Bool
  isCoffeePopupVisible : Bool
  isProjectInfoPopupVisible : Bool
  currentUIState : UIState_t
  inCustomColorMode : Bool
  showDebugToggleButton : Bool
  isDebugInfoVisible : Bool
  currentColor : Nat
  allDrawingHistory : DrawingHistory
  relativeBootTimeOffset : Int
  iamEffectivelyMoreUptimeDevice : Bool
  iamRequestingAllData : Bool
  initialSyncLogicProcessed : Bool
deriving DecidableEq

/-- Pure helpers of the collaborators: the hit tests of the UI manager and the
platform's integer range mapping `map`. `isColorButtonPressed` yields the colour it
stores in its output argument when it answers true. -/
structure Env where
  map : Int → Int → Int → Int → Int → Int
  isCoffeeButtonPressed : Int → Int → Bool
  isInfoButtonPressed : Int → Int → Bool
  isDebugToggleButtonPressed : Int → Int → Bool
  isResetButtonPressed : Int → Int → Bool
  isColorButtonPressed : Int → Int → Option Nat
  isEraserButtonPressed : Int → Int → Bool
  isEraserSliderPressed : Int → Int → Bool
  isPeerInfoButtonPressed : Int → Int → Bool
  isCustomColorButtonPressed : Int → Int → Bool
  isScreenshotButtonPressed : Int → Int → Bool
  isPeerInfoScreenBackButtonPressed : Int → Int → Bool

/-- What one call of `handleLocalTouch` observes: the touch-detect result, the `millis()`
reading and the stream of sensor samples. -/
structure Input where
  touched : Bool
  currentRawUptime : Nat
  ts : Nat → TS_Point

/-- State after a call together with the collaborator calls it made. -/
structure Outcome where
  statics : Statics
  externs : Externs
  events : List Event
deriving DecidableEq

/-- Conversion of the `float` coordinate to the `long` argument of `map`
(truncation toward zero). -/
def toLong (q : ℚ) : Int := Int.tdiv q.num q.den

/-! ## Eraser guard -/

/-- Result of a 32-bit `int` operation whose exact value is `v`: the value wrapped into the
range from `-2^31` to `2^31 - 1` (two's complement). -/
def wrap32 (v : Int) : Int := (v + 2147483648) % 4294967296 - 2147483648

/-- Horizontal offset `dx_left` of the centre from the left protected area. -/
def dx_left (cfg : Config) (mapX : Int) : Int :=
  if mapX < 0 then wrap32 (-mapX)
  else if mapX > BUTTON_AREA_X_MAX cfg then wrap32 (mapX - BUTTON_AREA_X_MAX cfg)
  else 0

/-- Vertical offset `dy_left` of the centre from the left protected area. -/
def dy_left (cfg : Config) (mapY : Int) : Int :=
  if mapY < 0 then wrap32 (-mapY)
  else if mapY > BUTTON_AREA_Y_MAX cfg then wrap32 (mapY - BUTTON_AREA_Y_MAX cfg)
  else 0

/-- Horizontal offset `dx_right` of the centre from the right protected area. -/
def dx_right (cfg : Config) (mapX : Int) : Int :=
  if mapX < BUTTON_AREA_RIGHT_X_MIN cfg then wrap32 (BUTTON_AREA_RIGHT_X_MIN cfg - mapX)
  else if mapX > cfg.SCREEN_WIDTH then wrap32 (mapX - cfg.SCREEN_WIDTH)
  else 0

/-- Vertical offset `dy_right` of the centre from the right protected area. -/
def dy_right (cfg : Config) (mapY : Int) : Int :=
  if mapY < BUTTON_AREA_RIGHT_Y_MIN then wrap32 (BUTTON_AREA_RIGHT_Y_MIN - mapY)
  else if mapY > BUTTON_AREA_RIGHT_Y_MAX cfg then wrap32 (mapY - BUTTON_AREA_RIGHT_Y_MAX cfg)
  else 0

/-- Value of the `int` expression `dx_left * dx_left + dy_left * dy_left`. -/
def leftSq (cfg : Config) (mapX mapY : Int) : Int :=
  wrap32 (wrap32 (dx_left cfg mapX * dx_left cfg mapX) +
    wrap32 (dy_left cfg mapY * dy_left cfg mapY))

/-- Value of the `int` expression `dx_right * dx_right + dy_right * dy_right`. -/
def rightSq (cfg : Config) (mapX mapY : Int) : Int :=
  wrap32 (wrap32 (dx_right cfg mapX * dx_right cfg mapX) +
    wrap32 (dy_right cfg mapY * dy_right cfg mapY))

/-- Value of the `int` expression `eraserRadius * eraserRadius`. -/
def radiusSq (eraserRadius : Int) : Int := wrap32 (eraserRadius * eraserRadius)

/-- Flag `hitLeftButton`. -/
def hitLeftButton (cfg : Config) (mapX mapY eraserRadius : Int) : Bool :=
  decide (leftSq cfg mapX mapY < radiusSq eraserRadius)

/-- Flag `hitRightButton`. -/
def hitRightButton (cfg : Config) (mapX mapY eraserRadius : Int) : Bool :=
  decide (rightSq cfg mapX mapY < radiusSq eraserRadius)

/-- Outcome of the guard: `true` when the fill is suppressed. -/
def eraserSuppressed (cfg : Config) (mapX mapY eraserRadius : Int) : Bool :=
  hitLeftButton cfg mapX mapY eraserRadius || hitRightButton cfg mapX mapY eraserRadius

/-- Raster calls of the eraser branch. -/
def eraseOps (cfg : Config) (mapX mapY eraserRadius : Int) : List Event :=
  if !hitLeftButton cfg mapX mapY eraserRadius && !hitRightButton cfg mapX mapY eraserRadius then
    [Event.fillCircle mapX mapY eraserRadius TFT_BLACK]
  else []

/-! ## Dispatcher -/

/-- Value of `resetPressCount` right after the rapid-press test of the reset branch. -/
def resetCountBumped (currentRawUptime : Nat) (st : Statics) : Int :=
  if usub currentRawUptime st.lastResetTime < 1000 then st.resetPressCount + 1 else 1

/-- Reset-button branch of `handleLocalTouch`. -/
def resetBranch (currentRawUptime : Nat) (st : Statics) (ex : Externs) : Outcome :=
  let bumped := resetCountBumped currentRawUptime st
  let egg : Bool := decide (bumped ≥ 10)
  let st1 : Statics :=
    { st with resetPressCount := if egg then 0 else bumped, lastResetTime := currentRawUptime }
  let ex1 : Externs :=
    { ex with
      allDrawingHistory := []
      relativeBootTimeOffset := 0
      iamEffectivelyMoreUptimeDevice := false
      iamRequestingAllData := false
      initialSyncLogicProcessed := false }
  let resetMsg : SyncMessage_t :=
    { type := MsgType.MSG_TYPE_RESET_CANVAS
      senderUptime := currentRawUptime
      senderOffset := ex1.relativeBootTimeOffset
      touch_data :=
        { isReset := true, timestamp := currentRawUptime, x := 0, y := 0,
          color := ex1.currentColor } }
  { statics := st1
    externs := ex1
    events := (if egg then [Event.serialEggLines] else []) ++
      [Event.clearScreenAndCache, Event.sendSyncMessage resetMsg] }

/-- Eraser-button branch of `handleLocalTouch`. -/
def eraserButtonBranch (currentRawUptime : Nat) (st : Statics) (ex : Externs) : Outcome :=
  if usub currentRawUptime st.lastEraserButtonTime ≥ ERASER_BUTTON_DEBOUNCE_TIME then
    let mode := !ex.isEraserMode
    let ex1 : Externs := { ex with isEraserMode := mode, isEraserSliderVisible := mode }
    let st1 : Statics := { st with lastEraserButtonTime := currentRawUptime }
    { statics := st1
      externs := ex1
      events :=
        if !ex1.isEraserSliderVisible then [Event.redrawMainScreen]
        else [Event.redrawEraserButton, Event.drawEraserSlider] }
  else
    { statics := st, externs := ex, events := [] }

/-- Raster call of the pen branch: a pixel for a new stroke, a line otherwise. -/
def penOps (cfg : Config) (currentRawUptime : Nat) (mapX mapY : Int) (drawColor : Nat)
    (st : Statics) : List Event :=
  if decide (usub currentRawUptime st.lastLocalTouchTime > cfg.TOUCH_STROKE_INTERVAL)
      || decide (st.lastLocalPoint.z = 0) then
    [Event.drawPixel mapX mapY drawColor]
  else
    [Event.drawLine st.lastLocalPoint.x st.lastLocalPoint.y mapX mapY drawColor]

/-- Colour `drawColor` of a draw action. -/
def drawColorOf (ex : Externs) : Nat := if ex.isEraserMode then TFT_BLACK else ex.currentColor

/-- Record `currentDrawPoint` built by a draw action. -/
def drawPointOf (currentRawUptime : Nat) (mapX mapY : Int) (ex : Externs) : TouchData_t :=
  { x := mapX, y := mapY, timestamp := currentRawUptime, isReset := false,
    color := drawColorOf ex }

/-- Drawing part of `handleLocalTouch`, reached when no button claimed the touch. -/
def drawBranch (cfg : Config) (currentRawUptime : Nat) (mapX mapY : Int)
    (st : Statics) (ex : Externs) : Outcome :=
  let sliderEvents := if ex.isEraserSliderVisible then [Event.redrawMainScreen] else []
  let ex1 : Externs :=
    if ex.isEraserSliderVisible then { ex with isEraserSliderVisible := false } else ex
  let drawColor := drawColorOf ex1
  let raster :=
    if ex1.isEraserMode then eraseOps cfg mapX mapY ex1.eraserRadius
    else penOps cfg currentRawUptime mapX mapY drawColor st
  let st1 : Statics :=
    { st with lastLocalPoint := ⟨mapX, mapY, 1⟩, lastLocalTouchTime := currentRawUptime }
  let currentDrawPoint := drawPointOf currentRawUptime mapX mapY ex1
  let ex2 : Externs :=
    { ex1 with allDrawingHistory := ex1.allDrawingHistory ++ [currentDrawPoint] }
  let drawMsg : SyncMessage_t :=
    { type := MsgType.MSG_TYPE_DRAW_POINT
      senderUptime := currentRawUptime
      senderOffset := ex2.relativeBootTimeOffset
      touch_data := currentDrawPoint }
  { statics := st1
    externs := ex2
    events := sliderEvents ++ raster ++ [Event.sendSyncMessage drawMsg] }

/-- Test of the debug panel and of the debug toggle button. -/
def debugToggleClaims (cfg : Config) (env : Env) (ex : Externs) (mapX mapY : Int) : Bool :=
  if ex.isDebugInfoVisible then
    (decide (mapX ≥ 2) && decide (mapX ≤ 122) && decide (mapY ≥ cfg.SCREEN_HEIGHT - 42)
      && decide (mapY ≤ cfg.SCREEN_HEIGHT)) && !env.isInfoButtonPressed mapX mapY
  else if ex.showDebugToggleButton then env.isDebugToggleButtonPressed mapX mapY
  else false

/-- Button chain and drawing of the main screen (not in custom colour mode). -/
def mainScreenTouch (cfg : Config) (env : Env) (currentRawUptime : Nat) (mapX mapY : Int)
    (st : Statics) (ex : Externs) : Outcome :=
  if ex.showDebugToggleButton && env.isCoffeeButtonPressed mapX mapY then
    { statics := st, externs := ex, events := [Event.showCoffeePopup] }
  else if ex.isDebugInfoVisible && env.isInfoButtonPressed mapX mapY then
    { statics := st, externs := ex, events := [Event.showProjectInfoPopup] }
  else if debugToggleClaims cfg env ex mapX mapY then
    { statics := st, externs := ex, events := [Event.toggleDebugInfo] }
  else if env.isResetButtonPressed mapX mapY then
    resetBranch currentRawUptime st ex
  else
    match env.isColorButtonPressed mapX mapY with
    | some selectedColorHolder =>
      { statics := st
        externs := { ex with isEraserMode := false }
        events := [Event.updateCurrentColor selectedColorHolder, Event.redrawStarButton,
          Event.redrawEraserButton] }
    | none =>
      if env.isEraserButtonPressed mapX mapY then
        eraserButtonBranch currentRawUptime st ex
      else if env.isEraserSliderPressed mapX mapY then
        { statics := st, externs := ex, events := [Event.handleEraserSliderTouch mapX mapY] }
      else if env.isPeerInfoButtonPressed mapX mapY then
        { statics := st, externs := ex, events := [Event.showPeerInfoScreen] }
      else if env.isCustomColorButtonPressed mapX mapY then
        { statics := st
          externs := { ex with inCustomColorMode := true }
          events := [Event.saveScreenArea, Event.drawColorSelectors, Event.hideStarButton] }
      else if env.isScreenshotButtonPressed mapX mapY then
        { statics := st, externs := ex, events := [Event.saveScreenshotToSD] }
      else
        drawBranch cfg currentRawUptime mapX mapY st ex

/-- Screen column `mapX` of a filtered point. -/
def mapXOf (cfg : Config) (env : Env) (xy1 : XY_TouchPoint_t) : Int :=
  env.map (toLong xy1.x) cfg.TOUCH_MIN_X cfg.TOUCH_MAX_X 0 cfg.SCREEN_WIDTH

/-- Screen row `mapY` of a filtered point. -/
def mapYOf (cfg : Config) (env : Env) (xy1 : XY_TouchPoint_t) : Int :=
  env.map (toLong xy1.y) cfg.TOUCH_MIN_Y cfg.TOUCH_MAX_Y 0 cfg.SCREEN_HEIGHT

/-- Part of `handleLocalTouch` that follows the final `averageXY` call: mapping to screen
coordinates and the `switch` over the UI mode. -/
def dispatch (cfg : Config) (env : Env) (currentRawUptime : Nat) (xy1 : XY_TouchPoint_t)
    (st : Statics) (ex : Externs) : Outcome :=
  if !xy1.fly then
    let mapX := mapXOf cfg env xy1
    let mapY := mapYOf cfg env xy1
    match ex.currentUIState with
    | UIState_t.UI_STATE_MAIN =>
      if ex.inCustomColorMode then
        { statics := st, externs := ex, events := [Event.handleCustomColorTouch mapX mapY] }
      else
        mainScreenTouch cfg env currentRawUptime mapX mapY st ex
    | UIState_t.UI_STATE_COLOR_PICKER =>
      { statics := st, externs := ex, events := [Event.handleCustomColorTouch mapX mapY] }
    | UIState_t.UI_STATE_POPUP =>
      { statics := st, externs := ex, events := [] }
    | UIState_t.UI_STATE_PEER_INFO =>
      if env.isPeerInfoScreenBackButtonPressed mapX mapY then
        { statics := st, externs := ex
          events := [Event.serialPeerInfoBackLine, Event.hidePeerInfoScreen] }
      else
        { statics := st, externs := ex, events := [] }
  else
    { statics := st, externs := ex, events := [] }

/-- Samples left in the stream after one `averageXY` call has consumed its share. -/
def restAfter (ts : Nat → TS_Point) : Nat → TS_Point := fun k => ts (averageXY_polls ts + k)

/-- Assignment `lastLocalPoint.z = 0`. -/
def clearContact (st : Statics) : Statics :=
  { st with lastLocalPoint := { st.lastLocalPoint with z := 0 } }

/-- Function `handleLocalTouch`: one cycle of the dispatcher. -/
def handleLocalTouch (cfg : Config) (env : Env) (inp : Input) (st : Statics) (ex : Externs) :
    Outcome :=
  if inp.touched then
    if ex.isCoffeePopupVisible then
      if !(averageXY inp.ts).fly then
        { statics := clearContact st, externs := ex, events := [Event.hideCoffeePopup] }
      else
        dispatch cfg env inp.currentRawUptime (averageXY (restAfter inp.ts)) st ex
    else if ex.isProjectInfoPopupVisible then
      if !(averageXY inp.ts).fly then
        { statics := clearContact st, externs := ex, events := [Event.hideProjectInfoPopup] }
      else
        dispatch cfg env inp.currentRawUptime (averageXY (restAfter inp.ts)) st ex
    else
      dispatch cfg env inp.currentRawUptime (averageXY inp.ts) st ex
  else
    { statics := clearContact st, externs := ex, events := [] }

/-! ## Sample streams used as concrete inputs -/

/-- Stream that yields the listed samples in order and pressure-free readings afterwards. -/
def streamOf (l : List TS_Point) : Nat → TS_Point := fun k => l.getD k ⟨0, 0, 0⟩

/-- Ten pressed samples whose X readings are `5,1,9,3,7,2,8,4,6,0` and whose Y readings are
`10,90,20,80,30,70,40,60,50,0`. -/
def tenSamples : List TS_Point :=
  [⟨5, 10, 300⟩, ⟨1, 90, 300⟩, ⟨9, 20, 300⟩, ⟨3, 80, 300⟩, ⟨7, 30, 300⟩,
   ⟨2, 70, 300⟩, ⟨8, 40, 300⟩, ⟨4, 60, 300⟩, ⟨6, 50, 300⟩, ⟨0, 0, 300⟩]

/-- Seven pressed samples followed by a lift-off reading. -/
def sevenThenLift : List TS_Point :=
  [⟨5, 10, 300⟩, ⟨1, 90, 300⟩, ⟨9, 20, 300⟩, ⟨3, 80, 300⟩, ⟨7, 30, 300⟩,
   ⟨2, 70, 300⟩, ⟨8, 40, 300⟩, ⟨4, 60, 0⟩]

/-! ## Geometry of the protected areas -/

/-- Grid point `(px, py)` lies in the left protected rectangle
`[0, BUTTON_AREA_X_MAX] x [0, BUTTON_AREA_Y_MAX]`. -/
def inLeftArea (cfg : Config) (px py : Int) : Prop :=
  0 ≤ px ∧ px ≤ BUTTON_AREA_X_MAX cfg ∧ 0 ≤ py ∧ py ≤ BUTTON_AREA_Y_MAX cfg

/-- Grid point `(px, py)` lies in the right protected rectangle
`[BUTTON_AREA_RIGHT_X_MIN, SCREEN_WIDTH] x [BUTTON_AREA_RIGHT_Y_MIN, BUTTON_AREA_RIGHT_Y_MAX]`. -/
def inRightArea (cfg : Config) (px py : Int) : Prop :=
  BUTTON_AREA_RIGHT_X_MIN cfg ≤ px ∧ px ≤ cfg.SCREEN_WIDTH ∧
  BUTTON_AREA_RIGHT_Y_MIN ≤ py ∧ py ≤ BUTTON_AREA_RIGHT_Y_MAX cfg

instance (cfg : Config) (px py : Int) : Decidable (inLeftArea cfg px py) := by
  unfold inLeftArea; infer_instance

instance (cfg : Config) (px py : Int) : Decidable (inRightArea cfg px py) := by
  unfold inRightArea; infer_instance

/-- Point `(px, py)` of the real plane lies in the left protected rectangle. -/
def inLeftAreaReal (cfg : Config) (px py : ℝ) : Prop :=
  0 ≤ px ∧ px ≤ (BUTTON_AREA_X_MAX cfg : ℝ) ∧ 0 ≤ py ∧ py ≤ (BUTTON_AREA_Y_MAX cfg : ℝ)

/-- Point `(px, py)` of the real plane lies in the right protected rectangle. -/
def inRightAreaReal (cfg : Config) (px py : ℝ) : Prop :=
  (BUTTON_AREA_RIGHT_X_MIN cfg : ℝ) ≤ px ∧ px ≤ (cfg.SCREEN_WIDTH : ℝ) ∧
  (BUTTON_AREA_RIGHT_Y_MIN : ℝ) ≤ py ∧ py ≤ (BUTTON_AREA_RIGHT_Y_MAX cfg : ℝ)

/-- Squared Euclidean distance between two grid points. -/
def sqDist (ax ay bx by_ : Int) : Int := (ax - bx) * (ax - bx) + (ay - by_) * (ay - by_)

/-- Squared Euclidean distance from a grid point to a point of the real plane. -/
def sqDistReal (ax ay : Int) (bx by_ : ℝ) : ℝ :=
  ((ax : ℝ) - bx) * ((ax : ℝ) - bx) + ((ay : ℝ) - by_) * ((ay : ℝ) - by_)

/-- Both protected rectangles have points: their bounds are in order. -/
def areasNonEmpty (cfg : Config) : Prop :=
  0 ≤ BUTTON_AREA_X_MAX cfg ∧ 0 ≤ BUTTON_AREA_Y_MAX cfg ∧
  BUTTON_AREA_RIGHT_X_MIN cfg ≤ cfg.SCREEN_WIDTH ∧
  BUTTON_AREA_RIGHT_Y_MIN ≤ BUTTON_AREA_RIGHT_Y_MAX cfg

instance (cfg : Config) : Decidable (areasNonEmpty cfg) := by
  unfold areasNonEmpty; infer_instance

/-- Centre on the boundary of the left protected rectangle. -/
def onLeftBoundary (cfg : Config) (px py : Int) : Prop :=
  inLeftArea cfg px py ∧
  (px = 0 ∨ px = BUTTON_AREA_X_MAX cfg ∨ py = 0 ∨ py = BUTTON_AREA_Y_MAX cfg)

/-- Centre on the boundary of the right protected rectangle. -/
def onRightBoundary (cfg : Config) (px py : Int) : Prop :=
  inRightArea cfg px py ∧
  (px = BUTTON_AREA_RIGHT_X_MIN cfg ∨ px = cfg.SCREEN_WIDTH ∨
    py = BUTTON_AREA_RIGHT_Y_MIN ∨ py = BUTTON_AREA_RIGHT_Y_MAX cfg)

instance (cfg : Config) (px py : Int) : Decidable (onLeftBoundary cfg px py) := by
  unfold onLeftBoundary; infer_instance

instance (cfg : Config) (px py : Int) : Decidable (onRightBoundary cfg px py) := by
  unfold onRightBoundary; infer_instance

/-- Offset of a coordinate `m` from the interval `[lo, hi]`, as the guard computes it. -/
def axisOffset (lo hi m : Int) : Int :=
  if m < lo then lo - m else if m > hi then m - hi else 0

/-- Coordinate of `[lo, hi]` nearest to `m`. -/
def clampTo (lo hi m : Int) : Int :=
  if m < lo then lo else if m > hi then hi else m

/-- A sample layout: a 320 x 240 screen with a slider at column 40 and a 30 pixel wide
colour button; used as a concrete configuration. -/
def sampleConfig : Config :=
  { SCREEN_WIDTH := 320, SCREEN_HEIGHT := 240,
    TOUCH_MIN_X := 200, TOUCH_MAX_X := 3700, TOUCH_MIN_Y := 240, TOUCH_MAX_Y := 3800,
    ERASER_SLIDER_X := 40, ERASER_SLIDER_WIDTH := 10, ERASER_SLIDER_HANDLE_W := 10,
    PEER_INFO_BUTTON_Y := 200, PEER_INFO_BUTTON_H := 20, COLOR_BUTTON_WIDTH := 30,
    TOUCH_STROKE_INTERVAL := 50 }

/-- Value representable in the 32-bit signed `int` of the target. -/
def fitsInt32 (v : Int) : Prop := -2147483648 ≤ v ∧ v ≤ 2147483647

/-- Screen-sized magnitudes: between `-8192` and `8192`. -/
def screenSized (v : Int) : Prop := -8192 ≤ v ∧ v ≤ 8192

/-- Exact squared distance from the centre to the left protected rectangle. -/
def leftDistSq (cfg : Config) (mapX mapY : Int) : Int :=
  axisOffset 0 (BUTTON_AREA_X_MAX cfg) mapX * axisOffset 0 (BUTTON_AREA_X_MAX cfg) mapX +
  axisOffset 0 (BUTTON_AREA_Y_MAX cfg) mapY * axisOffset 0 (BUTTON_AREA_Y_MAX cfg) mapY

/-- Exact squared distance from the centre to the right protected rectangle. -/
def rightDistSq (cfg : Config) (mapX mapY : Int) : Int :=
  axisOffset (BUTTON_AREA_RIGHT_X_MIN cfg) cfg.SCREEN_WIDTH mapX *
    axisOffset (BUTTON_AREA_RIGHT_X_MIN cfg) cfg.SCREEN_WIDTH mapX +
  axisOffset BUTTON_AREA_RIGHT_Y_MIN (BUTTON_AREA_RIGHT_Y_MAX cfg) mapY *
    axisOffset BUTTON_AREA_RIGHT_Y_MIN (BUTTON_AREA_RIGHT_Y_MAX cfg) mapY

/-- The guard's 32-bit arithmetic does not overflow: the squared distances from the centre to
both rectangles and the squared radius are at most `2^31 - 1`. -/
def guardFits (cfg : Config) (mapX mapY eraserRadius : Int) : Prop :=
  leftDistSq cfg mapX mapY ≤ 2147483647 ∧ rightDistSq cfg mapX mapY ≤ 2147483647 ∧
  eraserRadius * eraserRadius ≤ 2147483647

instance (cfg : Config) (mapX mapY eraserRadius : Int) :
    Decidable (guardFits cfg mapX mapY eraserRadius) := by
  unfold guardFits; infer_instance

/-! ## Classification of cycles -/

/-- The valid filtered point that reaches the mode switch of `handleLocalTouch` in a cycle:
none when no touch is detected, when a popup is dismissed, or when the final burst is
rejected. -/
def cyclePoint (inp : Input) (ex : Externs) : Option XY_TouchPoint_t :=
  if inp.touched then
    if ex.isCoffeePopupVisible || ex.isProjectInfoPopupVisible then
      if (averageXY inp.ts).fly then
        if (averageXY (restAfter inp.ts)).fly then none else some (averageXY (restAfter inp.ts))
      else none
    else
      if (averageXY inp.ts).fly then none else some (averageXY inp.ts)
  else none

/-- Screen coordinates `(mapX, mapY)` of the point that reaches the mode switch, if any. -/
def screenPoint (cfg : Config) (env : Env) (inp : Input) (ex : Externs) : Option (Int × Int) :=
  (cyclePoint inp ex).map (fun xy1 => (mapXOf cfg env xy1, mapYOf cfg env xy1))

/-- The button chain of the main screen is entered: main mode without the colour picker. -/
def onMainScreen (ex : Externs) : Prop :=
  ex.currentUIState = UIState_t.UI_STATE_MAIN ∧ ex.inCustomColorMode = false

instance (ex : Externs) : Decidable (onMainScreen ex) := by
  unfold onMainScreen; infer_instance

/-- One of the regions tested before the reset button claims the point: the popup-open
button, the project-info button, or the debug panel or toggle. -/
def claimedBeforeReset (cfg : Config) (env : Env) (ex : Externs) (mapX mapY : Int) : Bool :=
  (ex.showDebugToggleButton && env.isCoffeeButtonPressed mapX mapY) ||
  (ex.isDebugInfoVisible && env.isInfoButtonPressed mapX mapY) ||
  debugToggleClaims cfg env ex mapX mapY

/-- The reset button claims the point `(mapX, mapY)`. -/
def resetClaims (cfg : Config) (env : Env) (ex : Externs) (mapX mapY : Int) : Prop :=
  onMainScreen ex ∧ claimedBeforeReset cfg env ex mapX mapY = false ∧
  env.isResetButtonPressed mapX mapY = true

instance (cfg : Config) (env : Env) (ex : Externs) (mapX mapY : Int) :
    Decidable (resetClaims cfg env ex mapX mapY) := by
  unfold resetClaims; infer_instance

/-- No button, slider or panel of the main screen claims the point `(mapX, mapY)`, so the
touch is a draw action. -/
def drawClaims (cfg : Config) (env : Env) (ex : Externs) (mapX mapY : Int) : Prop :=
  onMainScreen ex ∧ claimedBeforeReset cfg env ex mapX mapY = false ∧
  env.isResetButtonPressed mapX mapY = false ∧
  env.isColorButtonPressed mapX mapY = none ∧
  env.isEraserButtonPressed mapX mapY = false ∧
  env.isEraserSliderPressed mapX mapY = false ∧
  env.isPeerInfoButtonPressed mapX mapY = false ∧
  env.isCustomColorButtonPressed mapX mapY = false ∧
  env.isScreenshotButtonPressed mapX mapY = false

instance (cfg : Config) (env : Env) (ex : Externs) (mapX mapY : Int) :
    Decidable (drawClaims cfg env ex mapX mapY) := by
  unfold drawClaims; infer_instance

/-- Raster calls (`fillCircle`, `drawPixel`, `drawLine`) among the recorded calls. -/
def rasterCalls (evs : List Event) : List Event :=
  evs.filter (fun e =>
    match e with
    | Event.fillCircle _ _ _ _ => true
    | Event.drawPixel _ _ _ => true
    | Event.drawLine _ _ _ _ _ => true
    | _ => false)

/-- Envelopes handed to `sendSyncMessage`, in order. -/
def broadcasts (evs : List Event) : List SyncMessage_t :=
  evs.filterMap (fun e =>
    match e with
    | Event.sendSyncMessage msg => some msg
    | _ => none)

/-- Everything one cycle of the dispatcher is run with, apart from the file-local variables:
the collaborators' helpers, the observed input and the values of the shared variables at
entry. -/
structure Cycle where
  env : Env
  inp : Input
  ex : Externs

/-- File-local variables after one cycle. -/
def stepStatics (cfg : Config) (st : Statics) (c : Cycle) : Statics :=
  (handleLocalTouch cfg c.env c.inp st c.ex).statics

/-- File-local variables after a sequence of cycles. Between cycles the other modules may
change the shared variables at will: each cycle carries its own values. -/
def runCycles (cfg : Config) (st : Statics) (cs : List Cycle) : Statics :=
  cs.foldl (stepStatics cfg) st

/-- The reset button claims the touch of the cycle. -/
def isResetCycle (cfg : Config) (c : Cycle) : Bool :=
  match screenPoint cfg c.env c.inp c.ex with
  | some (mapX, mapY) => decide (resetClaims cfg c.env c.ex mapX mapY)
  | none => false

/-- Uptime readings of the reset-button touches of a sequence of cycles, in order. -/
def resetUptimes (cfg : Config) (cs : List Cycle) : List Nat :=
  (cs.filter (isResetCycle cfg)).map (fun c => c.inp.currentRawUptime)

/-! ## Concrete collaborators and inputs -/

/-- The platform's `map(x, in_min, in_max, out_min, out_max)` in integer arithmetic. -/
def arduinoMap (x in_min in_max out_min out_max : Int) : Int :=
  Int.tdiv ((x - in_min) * (out_max - out_min)) (in_max - in_min) + out_min

/-- Sample collaborators: the reset button covers `[280, 310] x [4, 34]`, no other button
answers. -/
def sampleEnv : Env :=
  { map := arduinoMap
    isCoffeeButtonPressed := fun _ _ => false
    isInfoButtonPressed := fun _ _ => false
    isDebugToggleButtonPressed := fun _ _ => false
    isResetButtonPressed := fun x y => decide (280 ≤ x) && decide (x ≤ 310) && decide (4 ≤ y)
      && decide (y ≤ 34)
    isColorButtonPressed := fun _ _ => none
    isEraserButtonPressed := fun _ _ => false
    isEraserSliderPressed := fun _ _ => false
    isPeerInfoButtonPressed := fun _ _ => false
    isCustomColorButtonPressed := fun _ _ => false
    isScreenshotButtonPressed := fun _ _ => false
    isPeerInfoScreenBackButtonPressed := fun _ _ => false }

/-- Shared variables of a freshly started main screen with brush colour `c`. -/
def mainExterns (c : Nat) : Externs :=
  { isEraserMode := false, eraserRadius := 5, isEraserSliderVisible := false,
    isCoffeePopupVisible := false, isProjectInfoPopupVisible := false,
    currentUIState := UIState_t.UI_STATE_MAIN, inCustomColorMode := false,
    showDebugToggleButton := false, isDebugInfoVisible := false, currentColor := c,
    allDrawingHistory := [], relativeBootTimeOffset := 7,
    iamEffectivelyMoreUptimeDevice := true, iamRequestingAllData := true,
    initialSyncLogicProcessed := true }

/-- Ten pressed samples at the raw position `(x, y)`. -/
def steady (x y : Int) : List TS_Point := List.replicate 10 ⟨x, y, 300⟩

/-- A cycle of the sample collaborators with a detected touch. -/
def touchCycle (ex : Externs) (t : Nat) (samples : List TS_Point) : Cycle :=
  { env := sampleEnv, inp := { touched := true, currentRawUptime := t, ts := streamOf samples },
    ex := ex }

/-- Shared variables with the coffee popup shown, in UI mode `mode`. -/
def coffeePopupExterns (c : Nat) (mode : UIState_t) : Externs :=
  { mainExterns c with isCoffeePopupVisible := true, currentUIState := mode }

/-- A rejected reading (no pressure) followed by ten pressed samples at the raw position
`(x, y)`. -/
def liftThenSteady (x y : Int) : List TS_Point := ⟨0, 0, 0⟩ :: steady x y

/-! ## The rapid-press counter -/

/-- The pair `(resetPressCount, lastResetTime)` after a reset-button touch at uptime `t`. -/
def resetStep (p : Int × Nat) (t : Nat) : Int × Nat :=
  ((if (if usub t p.2 < 1000 then p.1 + 1 else 1) ≥ 10 then 0
    else (if usub t p.2 < 1000 then p.1 + 1 else 1)), t)

/-- The pair `(resetPressCount, lastResetTime)` of the file-local variables. -/
def resetFieldsOf (st : Statics) : Int × Nat := (st.resetPressCount, st.lastResetTime)

/-- A touch on the sample reset button at uptime `t`, main screen, brush colour `31`. -/
def resetTouch (t : Nat) : Cycle := touchCycle (mainExterns 31) t (steady 3430 500)

/-- A cycle of the sample collaborators in which no touch is detected. -/
def idleCycle (t : Nat) : Cycle :=
  { env := sampleEnv, inp := { touched := false, currentRawUptime := t, ts := streamOf [] },
    ex := mainExterns 31 }

/-- Ten touches on the sample reset button, `500` ms apart, with idle cycles in between. -/
def tenQuickResets : List Cycle :=
  [resetTouch 100, idleCycle 350, resetTouch 600, resetTouch 1100, resetTouch 1600,
   idleCycle 1700, resetTouch 2100, resetTouch 2600, resetTouch 3100, resetTouch 3600,
   resetTouch 4100, resetTouch 4600]

/-- Four touches on the sample reset button, `1500` ms apart. -/
def slowResets : List Cycle :=
  [resetTouch 100, idleCycle 900, resetTouch 1600, resetTouch 3100, resetTouch 4600]

/-! ## Further classification of cycles -/

/-- Filtered points obtained by the `averageXY` calls of one cycle, in call order: with a
popup shown a second burst is polled only when the first is rejected. -/
def filteredPoints (inp : Input) (ex : Externs) : List XY_TouchPoint_t :=
  if inp.touched then
    if ex.isCoffeePopupVisible || ex.isProjectInfoPopupVisible then
      if (averageXY inp.ts).fly then [averageXY inp.ts, averageXY (restAfter inp.ts)]
      else [averageXY inp.ts]
    else [averageXY inp.ts]
  else []

/-- A standard colour swatch claims the point `(mapX, mapY)` and yields colour `c`. -/
def swatchClaims (cfg : Config) (env : Env) (ex : Externs) (mapX mapY : Int) (c : Nat) : Prop :=
  onMainScreen ex ∧ claimedBeforeReset cfg env ex mapX mapY = false ∧
  env.isResetButtonPressed mapX mapY = false ∧
  env.isColorButtonPressed mapX mapY = some c

instance (cfg : Config) (env : Env) (ex : Externs) (mapX mapY : Int) (c : Nat) :
    Decidable (swatchClaims cfg env ex mapX mapY c) := by
  unfold swatchClaims; infer_instance

/-- The eraser toggle button claims the point `(mapX, mapY)`. -/
def eraserButtonClaims (cfg : Config) (env : Env) (ex : Externs) (mapX mapY : Int) : Prop :=
  onMainScreen ex ∧ claimedBeforeReset cfg env ex mapX mapY = false ∧
  env.isResetButtonPressed mapX mapY = false ∧
  env.isColorButtonPressed mapX mapY = none ∧
  env.isEraserButtonPressed mapX mapY = true

instance (cfg : Config) (env : Env) (ex : Externs) (mapX mapY : Int) :
    Decidable (eraserButtonClaims cfg env ex mapX mapY) := by
  unfold eraserButtonClaims; infer_instance

/-- Sample collaborators with a colour swatch of colour `2016` over `[4, 34] x [4, 34]`
and the eraser toggle button over `[4, 34] x [40, 70]`, besides the sample reset button. -/
def paletteEnv : Env :=
  { sampleEnv with
    isColorButtonPressed := fun x y =>
      if decide (4 ≤ x) && decide (x ≤ 34) && decide (4 ≤ y) && decide (y ≤ 34) then some 2016
      else none
    isEraserButtonPressed := fun x y =>
      decide (4 ≤ x) && decide (x ≤ 34) && decide (40 ≤ y) && decide (y ≤ 70) }

/-- A cycle of the palette collaborators with a detected touch. -/
def paletteCycle (ex : Externs) (t : Nat) (samples : List TS_Point) : Cycle :=
  { env := paletteEnv, inp := { touched := true, currentRawUptime := t, ts := streamOf samples },
    ex := ex }

/-- Shared variables of the main screen in eraser mode with the slider shown, radius `r`. -/
def eraserExterns (c : Nat) (r : Int) : Externs :=
  { mainExterns c with isEraserMode := true, isEraserSliderVisible := true, eraserRadius := r }

/-- The stored contact state `(lastLocalPoint, lastLocalTouchTime)`. -/
def contactOf (st : Statics) : TS_Point × Nat := (st.lastLocalPoint, st.lastLocalTouchTime)

/-- File-local variables right after a pen stroke began at `(10, 10)` at uptime `1000`. -/
def drawnStatics : Statics :=
  { Statics.init with lastLocalPoint := ⟨10, 10, 1⟩, lastLocalTouchTime := 1000 }

/-! ## The priority chain of the main screen -/

/-- Interactive regions of the main screen. -/
inductive Region where
  | popupOpen
  | projectInfo
  | debugToggle
  | reset
  | swatch
  | eraserToggle
  | eraserSlider
  | peerInfo
  | customColor
  | screenshot
deriving DecidableEq

/-- The regions in the order in which `handleLocalTouch` tests them. -/
def regionOrder : List Region :=
  [Region.popupOpen, Region.projectInfo, Region.debugToggle, Region.reset, Region.swatch,
   Region.eraserToggle, Region.eraserSlider, Region.peerInfo, Region.customColor,
   Region.screenshot]

/-- Position of a region in the test order. -/
def Region.rank : Region → Nat
  | Region.popupOpen => 0
  | Region.projectInfo => 1
  | Region.debugToggle => 2
  | Region.reset => 3
  | Region.swatch => 4
  | Region.eraserToggle => 5
  | Region.eraserSlider => 6
  | Region.peerInfo => 7
  | Region.customColor => 8
  | Region.screenshot => 9

/-- The region is enabled and its hit test answers true at `(mapX, mapY)`: the condition of
its `if` in `handleLocalTouch`. -/
def regionFires (cfg : Config) (env : Env) (ex : Externs) (mapX mapY : Int) : Region → Bool
  | Region.popupOpen => ex.showDebugToggleButton && env.isCoffeeButtonPressed mapX mapY
  | Region.projectInfo => ex.isDebugInfoVisible && env.isInfoButtonPressed mapX mapY
  | Region.debugToggle => debugToggleClaims cfg env ex mapX mapY
  | Region.reset => env.isResetButtonPressed mapX mapY
  | Region.swatch => (env.isColorButtonPressed mapX mapY).isSome
  | Region.eraserToggle => env.isEraserButtonPressed mapX mapY
  | Region.eraserSlider => env.isEraserSliderPressed mapX mapY
  | Region.peerInfo => env.isPeerInfoButtonPressed mapX mapY
  | Region.customColor => env.isCustomColorButtonPressed mapX mapY
  | Region.screenshot => env.isScreenshotButtonPressed mapX mapY

/-- The action of a region: the body of its `if` in `handleLocalTouch`. -/
def regionAction (env : Env) (currentRawUptime : Nat) (mapX mapY : Int) (st : Statics)
    (ex : Externs) : Region → Outcome
  | Region.popupOpen => { statics := st, externs := ex, events := [Event.showCoffeePopup] }
  | Region.projectInfo =>
    { statics := st, externs := ex, events := [Event.showProjectInfoPopup] }
  | Region.debugToggle => { statics := st, externs := ex, events := [Event.toggleDebugInfo] }
  | Region.reset => resetBranch currentRawUptime st ex
  | Region.swatch =>
    match env.isColorButtonPressed mapX mapY with
    | some selectedColorHolder =>
      { statics := st
        externs := { ex with isEraserMode := false }
        events := [Event.updateCurrentColor selectedColorHolder, Event.redrawStarButton,
          Event.redrawEraserButton] }
    | none => { statics := st, externs := ex, events := [] }
  | Region.eraserToggle => eraserButtonBranch currentRawUptime st ex
  | Region.eraserSlider =>
    { statics := st, externs := ex, events := [Event.handleEraserSliderTouch mapX mapY] }
  | Region.peerInfo => { statics := st, externs := ex, events := [Event.showPeerInfoScreen] }
  | Region.customColor =>
    { statics := st
      externs := { ex with inCustomColorMode := true }
      events := [Event.saveScreenArea, Event.drawColorSelectors, Event.hideStarButton] }
  | Region.screenshot => { statics := st, externs := ex, events := [Event.saveScreenshotToSD] }

/-- First-match-wins over the ordered regions: the first region of the test order that fires
at `(mapX, mapY)`, if any. -/
def claimingRegion (cfg : Config) (env : Env) (ex : Externs) (mapX mapY : Int) : Option Region :=
  regionOrder.find? (regionFires cfg env ex mapX mapY)

/-- The region whose action issues a collaborator call, for the calls that only one region
action issues; none for the calls shared between actions (`redrawEraserButton`,
`redrawMainScreen`), the raster calls and the draw envelope. -/
def regionOfCall : Event → Option Region
  | Event.showCoffeePopup => some Region.popupOpen
  | Event.showProjectInfoPopup => some Region.projectInfo
  | Event.toggleDebugInfo => some Region.debugToggle
  | Event.serialEggLines => some Region.reset
  | Event.clearScreenAndCache => some Region.reset
  | Event.sendSyncMessage msg =>
    if msg.type = MsgType.MSG_TYPE_RESET_CANVAS then some Region.reset else none
  | Event.updateCurrentColor _ => some Region.swatch
  | Event.redrawStarButton => some Region.swatch
  | Event.drawEraserSlider => some Region.eraserToggle
  | Event.handleEraserSliderTouch _ _ => some Region.eraserSlider
  | Event.showPeerInfoScreen => some Region.peerInfo
  | Event.saveScreenArea => some Region.customColor
  | Event.drawColorSelectors => some Region.customColor
  | Event.hideStarButton => some Region.customColor
  | Event.saveScreenshotToSD => some Region.screenshot
  | _ => none

/-- Sample collaborators on which the reset button and a swatch of colour `2016` overlap on
`[280, 310] x [4, 34]`. -/
def overlapEnv : Env :=
  { sampleEnv with
    isColorButtonPressed := fun x y =>
      if decide (280 ≤ x) && decide (x ≤ 310) && decide (4 ≤ y) && decide (y ≤ 34) then some 2016
      else none }

/-! ## Reordered bursts -/

/-- The stream whose first ten samples carry the X readings of `ts` reordered by `σ` and,
independently, its Y readings reordered by `τ`; pressures and later samples are kept. -/
def reorderSamples (ts : Nat → TS_Point) (σ τ : Equiv.Perm (Fin 10)) : Nat → TS_Point :=
  fun k =>
    if h : k < 10 then ⟨(ts (σ ⟨k, h⟩)).x, (ts (τ ⟨k, h⟩)).y, (ts k).z⟩ else ts k

/-- The samples of `tenSamples` with the X readings in reverse order and the Y readings rotated
by one place. -/
def tenShuffled : List TS_Point :=
  [⟨0, 90, 300⟩, ⟨6, 20, 300⟩, ⟨4, 80, 300⟩, ⟨8, 30, 300⟩, ⟨2, 70, 300⟩,
   ⟨7, 40, 300⟩, ⟨3, 60, 300⟩, ⟨9, 50, 300⟩, ⟨1, 0, 300⟩, ⟨5, 10, 300⟩]

/-! # Theorems -/

/-! ### Correctness of the in-place sort -/

theorem cell_eq_getElem (a : List Int) (i : Nat) (h : i < a.length) : cell a i = a[i] := by
  simp [cell, List.getD_eq_getElem?_getD, h]

theorem swapAt_length (a : List Int) (i m : Nat) : (swapAt a i m).length = a.length := by
  simp [swapAt]

theorem cell_swapAt (a : List Int) (i m k : Nat) (hi : i < a.length) (hm : m < a.length) :
    cell (swapAt a i m) k =
      if k = m then cell a i else if k = i then cell a m else cell a k := by
  unfold swapAt cell
  simp only [List.getD_eq_getElem?_getD, List.getElem?_set, List.length_set]
  by_cases h1 : m = k
  · subst h1
    simp [hm]
  · by_cases h2 : i = k
    · subst h2
      have h1' : ¬ i = m := fun h => h1 h.symm
      simp [h1, h1', hi]
    · have h1' : ¬ k = m := fun h => h1 h.symm
      have h2' : ¬ k = i := fun h => h2 h.symm
      simp [h1, h2, h1', h2']

theorem swapAt_perm (a : List Int) (i m : Nat) (hi : i < a.length) (hm : m < a.length) :
    List.Perm (swapAt a i m) a := by
  rw [List.perm_iff_count]
  intro b
  have hci : (if a[i] == b then 1 else 0) ≤ a.count b := by
    split
    · rename_i h
      have : b ∈ a := (beq_iff_eq).1 h ▸ List.getElem_mem hi
      exact List.count_pos_iff.2 this
    · exact Nat.zero_le _
  unfold swapAt
  simp only [List.getD_eq_getElem?_getD, List.getElem?_eq_getElem hi, List.getElem?_eq_getElem hm,
    Option.getD_some]
  rw [List.count_set _ _ _ _ (by simp [hm]), List.count_set _ _ _ _ hi]
  by_cases him : i = m
  · subst him
    simp only [List.getElem_set_self]
    omega
  · simp only [List.getElem_set_ne him]
    omega

/-- The index chosen by the inner loop is the start index or one of the scanned ones,
and its entry is a lower bound of all of them. -/
theorem minLoop_spec (a : List Int) :
    ∀ (n j m : Nat),
      (minLoop a n j m = m ∨ (j ≤ minLoop a n j m ∧ minLoop a n j m < j + n)) ∧
      cell a (minLoop a n j m) ≤ cell a m ∧
      ∀ k, j ≤ k → k < j + n → cell a (minLoop a n j m) ≤ cell a k := by
  intro n
  induction n with
  | zero =>
    intro j m
    refine ⟨Or.inl rfl, le_refl _, ?_⟩
    intro k h1 h2
    omega
  | succ n ih =>
    intro j m
    simp only [minLoop]
    obtain ⟨h1, h2, h3⟩ := ih (j + 1) (if a.getD m 0 > a.getD j 0 then j else m)
    have hcell : ∀ t, a.getD t 0 = cell a t := fun t => rfl
    simp only [hcell] at h1 h2 h3 ⊢
    by_cases hc : cell a m > cell a j
    · simp only [hc, if_true] at h1 h2 h3 ⊢
      refine ⟨?_, ?_, ?_⟩
      · rcases h1 with h | ⟨h, h'⟩
        · right; rw [h]; omega
        · right; omega
      · exact le_trans h2 (le_of_lt hc)
      · intro k hk1 hk2
        by_cases hkj : k = j
        · subst hkj; exact h2
        · exact h3 k (by omega) (by omega)
    · simp only [hc, if_false] at h1 h2 h3 ⊢
      refine ⟨?_, h2, ?_⟩
      · rcases h1 with h | ⟨h, h'⟩
        · left; exact h
        · right; omega
      · intro k hk1 hk2
        by_cases hkj : k = j
        · subst hkj; exact le_trans h2 (not_lt.1 hc)
        · exact h3 k (by omega) (by omega)

theorem sortLoop_spec (cnt : Nat) :
    ∀ (n i : Nat) (a : List Int), i + n + 1 = cnt → cnt ≤ a.length → SortedUpTo cnt i a →
      (sortLoop cnt n i a).length = a.length ∧ List.Perm (sortLoop cnt n i a) a ∧
      SortedUpTo cnt (cnt - 1) (sortLoop cnt n i a) := by
  intro n
  induction n with
  | zero =>
    intro i a h1 h2 h3
    have : cnt - 1 = i := by omega
    simpa [sortLoop, this] using h3
  | succ n ih =>
    intro i a h1 h2 h3
    simp only [sortLoop]
    obtain ⟨hm1, hm2, hm3⟩ := minLoop_spec a (cnt - (i + 1)) (i + 1) i
    generalize minLoop a (cnt - (i + 1)) (i + 1) i = m at hm1 hm2 hm3
    have hi : i < a.length := by omega
    have hm : m < a.length := by omega
    have hmi : i ≤ m := by omega
    have hstep : SortedUpTo cnt (i + 1) (swapAt a i m) := by
      intro p q hpq hq hp
      rw [cell_swapAt a i m p hi hm, cell_swapAt a i m q hi hm]
      by_cases hpi : p = i
      · subst hpi
        by_cases hpm : p = m
        · subst hpm
          have hq1 : ¬ q = p := by omega
          simp only [if_true, hq1, if_false]
          exact hm3 q (by omega) (by omega)
        · have hq1 : ¬ q = p := by omega
          simp only [hpm, if_false, if_true, hq1]
          by_cases hqm : q = m
          · simp only [hqm, if_true]; exact hm2
          · simp only [hqm, if_false]
            exact hm3 q (by omega) (by omega)
      · have hp' : p < i := by omega
        have hpm : ¬ p = m := by omega
        simp only [hpm, hpi, if_false]
        by_cases hqm : q = m
        · simp only [hqm, if_true]
          exact h3 p i hp' (by omega) hp'
        · simp only [hqm, if_false]
          by_cases hqi : q = i
          · simp only [hqi, if_true]
            exact h3 p m (by omega) (by omega) hp'
          · simp only [hqi, if_false]
            exact h3 p q hpq hq hp'
    obtain ⟨r1, r2, r3⟩ := ih (i + 1) (swapAt a i m) (by omega)
      (by rw [swapAt_length]; exact h2) hstep
    refine ⟨by rw [r1, swapAt_length], r2.trans (swapAt_perm a i m hi hm), r3⟩

theorem sortRow_length (a : List Int) : (sortRow a.length a).length = a.length := by
  unfold sortRow
  rcases Nat.eq_zero_or_pos a.length with h | h
  · simp [h, sortLoop]
  · exact (sortLoop_spec a.length (a.length - 1) 0 a (by omega) (le_refl _)
      (fun p q _ _ hp => absurd hp (Nat.not_lt_zero p))).1

theorem sortRow_perm (a : List Int) : List.Perm (sortRow a.length a) a := by
  unfold sortRow
  rcases Nat.eq_zero_or_pos a.length with h | h
  · simp [h, sortLoop]
  · exact (sortLoop_spec a.length (a.length - 1) 0 a (by omega) (le_refl _)
      (fun p q _ _ hp => absurd hp (Nat.not_lt_zero p))).2.1

theorem sortRow_sorted (a : List Int) : List.Sorted (· ≤ ·) (sortRow a.length a) := by
  have hlen := sortRow_length a
  have key : SortedUpTo a.length (a.length - 1) (sortRow a.length a) := by
    unfold sortRow
    rcases Nat.eq_zero_or_pos a.length with h | h
    · intro p q _ hq _; omega
    · exact (sortLoop_spec a.length (a.length - 1) 0 a (by omega) (le_refl _)
        (fun p q _ _ hp => absurd hp (Nat.not_lt_zero p))).2.2
  rw [List.Sorted, List.pairwise_iff_getElem]
  intro p q hp hq hpq
  have := key p q hpq (by omega) (by omega)
  rwa [cell_eq_getElem _ _ hp, cell_eq_getElem _ _ hq] at this

/-- The in-place sort of the source returns the ascending arrangement of the row. -/
theorem sortRow_eq_insertionSort (a : List Int) :
    sortRow a.length a = a.insertionSort (· ≤ ·) :=
  List.eq_of_perm_of_sorted
    ((sortRow_perm a).trans (List.perm_insertionSort (· ≤ ·) a).symm)
    (sortRow_sorted a) (List.sorted_insertionSort (· ≤ ·) a)

/-! ### The collection loop -/

theorem collectLoop_pressed (ts : Nat → TS_Point) :
    ∀ (n cnt : Nat) (t0 t1 : List Int),
      (∀ k, cnt ≤ k → k < cnt + n → (ts k).z > 200) →
      collectLoop ts n cnt t0 t1 =
        ⟨t0 ++ (List.range' cnt n).map (fun k => (ts k).x),
         t1 ++ (List.range' cnt n).map (fun k => (ts k).y), cnt + n, false, cnt + n⟩ := by
  intro n
  induction n with
  | zero => intro cnt t0 t1 _; simp [collectLoop]
  | succ n ih =>
    intro cnt t0 t1 h
    have h0 : (ts cnt).z > 200 := h cnt (le_refl _) (by omega)
    simp only [collectLoop, h0, if_true]
    rw [ih (cnt + 1) _ _ (fun k hk1 hk2 => h k (by omega) (by omega))]
    simp [List.range'_succ, Nat.add_assoc, Nat.add_comm 1 n]

theorem collectLoop_lift (ts : Nat → TS_Point) :
    ∀ (n cnt : Nat) (t0 t1 : List Int) (k : Nat), cnt ≤ k → k < cnt + n →
      (∀ i, cnt ≤ i → i < k → (ts i).z > 200) → (ts k).z ≤ 200 →
      collectLoop ts n cnt t0 t1 =
        ⟨t0 ++ (List.range' cnt (k - cnt)).map (fun i => (ts i).x),
         t1 ++ (List.range' cnt (k - cnt)).map (fun i => (ts i).y), k, true, k + 1⟩ := by
  intro n
  induction n with
  | zero => intro cnt t0 t1 k h1 h2; omega
  | succ n ih =>
    intro cnt t0 t1 k h1 h2 h3 h4
    by_cases hk : k = cnt
    · subst hk
      have : ¬ (ts k).z > 200 := not_lt.2 h4
      simp [collectLoop, this]
    · have h0 : (ts cnt).z > 200 := h3 cnt (le_refl _) (by omega)
      simp only [collectLoop, h0, if_true]
      rw [ih (cnt + 1) _ _ k (by omega) (by omega) (fun i hi1 hi2 => h3 i (by omega) hi2) h4]
      have : k - cnt = (k - (cnt + 1)) + 1 := by omega
      rw [this]
      simp [List.range'_succ]

theorem collect_pressed (ts : Nat → TS_Point) (h : ∀ i < 10, (ts i).z > 200) :
    collect ts = ⟨sampleXs ts 10, sampleYs ts 10, 10, false, 10⟩ := by
  unfold collect
  rw [collectLoop_pressed ts 10 0 [] [] (fun k _ hk => h k (by omega))]
  simp [sampleXs, sampleYs, List.range_eq_range']

theorem collect_lift (ts : Nat → TS_Point) (k : Nat) (hk : k < 10)
    (hbefore : ∀ i < k, (ts i).z > 200) (hlift : (ts k).z ≤ 200) :
    collect ts = ⟨sampleXs ts k, sampleYs ts k, k, true, k + 1⟩ := by
  unfold collect
  rw [collectLoop_lift ts 10 0 [] [] k (Nat.zero_le _) (by omega)
    (fun i _ hi => hbefore i hi) hlift]
  simp [sampleXs, sampleYs, List.range_eq_range']

theorem sampleXs_length (ts : Nat → TS_Point) (n : Nat) : (sampleXs ts n).length = n := by
  simp [sampleXs]

theorem sampleYs_length (ts : Nat → TS_Point) (n : Nat) : (sampleYs ts n).length = n := by
  simp [sampleYs]

/-- A stream either keeps the pressure above the threshold for ten samples or has a first
sample at or below it among them. -/
theorem first_lift (ts : Nat → TS_Point) :
    (∀ i < 10, (ts i).z > 200) ∨
    ∃ k, k < 10 ∧ (∀ i < k, (ts i).z > 200) ∧ (ts k).z ≤ 200 := by
  by_cases h : ∀ i < 10, (ts i).z > 200
  · exact Or.inl h
  · right
    have hex : ∃ k, k < 10 ∧ (ts k).z ≤ 200 := by
      by_contra hne
      exact h (fun i hi => by
        by_contra hc
        exact hne ⟨i, hi, not_lt.1 hc⟩)
    classical
    refine ⟨Nat.find hex, (Nat.find_spec hex).1, ?_, (Nat.find_spec hex).2⟩
    intro i hi
    by_contra hc
    exact Nat.find_min hex hi ⟨by have := (Nat.find_spec hex).1; omega, not_lt.1 hc⟩

theorem averageXY_pressed (ts : Nat → TS_Point) (h : ∀ i < 10, (ts i).z > 200) :
    averageXY ts =
      { x := meanOfRanks3to6 (sampleXs ts 10), y := meanOfRanks3to6 (sampleYs ts 10),
        fly := false } := by
  have hx := sortRow_eq_insertionSort (sampleXs ts 10)
  have hy := sortRow_eq_insertionSort (sampleYs ts 10)
  rw [sampleXs_length] at hx
  rw [sampleYs_length] at hy
  simp [averageXY, collect_pressed ts h, finishBurst, averageSorted, hx, hy, meanOfRanks3to6,
    rankOf, cell]

theorem averageXY_lift (ts : Nat → TS_Point) (k : Nat) (hk : k < 10)
    (hbefore : ∀ i < k, (ts i).z > 200) (hlift : (ts k).z ≤ 200) :
    (averageXY ts).fly = true := by
  simp [averageXY, collect_lift ts k hk hbefore hlift, finishBurst]

/-! ### Claims about the sample filter -/

theorem meanOfRanks3to6_of_sorted (l s : List Int) (hp : List.Perm s l)
    (hs : List.Sorted (· ≤ ·) s) :
    meanOfRanks3to6 l = ((s.getD 3 0 + s.getD 4 0 + s.getD 5 0 + s.getD 6 0 : Int) : ℚ) / 4 := by
  have : l.insertionSort (· ≤ ·) = s :=
    List.eq_of_perm_of_sorted ((List.perm_insertionSort (· ≤ ·) l).trans hp.symm)
      (List.sorted_insertionSort (· ≤ ·) l) hs
  simp [meanOfRanks3to6, rankOf, this]

/-- C1: for every burst of ten samples that all have pressure above 200, `averageXY` returns a
valid point (`fly = false`) whose `x` is the mean of the values at ranks 3, 4, 5, 6 of the
ascending X readings and whose `y` is the mean of ranks 3..6 of the ascending Y readings, each
axis being arranged on its own: the result agrees with every ascending permutation of the X
readings and, separately, of the Y readings. -/
theorem C1_ten_pressed_samples_mean_of_ranks_3_to_6 (ts : Nat → TS_Point)
    (h : ∀ i < 10, (ts i).z > 200) :
    (averageXY ts).fly = false ∧
    (averageXY ts).x = meanOfRanks3to6 (sampleXs ts 10) ∧
    (averageXY ts).y = meanOfRanks3to6 (sampleYs ts 10) ∧
    (∀ sx : List Int, List.Perm sx (sampleXs ts 10) → List.Sorted (· ≤ ·) sx →
      (averageXY ts).x = ((sx.getD 3 0 + sx.getD 4 0 + sx.getD 5 0 + sx.getD 6 0 : Int) : ℚ) / 4) ∧
    (∀ sy : List Int, List.Perm sy (sampleYs ts 10) → List.Sorted (· ≤ ·) sy →
      (averageXY ts).y = ((sy.getD 3 0 + sy.getD 4 0 + sy.getD 5 0 + sy.getD 6 0 : Int) : ℚ) / 4) := by
  rw [averageXY_pressed ts h]
  refine ⟨rfl, rfl, rfl, ?_, ?_⟩
  · intro sx hp hs
    exact meanOfRanks3to6_of_sorted _ sx hp hs
  · intro sy hp hs
    exact meanOfRanks3to6_of_sorted _ sy hp hs

/-- C1 at the burst with X readings `5,1,9,3,7,2,8,4,6,0`: the filtered `x` is `4.5`
(and `y` is `45` for the Y readings `10,90,20,80,30,70,40,60,50,0`). -/
theorem C1_witness_x_is_four_and_a_half :
    (averageXY (streamOf tenSamples)).fly = false ∧
    (averageXY (streamOf tenSamples)).x = 9 / 2 ∧
    (averageXY (streamOf tenSamples)).y = 45 := by
  obtain ⟨h1, h2, h3, _, _⟩ :=
    C1_ten_pressed_samples_mean_of_ranks_3_to_6 (streamOf tenSamples) (by decide)
  refine ⟨h1, ?_, ?_⟩
  · rw [h2]
    have e3 : rankOf (sampleXs (streamOf tenSamples) 10) 3 = 3 := by decide
    have e4 : rankOf (sampleXs (streamOf tenSamples) 10) 4 = 4 := by decide
    have e5 : rankOf (sampleXs (streamOf tenSamples) 10) 5 = 5 := by decide
    have e6 : rankOf (sampleXs (streamOf tenSamples) 10) 6 = 6 := by decide
    rw [meanOfRanks3to6, e3, e4, e5, e6]
    norm_num
  · rw [h3]
    have e3 : rankOf (sampleYs (streamOf tenSamples) 10) 3 = 30 := by decide
    have e4 : rankOf (sampleYs (streamOf tenSamples) 10) 4 = 40 := by decide
    have e5 : rankOf (sampleYs (streamOf tenSamples) 10) 5 = 50 := by decide
    have e6 : rankOf (sampleYs (streamOf tenSamples) 10) 6 = 60 := by decide
    rw [meanOfRanks3to6, e3, e4, e5, e6]
    norm_num

/-- C2: for every stream of sensor samples, `averageXY` returns a valid point exactly when the
first ten samples all have pressure above 200; it then has polled ten samples and stored them in
polling order. When the first sample at or below 200 is sample `k < 10`, it has polled `k + 1`
samples, gathered the `k` before it in order, and returns `fly = true`; in particular this is so
whenever fewer than four samples were gathered. -/
theorem C2_valid_iff_ten_pressed_samples (ts : Nat → TS_Point) :
    ((averageXY ts).fly = false ↔ ∀ i < 10, (ts i).z > 200) ∧
    ((∀ i < 10, (ts i).z > 200) →
      averageXY_polls ts = 10 ∧ (collect ts).cnt = 10 ∧
      (collect ts).tmp0 = sampleXs ts 10 ∧ (collect ts).tmp1 = sampleYs ts 10) ∧
    (∀ k < 10, (∀ i < k, (ts i).z > 200) → (ts k).z ≤ 200 →
      averageXY_polls ts = k + 1 ∧ (collect ts).cnt = k ∧
      (collect ts).tmp0 = sampleXs ts k ∧ (collect ts).tmp1 = sampleYs ts k ∧
      (averageXY ts).fly = true) ∧
    (∀ k < 4, (∀ i < k, (ts i).z > 200) → (ts k).z ≤ 200 → (averageXY ts).fly = true) := by
  refine ⟨⟨?_, ?_⟩, ?_, ?_, ?_⟩
  · intro hv
    rcases first_lift ts with h | ⟨k, hk, hb, hl⟩
    · exact h
    · rw [averageXY_lift ts k hk hb hl] at hv
      exact absurd hv (by decide)
  · intro h
    rw [averageXY_pressed ts h]
  · intro h
    simp [averageXY_polls, collect_pressed ts h]
  · intro k hk hb hl
    simp [averageXY_polls, collect_lift ts k hk hb hl, averageXY_lift ts k hk hb hl]
  · intro k hk hb hl
    exact averageXY_lift ts k (by omega) hb hl

/-- C3 (evaluation at the failing input): on a burst of seven pressed samples followed by the
lift-off sample, the collection loop stops with `cnt = 7` and `averageXY` returns `fly = true`;
the three-value average of ranks 2, 3, 4 (here `5` for X) is what the averaging stage would
produce for that count, but it is not reached. -/
theorem C3_seven_sample_burst_returns_fly :
    (collect (streamOf sevenThenLift)).cnt = 7 ∧
    (collect (streamOf sevenThenLift)).fly = true ∧
    (averageXY (streamOf sevenThenLift)).fly = true ∧
    (averageSorted 7 (sortRow 7 (sampleXs (streamOf sevenThenLift) 7))
      (sortRow 7 (sampleYs (streamOf sevenThenLift) 7))).fly = false ∧
    (averageSorted 7 (sortRow 7 (sampleXs (streamOf sevenThenLift) 7))
      (sortRow 7 (sampleYs (streamOf sevenThenLift) 7))).x = 5 := by
  have hc := collect_lift (streamOf sevenThenLift) 7 (by decide) (by decide) (by decide)
  refine ⟨by rw [hc], by rw [hc], averageXY_lift _ 7 (by decide) (by decide) (by decide), ?_, ?_⟩
  · simp [averageSorted]
  · have hs : sortRow 7 (sampleXs (streamOf sevenThenLift) 7) = [1, 2, 3, 5, 7, 8, 9] := by
      decide
    rw [hs]
    norm_num [averageSorted, cell]

/-- Whatever the stream, a burst that ends before ten samples is rejected: the branches of the
averaging stage for counts below ten are never taken by `averageXY`. -/
theorem averageXY_valid_only_with_ten (ts : Nat → TS_Point) (h : (averageXY ts).fly = false) :
    (collect ts).cnt = 10 := by
  rcases first_lift ts with hp | ⟨k, hk, hb, hl⟩
  · rw [collect_pressed ts hp]
  · rw [averageXY_lift ts k hk hb hl] at h
    exact absurd h (by decide)

/-! ### The eraser guard -/

theorem wrap32_of_fits (v : Int) (h : fitsInt32 v) : wrap32 v = v := by
  unfold fitsInt32 at h
  unfold wrap32
  omega

theorem neg_sq_le_self_le_sq (d : Int) : -(d * d) ≤ d ∧ d ≤ d * d := by
  rcases le_or_lt d 0 with h | h
  · constructor <;> nlinarith [mul_self_nonneg d]
  · constructor <;> nlinarith [mul_self_nonneg d]

theorem sq_sum_fits (a b : Int) (h : a * a + b * b ≤ 2147483647) :
    fitsInt32 a ∧ fitsInt32 b ∧ fitsInt32 (a * a) ∧ fitsInt32 (b * b) ∧
    fitsInt32 (a * a + b * b) := by
  have ha := mul_self_nonneg a
  have hb := mul_self_nonneg b
  have ha' := neg_sq_le_self_le_sq a
  have hb' := neg_sq_le_self_le_sq b
  unfold fitsInt32
  refine ⟨⟨?_, ?_⟩, ⟨?_, ?_⟩, ⟨?_, ?_⟩, ⟨?_, ?_⟩, ⟨?_, ?_⟩⟩ <;> linarith [ha'.1, ha'.2, hb'.1, hb'.2]

theorem wrapped_sq_sum (a b : Int) (h : a * a + b * b ≤ 2147483647) :
    wrap32 (wrap32 (a * a) + wrap32 (b * b)) = a * a + b * b := by
  obtain ⟨_, _, h3, h4, h5⟩ := sq_sum_fits a b h
  rw [wrap32_of_fits _ h3, wrap32_of_fits _ h4, wrap32_of_fits _ h5]

theorem dx_left_eq (cfg : Config) (m : Int)
    (h : fitsInt32 (axisOffset 0 (BUTTON_AREA_X_MAX cfg) m)) :
    dx_left cfg m = axisOffset 0 (BUTTON_AREA_X_MAX cfg) m := by
  unfold dx_left
  unfold axisOffset at h ⊢
  split_ifs at h ⊢
  · rw [show -m = 0 - m by ring]
    exact wrap32_of_fits _ h
  · exact wrap32_of_fits _ h
  · rfl

theorem dy_left_eq (cfg : Config) (m : Int)
    (h : fitsInt32 (axisOffset 0 (BUTTON_AREA_Y_MAX cfg) m)) :
    dy_left cfg m = axisOffset 0 (BUTTON_AREA_Y_MAX cfg) m := by
  unfold dy_left
  unfold axisOffset at h ⊢
  split_ifs at h ⊢
  · rw [show -m = 0 - m by ring]
    exact wrap32_of_fits _ h
  · exact wrap32_of_fits _ h
  · rfl

theorem dx_right_eq (cfg : Config) (m : Int)
    (h : fitsInt32 (axisOffset (BUTTON_AREA_RIGHT_X_MIN cfg) cfg.SCREEN_WIDTH m)) :
    dx_right cfg m = axisOffset (BUTTON_AREA_RIGHT_X_MIN cfg) cfg.SCREEN_WIDTH m := by
  unfold dx_right
  unfold axisOffset at h ⊢
  split_ifs at h ⊢
  · exact wrap32_of_fits _ h
  · exact wrap32_of_fits _ h
  · rfl

theorem dy_right_eq (cfg : Config) (m : Int)
    (h : fitsInt32 (axisOffset BUTTON_AREA_RIGHT_Y_MIN (BUTTON_AREA_RIGHT_Y_MAX cfg) m)) :
    dy_right cfg m = axisOffset BUTTON_AREA_RIGHT_Y_MIN (BUTTON_AREA_RIGHT_Y_MAX cfg) m := by
  unfold dy_right
  unfold axisOffset at h ⊢
  split_ifs at h ⊢
  · exact wrap32_of_fits _ h
  · exact wrap32_of_fits _ h
  · rfl

/-- Without overflow the 32-bit value compared for the left area is the exact squared
distance. -/
theorem leftSq_eq_dist (cfg : Config) (mapX mapY : Int)
    (h : leftDistSq cfg mapX mapY ≤ 2147483647) :
    leftSq cfg mapX mapY = leftDistSq cfg mapX mapY := by
  unfold leftDistSq at h
  obtain ⟨h1, h2, _, _, _⟩ := sq_sum_fits _ _ h
  unfold leftSq leftDistSq
  rw [dx_left_eq cfg mapX h1, dy_left_eq cfg mapY h2]
  exact wrapped_sq_sum _ _ h

/-- Without overflow the 32-bit value compared for the right area is the exact squared
distance. -/
theorem rightSq_eq_dist (cfg : Config) (mapX mapY : Int)
    (h : rightDistSq cfg mapX mapY ≤ 2147483647) :
    rightSq cfg mapX mapY = rightDistSq cfg mapX mapY := by
  unfold rightDistSq at h
  obtain ⟨h1, h2, _, _, _⟩ := sq_sum_fits _ _ h
  unfold rightSq rightDistSq
  rw [dx_right_eq cfg mapX h1, dy_right_eq cfg mapY h2]
  exact wrapped_sq_sum _ _ h

theorem radiusSq_eq (r : Int) (h : r * r ≤ 2147483647) : radiusSq r = r * r := by
  unfold radiusSq
  exact wrap32_of_fits _ ⟨by linarith [mul_self_nonneg r], h⟩

theorem axisOffset_sq_le_real (lo hi m : Int) (p : ℝ) (h1 : (lo : ℝ) ≤ p) (h2 : p ≤ (hi : ℝ)) :
    ((axisOffset lo hi m : Int) : ℝ) * ((axisOffset lo hi m : Int) : ℝ) ≤
      ((m : ℝ) - p) * ((m : ℝ) - p) := by
  unfold axisOffset
  split_ifs with c1 c2
  · have : (m : ℝ) < (lo : ℝ) := by exact_mod_cast c1
    push_cast
    nlinarith
  · have : (hi : ℝ) < (m : ℝ) := by exact_mod_cast c2
    push_cast
    nlinarith
  · push_cast
    nlinarith [mul_self_nonneg ((m : ℝ) - p)]

theorem clampTo_mem (lo hi m : Int) (h : lo ≤ hi) :
    lo ≤ clampTo lo hi m ∧ clampTo lo hi m ≤ hi := by
  unfold clampTo
  split_ifs <;> omega

theorem clampTo_dist (lo hi m : Int) :
    (m - clampTo lo hi m) * (m - clampTo lo hi m) =
      axisOffset lo hi m * axisOffset lo hi m := by
  unfold clampTo axisOffset
  split_ifs <;> ring

theorem axisOffset_inside (lo hi m : Int) (h1 : lo ≤ m) (h2 : m ≤ hi) : axisOffset lo hi m = 0 := by
  unfold axisOffset
  split_ifs <;> omega

theorem leftDistSq_le_real (cfg : Config) (mapX mapY : Int) (px py : ℝ)
    (h : inLeftAreaReal cfg px py) :
    (leftDistSq cfg mapX mapY : ℝ) ≤ sqDistReal mapX mapY px py := by
  obtain ⟨h1, h2, h3, h4⟩ := h
  have hx := axisOffset_sq_le_real 0 (BUTTON_AREA_X_MAX cfg) mapX px (by simpa using h1) h2
  have hy := axisOffset_sq_le_real 0 (BUTTON_AREA_Y_MAX cfg) mapY py (by simpa using h3) h4
  unfold leftDistSq sqDistReal
  push_cast
  linarith

theorem rightDistSq_le_real (cfg : Config) (mapX mapY : Int) (px py : ℝ)
    (h : inRightAreaReal cfg px py) :
    (rightDistSq cfg mapX mapY : ℝ) ≤ sqDistReal mapX mapY px py := by
  obtain ⟨h1, h2, h3, h4⟩ := h
  have hx := axisOffset_sq_le_real (BUTTON_AREA_RIGHT_X_MIN cfg) cfg.SCREEN_WIDTH mapX px h1 h2
  have hy := axisOffset_sq_le_real BUTTON_AREA_RIGHT_Y_MIN (BUTTON_AREA_RIGHT_Y_MAX cfg)
    mapY py h3 h4
  unfold rightDistSq sqDistReal
  push_cast
  linarith

theorem inLeftArea_real (cfg : Config) (px py : Int) (h : inLeftArea cfg px py) :
    inLeftAreaReal cfg (px : ℝ) (py : ℝ) := by
  obtain ⟨h1, h2, h3, h4⟩ := h
  exact ⟨by exact_mod_cast h1, by exact_mod_cast h2, by exact_mod_cast h3, by exact_mod_cast h4⟩

theorem inRightArea_real (cfg : Config) (px py : Int) (h : inRightArea cfg px py) :
    inRightAreaReal cfg (px : ℝ) (py : ℝ) := by
  obtain ⟨h1, h2, h3, h4⟩ := h
  exact ⟨by exact_mod_cast h1, by exact_mod_cast h2, by exact_mod_cast h3, by exact_mod_cast h4⟩

theorem sqDistReal_cast (ax ay bx by_ : Int) :
    sqDistReal ax ay (bx : ℝ) (by_ : ℝ) = ((sqDist ax ay bx by_ : Int) : ℝ) := by
  unfold sqDistReal sqDist
  push_cast
  ring

theorem leftDistSq_attained (cfg : Config) (hne : areasNonEmpty cfg) (mapX mapY : Int) :
    ∃ px py, inLeftArea cfg px py ∧ sqDist mapX mapY px py = leftDistSq cfg mapX mapY := by
  obtain ⟨h1, h2, _, _⟩ := hne
  refine ⟨clampTo 0 (BUTTON_AREA_X_MAX cfg) mapX, clampTo 0 (BUTTON_AREA_Y_MAX cfg) mapY, ?_, ?_⟩
  · have a := clampTo_mem 0 (BUTTON_AREA_X_MAX cfg) mapX h1
    have b := clampTo_mem 0 (BUTTON_AREA_Y_MAX cfg) mapY h2
    exact ⟨a.1, a.2, b.1, b.2⟩
  · unfold sqDist leftDistSq
    rw [clampTo_dist, clampTo_dist]

theorem rightDistSq_attained (cfg : Config) (hne : areasNonEmpty cfg) (mapX mapY : Int) :
    ∃ px py, inRightArea cfg px py ∧ sqDist mapX mapY px py = rightDistSq cfg mapX mapY := by
  obtain ⟨_, _, h3, h4⟩ := hne
  refine ⟨clampTo (BUTTON_AREA_RIGHT_X_MIN cfg) cfg.SCREEN_WIDTH mapX,
    clampTo BUTTON_AREA_RIGHT_Y_MIN (BUTTON_AREA_RIGHT_Y_MAX cfg) mapY, ?_, ?_⟩
  · have a := clampTo_mem (BUTTON_AREA_RIGHT_X_MIN cfg) cfg.SCREEN_WIDTH mapX h3
    have b := clampTo_mem BUTTON_AREA_RIGHT_Y_MIN (BUTTON_AREA_RIGHT_Y_MAX cfg) mapY h4
    exact ⟨a.1, a.2, b.1, b.2⟩
  · unfold sqDist rightDistSq
    rw [clampTo_dist, clampTo_dist]

theorem leftDistSq_nonneg (cfg : Config) (mapX mapY : Int) : 0 ≤ leftDistSq cfg mapX mapY := by
  unfold leftDistSq
  exact add_nonneg (mul_self_nonneg _) (mul_self_nonneg _)

theorem rightDistSq_nonneg (cfg : Config) (mapX mapY : Int) : 0 ≤ rightDistSq cfg mapX mapY := by
  unfold rightDistSq
  exact add_nonneg (mul_self_nonneg _) (mul_self_nonneg _)

/-- Inside the left rectangle both offsets are `0`, whatever the word size. -/
theorem leftSq_inside (cfg : Config) (mapX mapY : Int) (h : inLeftArea cfg mapX mapY) :
    leftSq cfg mapX mapY = 0 := by
  obtain ⟨h1, h2, h3, h4⟩ := h
  unfold leftSq dx_left dy_left
  rw [if_neg (not_lt.2 h1), if_neg (not_lt.2 h2), if_neg (not_lt.2 h3), if_neg (not_lt.2 h4)]
  decide

/-- Inside the right rectangle both offsets are `0`, whatever the word size. -/
theorem rightSq_inside (cfg : Config) (mapX mapY : Int) (h : inRightArea cfg mapX mapY) :
    rightSq cfg mapX mapY = 0 := by
  obtain ⟨h1, h2, h3, h4⟩ := h
  unfold rightSq dx_right dy_right
  rw [if_neg (not_lt.2 h1), if_neg (not_lt.2 h2), if_neg (not_lt.2 h3), if_neg (not_lt.2 h4)]
  decide

theorem hitLeftButton_iff (cfg : Config) (mapX mapY r : Int) :
    hitLeftButton cfg mapX mapY r = true ↔ leftSq cfg mapX mapY < radiusSq r := by
  simp [hitLeftButton]

theorem hitRightButton_iff (cfg : Config) (mapX mapY r : Int) :
    hitRightButton cfg mapX mapY r = true ↔ rightSq cfg mapX mapY < radiusSq r := by
  simp [hitRightButton]

theorem eraserSuppressed_iff (cfg : Config) (mapX mapY r : Int) :
    eraserSuppressed cfg mapX mapY r = true ↔
      leftSq cfg mapX mapY < radiusSq r ∨ rightSq cfg mapX mapY < radiusSq r := by
  simp [eraserSuppressed, hitLeftButton_iff, hitRightButton_iff]

/-- Without overflow the guard compares the exact squared distances with the exact squared
radius. -/
theorem eraserSuppressed_iff_exact (cfg : Config) (mapX mapY r : Int)
    (hfit : guardFits cfg mapX mapY r) :
    eraserSuppressed cfg mapX mapY r = true ↔
      leftDistSq cfg mapX mapY < r * r ∨ rightDistSq cfg mapX mapY < r * r := by
  rw [eraserSuppressed_iff, leftSq_eq_dist cfg mapX mapY hfit.1,
    rightSq_eq_dist cfg mapX mapY hfit.2.1, radiusSq_eq r hfit.2.2]

theorem eraseOps_eq (cfg : Config) (mapX mapY r : Int) :
    eraseOps cfg mapX mapY r =
      if eraserSuppressed cfg mapX mapY r then []
      else [Event.fillCircle mapX mapY r TFT_BLACK] := by
  unfold eraseOps eraserSuppressed
  cases hitLeftButton cfg mapX mapY r <;> cases hitRightButton cfg mapX mapY r <;> rfl

theorem axisOffset_bound (lo hi m : Int) (hlo : screenSized lo) (hhi : screenSized hi)
    (hm : screenSized m) : -16384 ≤ axisOffset lo hi m ∧ axisOffset lo hi m ≤ 16384 := by
  unfold screenSized at *
  unfold axisOffset
  split_ifs <;> omega

theorem sq_fits (d : Int) (h : -16384 ≤ d ∧ d ≤ 16384) : 0 ≤ d * d ∧ d * d ≤ 268435456 := by
  constructor
  · exact mul_self_nonneg d
  · nlinarith [h.1, h.2]

/-- For screen-sized centres, radii and rectangle bounds the guard's 32-bit arithmetic does not
overflow. -/
theorem guardFits_of_screenSized (cfg : Config) (mapX mapY r : Int)
    (hx : screenSized mapX) (hy : screenSized mapY) (hr : screenSized r)
    (h1 : screenSized (BUTTON_AREA_X_MAX cfg)) (h2 : screenSized (BUTTON_AREA_Y_MAX cfg))
    (h3 : screenSized (BUTTON_AREA_RIGHT_X_MIN cfg)) (h4 : screenSized cfg.SCREEN_WIDTH)
    (h5 : screenSized (BUTTON_AREA_RIGHT_Y_MAX cfg)) :
    guardFits cfg mapX mapY r := by
  have z : screenSized 0 := ⟨by decide, by decide⟩
  have f : screenSized BUTTON_AREA_RIGHT_Y_MIN := ⟨by decide, by decide⟩
  have a := sq_fits _ (axisOffset_bound 0 _ mapX z h1 hx)
  have b := sq_fits _ (axisOffset_bound 0 _ mapY z h2 hy)
  have c := sq_fits _ (axisOffset_bound _ _ mapX h3 h4 hx)
  have d := sq_fits _ (axisOffset_bound _ _ mapY f h5 hy)
  have e := sq_fits r ⟨by have := hr.1; omega, by have := hr.2; omega⟩
  unfold guardFits leftDistSq rightDistSq
  refine ⟨?_, ?_, ?_⟩ <;> linarith [a.2, b.2, c.2, d.2, e.2]

/-- C4 (counterexample to the claim as stated): on the sample layout the centre `(75, 100)` is
five pixels from the point `(70, 100)` of the left rectangle, far less than the radius `65536`;
but the 32-bit product `65536 * 65536` is `0`, so neither comparison holds, the guard does not
suppress and the fill is issued. -/
theorem C4_counterexample_radius_65536 :
    areasNonEmpty sampleConfig ∧
    inLeftArea sampleConfig 70 100 ∧
    sqDist 75 100 70 100 < 65536 * 65536 ∧
    radiusSq 65536 = 0 ∧
    eraserSuppressed sampleConfig 75 100 65536 = false ∧
    eraseOps sampleConfig 75 100 65536 = [Event.fillCircle 75 100 65536 TFT_BLACK] ∧
    ¬ (eraserSuppressed sampleConfig 75 100 65536 = true ↔
      (∃ px py : Int, inLeftArea sampleConfig px py ∧ sqDist 75 100 px py < 65536 * 65536) ∨
      (∃ px py : Int, inRightArea sampleConfig px py ∧ sqDist 75 100 px py < 65536 * 65536)) := by
  have hs : eraserSuppressed sampleConfig 75 100 65536 = false := by decide
  refine ⟨by decide, by decide, by decide, by decide, hs, by decide, ?_⟩
  intro h
  have := h.2 (Or.inl ⟨70, 100, by decide, by decide⟩)
  rw [hs] at this
  exact absurd this (by decide)

/-- C4 (amended): for every integer centre and eraser radius for which the guard's 32-bit
arithmetic does not overflow (the squared distances to both rectangles and `r * r` are at most
`2^31 - 1`), and provided the two protected rectangles have points, the guard suppresses the fill
(`hitLeftButton` or `hitRightButton`) exactly when some point of the left or of the right
rectangle has squared Euclidean distance to the centre below `r * r`, both over the pixel grid
and over the real plane; the fill is issued exactly when the guard does not suppress; and for
each rectangle the compared `dx * dx + dy * dy` is the minimum squared distance from the centre
to the rectangle: a lower bound for all its points, attained at one of them, and `0` when the
centre is inside. -/
theorem C4_guard_iff_area_point_within_radius (cfg : Config) (hne : areasNonEmpty cfg)
    (mapX mapY r : Int) (hfit : guardFits cfg mapX mapY r) :
    (eraserSuppressed cfg mapX mapY r = true ↔
      (∃ px py : Int, inLeftArea cfg px py ∧ sqDist mapX mapY px py < r * r) ∨
      (∃ px py : Int, inRightArea cfg px py ∧ sqDist mapX mapY px py < r * r)) ∧
    (eraserSuppressed cfg mapX mapY r = true ↔
      (∃ px py : ℝ, inLeftAreaReal cfg px py ∧ sqDistReal mapX mapY px py < ((r * r : Int) : ℝ)) ∨
      (∃ px py : ℝ, inRightAreaReal cfg px py ∧
        sqDistReal mapX mapY px py < ((r * r : Int) : ℝ))) ∧
    (eraseOps cfg mapX mapY r = [] ↔ eraserSuppressed cfg mapX mapY r = true) ∧
    (eraserSuppressed cfg mapX mapY r = false ↔
      eraseOps cfg mapX mapY r = [Event.fillCircle mapX mapY r TFT_BLACK]) ∧
    radiusSq r = r * r ∧
    ((hitLeftButton cfg mapX mapY r = true ↔ leftSq cfg mapX mapY < radiusSq r) ∧
      (∀ px py : ℝ, inLeftAreaReal cfg px py →
        ((leftSq cfg mapX mapY : Int) : ℝ) ≤ sqDistReal mapX mapY px py) ∧
      (∃ px py : Int, inLeftArea cfg px py ∧ sqDist mapX mapY px py = leftSq cfg mapX mapY) ∧
      (inLeftArea cfg mapX mapY → leftSq cfg mapX mapY = 0)) ∧
    ((hitRightButton cfg mapX mapY r = true ↔ rightSq cfg mapX mapY < radiusSq r) ∧
      (∀ px py : ℝ, inRightAreaReal cfg px py →
        ((rightSq cfg mapX mapY : Int) : ℝ) ≤ sqDistReal mapX mapY px py) ∧
      (∃ px py : Int, inRightArea cfg px py ∧ sqDist mapX mapY px py = rightSq cfg mapX mapY) ∧
      (inRightArea cfg mapX mapY → rightSq cfg mapX mapY = 0)) := by
  have hl := leftSq_eq_dist cfg mapX mapY hfit.1
  have hr := rightSq_eq_dist cfg mapX mapY hfit.2.1
  have hreal : eraserSuppressed cfg mapX mapY r = true ↔
      (∃ px py : ℝ, inLeftAreaReal cfg px py ∧ sqDistReal mapX mapY px py < ((r * r : Int) : ℝ)) ∨
      (∃ px py : ℝ, inRightAreaReal cfg px py ∧
        sqDistReal mapX mapY px py < ((r * r : Int) : ℝ)) := by
    rw [eraserSuppressed_iff_exact cfg mapX mapY r hfit]
    constructor
    · rintro (h | h)
      · obtain ⟨px, py, hin, hd⟩ := leftDistSq_attained cfg hne mapX mapY
        refine Or.inl ⟨(px : ℝ), (py : ℝ), inLeftArea_real cfg px py hin, ?_⟩
        rw [sqDistReal_cast, hd]
        exact_mod_cast h
      · obtain ⟨px, py, hin, hd⟩ := rightDistSq_attained cfg hne mapX mapY
        refine Or.inr ⟨(px : ℝ), (py : ℝ), inRightArea_real cfg px py hin, ?_⟩
        rw [sqDistReal_cast, hd]
        exact_mod_cast h
    · rintro (⟨px, py, hin, hd⟩ | ⟨px, py, hin, hd⟩)
      · left
        have := lt_of_le_of_lt (leftDistSq_le_real cfg mapX mapY px py hin) hd
        exact_mod_cast this
      · right
        have := lt_of_le_of_lt (rightDistSq_le_real cfg mapX mapY px py hin) hd
        exact_mod_cast this
  have hgrid : eraserSuppressed cfg mapX mapY r = true ↔
      (∃ px py : Int, inLeftArea cfg px py ∧ sqDist mapX mapY px py < r * r) ∨
      (∃ px py : Int, inRightArea cfg px py ∧ sqDist mapX mapY px py < r * r) := by
    constructor
    · intro h
      rcases (eraserSuppressed_iff_exact cfg mapX mapY r hfit).1 h with h | h
      · obtain ⟨px, py, hin, hd⟩ := leftDistSq_attained cfg hne mapX mapY
        exact Or.inl ⟨px, py, hin, by rw [hd]; exact h⟩
      · obtain ⟨px, py, hin, hd⟩ := rightDistSq_attained cfg hne mapX mapY
        exact Or.inr ⟨px, py, hin, by rw [hd]; exact h⟩
    · rintro (⟨px, py, hin, hd⟩ | ⟨px, py, hin, hd⟩)
      · refine hreal.2 (Or.inl ⟨(px : ℝ), (py : ℝ), inLeftArea_real cfg px py hin, ?_⟩)
        rw [sqDistReal_cast]
        exact_mod_cast hd
      · refine hreal.2 (Or.inr ⟨(px : ℝ), (py : ℝ), inRightArea_real cfg px py hin, ?_⟩)
        rw [sqDistReal_cast]
        exact_mod_cast hd
  refine ⟨hgrid, hreal, ?_, ?_, radiusSq_eq r hfit.2.2,
    ⟨hitLeftButton_iff cfg mapX mapY r, ?_, ?_, ?_⟩,
    ⟨hitRightButton_iff cfg mapX mapY r, ?_, ?_, ?_⟩⟩
  · rw [eraseOps_eq]
    cases eraserSuppressed cfg mapX mapY r <;> simp
  · rw [eraseOps_eq]
    cases eraserSuppressed cfg mapX mapY r <;> simp
  · rw [hl]
    exact fun px py hin => leftDistSq_le_real cfg mapX mapY px py hin
  · rw [hl]
    exact leftDistSq_attained cfg hne mapX mapY
  · exact leftSq_inside cfg mapX mapY
  · rw [hr]
    exact fun px py hin => rightDistSq_le_real cfg mapX mapY px py hin
  · rw [hr]
    exact rightDistSq_attained cfg hne mapX mapY
  · exact rightSq_inside cfg mapX mapY

/-- C4 (amended) at the sample layout, centre `(75, 100)` and radius `6`: nothing overflows,
the left rectangle ends at column `70`, five pixels from the centre, so the guard suppresses the
fill and a grid point of a protected rectangle lies within the radius. -/
theorem C4_witness_sample_layout :
    areasNonEmpty sampleConfig ∧
    guardFits sampleConfig 75 100 6 ∧
    eraserSuppressed sampleConfig 75 100 6 = true ∧
    leftSq sampleConfig 75 100 = 25 ∧
    ((∃ px py : Int, inLeftArea sampleConfig px py ∧ sqDist 75 100 px py < 6 * 6) ∨
      (∃ px py : Int, inRightArea sampleConfig px py ∧ sqDist 75 100 px py < 6 * 6)) :=
  ⟨by decide, by decide, by decide, by decide,
    (C4_guard_iff_area_point_within_radius sampleConfig (by decide) 75 100 6
      (by decide)).1.1 (by decide)⟩

/-- C5 (counterexample to the claim as stated): on the sample layout the centre `(70, 100)`
lies on the right edge of the left rectangle and the radius `65536` is positive, but the 32-bit
product `65536 * 65536` is `0`: the guard returns false and the fill is issued. -/
theorem C5_counterexample_radius_65536 :
    (onLeftBoundary sampleConfig 70 100 ∨ onRightBoundary sampleConfig 70 100) ∧
    (0 : Int) < 65536 ∧
    eraserSuppressed sampleConfig 70 100 65536 = false ∧
    eraseOps sampleConfig 70 100 65536 = [Event.fillCircle 70 100 65536 TFT_BLACK] ∧
    ¬ (∀ r : Int, 0 < r → eraserSuppressed sampleConfig 70 100 r = true) := by
  have hs : eraserSuppressed sampleConfig 70 100 65536 = false := by decide
  refine ⟨by decide, by decide, hs, by decide, ?_⟩
  intro h
  have := h 65536 (by decide)
  rw [hs] at this
  exact absurd this (by decide)

/-- C5 (amended): for every centre lying on the boundary of either protected rectangle, the
guard returns true (no fill is issued) for every positive radius up to `46340`, the largest
whose square fits the 32-bit `int`; and it returns false (the fill is issued) when the radius is
`0`, provided the squared distances from the centre to both rectangles are at most
`2^31 - 1`. -/
theorem C5_boundary_centre_suppressed_unless_radius_zero (cfg : Config) (mapX mapY : Int)
    (hb : onLeftBoundary cfg mapX mapY ∨ onRightBoundary cfg mapX mapY) :
    (∀ r : Int, 0 < r → r ≤ 46340 →
      eraserSuppressed cfg mapX mapY r = true ∧ eraseOps cfg mapX mapY r = []) ∧
    (leftDistSq cfg mapX mapY ≤ 2147483647 → rightDistSq cfg mapX mapY ≤ 2147483647 →
      eraserSuppressed cfg mapX mapY 0 = false ∧
      eraseOps cfg mapX mapY 0 = [Event.fillCircle mapX mapY 0 TFT_BLACK]) := by
  constructor
  · intro r hr hmax
    have hrr : 0 < r * r := mul_pos hr hr
    have hfit : r * r ≤ 2147483647 := by nlinarith
    have hs : eraserSuppressed cfg mapX mapY r = true := by
      rw [eraserSuppressed_iff, radiusSq_eq r hfit]
      rcases hb with ⟨hin, _⟩ | ⟨hin, _⟩
      · left; rw [leftSq_inside cfg mapX mapY hin]; exact hrr
      · right; rw [rightSq_inside cfg mapX mapY hin]; exact hrr
    exact ⟨hs, by rw [eraseOps_eq, hs]; rfl⟩
  · intro hl hr
    have hzero : eraserSuppressed cfg mapX mapY 0 = false := by
      have h0 : radiusSq 0 = 0 := by decide
      cases h : eraserSuppressed cfg mapX mapY 0
      · rfl
      · rw [eraserSuppressed_iff, h0, leftSq_eq_dist cfg mapX mapY hl,
          rightSq_eq_dist cfg mapX mapY hr] at h
        rcases h with h' | h'
        · exact absurd h' (not_lt.2 (leftDistSq_nonneg cfg mapX mapY))
        · exact absurd h' (not_lt.2 (rightDistSq_nonneg cfg mapX mapY))
    exact ⟨hzero, by rw [eraseOps_eq, hzero]; rfl⟩

/-- C5 (amended) at the sample layout with the centre `(70, 100)` on the right edge of the left
rectangle: suppressed for radius `1`, not suppressed for radius `0`. -/
theorem C5_witness_sample_layout :
    (onLeftBoundary sampleConfig 70 100 ∨ onRightBoundary sampleConfig 70 100) ∧
    eraserSuppressed sampleConfig 70 100 1 = true ∧
    eraseOps sampleConfig 70 100 1 = [] ∧
    eraserSuppressed sampleConfig 70 100 0 = false ∧
    eraseOps sampleConfig 70 100 0 = [Event.fillCircle 70 100 0 TFT_BLACK] :=
  have h := C5_boundary_centre_suppressed_unless_radius_zero sampleConfig 70 100 (by decide)
  ⟨by decide, (h.1 1 (by decide) (by decide)).1, (h.1 1 (by decide) (by decide)).2,
    (h.2 (by decide) (by decide)).1, (h.2 (by decide) (by decide)).2⟩

/-! ### Structure of one dispatcher cycle -/

theorem cyclePoint_valid (inp : Input) (ex : Externs) (xy1 : XY_TouchPoint_t)
    (h : cyclePoint inp ex = some xy1) : xy1.fly = false := by
  unfold cyclePoint at h
  split_ifs at h with h1 h2 h3 h4 h5
  · simp only [Option.some.injEq] at h
    rw [← h]; simpa using h4
  · simp only [Option.some.injEq] at h
    rw [← h]; simpa using h5

theorem handleLocalTouch_of_cyclePoint (cfg : Config) (env : Env) (inp : Input) (st : Statics)
    (ex : Externs) (xy1 : XY_TouchPoint_t) (h : cyclePoint inp ex = some xy1) :
    handleLocalTouch cfg env inp st ex = dispatch cfg env inp.currentRawUptime xy1 st ex := by
  unfold cyclePoint at h
  unfold handleLocalTouch
  by_cases ht : inp.touched = true
  · simp only [ht, if_true] at h ⊢
    cases hc : ex.isCoffeePopupVisible <;> cases hp : ex.isProjectInfoPopupVisible <;>
      simp only [hc, hp, Bool.or_false, Bool.or_true, Bool.or_self, if_true, if_false,
        Bool.false_eq_true] at h ⊢ <;>
      cases hf : (averageXY inp.ts).fly <;>
      simp only [hf, if_true, if_false, Bool.false_eq_true, Bool.not_true, Bool.not_false] at h ⊢
    all_goals first
      | (simp only [Option.some.injEq] at h; rw [h])
      | (split_ifs at h; simp only [Option.some.injEq] at h; rw [h])
      | exact absurd h (by simp)
  · simp [ht] at h

theorem screenPoint_some (cfg : Config) (env : Env) (inp : Input) (ex : Externs) (mapX mapY : Int)
    (h : screenPoint cfg env inp ex = some (mapX, mapY)) :
    ∃ xy1, cyclePoint inp ex = some xy1 ∧ xy1.fly = false ∧
      mapXOf cfg env xy1 = mapX ∧ mapYOf cfg env xy1 = mapY := by
  unfold screenPoint at h
  cases hc : cyclePoint inp ex with
  | none => simp [hc] at h
  | some xy1 =>
    simp only [hc, Option.map_some', Option.some.injEq, Prod.mk.injEq] at h
    exact ⟨xy1, rfl, cyclePoint_valid inp ex xy1 hc, h.1, h.2⟩

theorem handleLocalTouch_main (cfg : Config) (env : Env) (inp : Input) (st : Statics)
    (ex : Externs) (mapX mapY : Int) (h : screenPoint cfg env inp ex = some (mapX, mapY))
    (hm : onMainScreen ex) :
    handleLocalTouch cfg env inp st ex =
      mainScreenTouch cfg env inp.currentRawUptime mapX mapY st ex := by
  obtain ⟨xy1, hc, hv, hx, hy⟩ := screenPoint_some cfg env inp ex mapX mapY h
  rw [handleLocalTouch_of_cyclePoint cfg env inp st ex xy1 hc]
  unfold dispatch
  simp [hv, hm.1, hm.2, hx, hy]

theorem handleLocalTouch_reset (cfg : Config) (env : Env) (inp : Input) (st : Statics)
    (ex : Externs) (mapX mapY : Int) (h : screenPoint cfg env inp ex = some (mapX, mapY))
    (hr : resetClaims cfg env ex mapX mapY) :
    handleLocalTouch cfg env inp st ex = resetBranch inp.currentRawUptime st ex := by
  rw [handleLocalTouch_main cfg env inp st ex mapX mapY h hr.1]
  obtain ⟨_, hb, hp⟩ := hr
  unfold claimedBeforeReset at hb
  simp only [Bool.or_eq_false_iff] at hb
  unfold mainScreenTouch
  simp [hb.1.1, hb.1.2, hb.2, hp]

theorem handleLocalTouch_draw (cfg : Config) (env : Env) (inp : Input) (st : Statics)
    (ex : Externs) (mapX mapY : Int) (h : screenPoint cfg env inp ex = some (mapX, mapY))
    (hd : drawClaims cfg env ex mapX mapY) :
    handleLocalTouch cfg env inp st ex =
      drawBranch cfg inp.currentRawUptime mapX mapY st ex := by
  rw [handleLocalTouch_main cfg env inp st ex mapX mapY h hd.1]
  obtain ⟨_, hb, h1, h2, h3, h4, h5, h6, h7⟩ := hd
  unfold claimedBeforeReset at hb
  simp only [Bool.or_eq_false_iff] at hb
  unfold mainScreenTouch
  simp [hb.1.1, hb.1.2, hb.2, h1, h2, h3, h4, h5, h6, h7]

/-! ### Evaluation of the sample inputs -/

theorem streamOf_steady_pressed (x y : Int) : ∀ i < 10, (streamOf (steady x y) i).z > 200 := by
  intro i hi
  interval_cases i <;> simp [streamOf, steady, List.replicate]

theorem sampleXs_steady (x y : Int) : sampleXs (streamOf (steady x y)) 10 = List.replicate 10 x := by
  simp [sampleXs, streamOf, steady, List.replicate, List.range, List.range.loop]

theorem sampleYs_steady (x y : Int) : sampleYs (streamOf (steady x y)) 10 = List.replicate 10 y := by
  simp [sampleYs, streamOf, steady, List.replicate, List.range, List.range.loop]

theorem meanOfRanks3to6_replicate (x : Int) : meanOfRanks3to6 (List.replicate 10 x) = (x : ℚ) := by
  rw [meanOfRanks3to6_of_sorted (List.replicate 10 x) (List.replicate 10 x) (List.Perm.refl _)
    (by simp [List.replicate, List.Sorted])]
  simp [List.replicate]
  ring

theorem averageXY_steady (x y : Int) :
    averageXY (streamOf (steady x y)) = { x := (x : ℚ), y := (y : ℚ), fly := false } := by
  rw [averageXY_pressed _ (streamOf_steady_pressed x y), sampleXs_steady, sampleYs_steady,
    meanOfRanks3to6_replicate, meanOfRanks3to6_replicate]

theorem toLong_intCast (x : Int) : toLong (x : ℚ) = x := by
  simp [toLong]

theorem screenPoint_steady (ex : Externs) (t : Nat) (x y : Int)
    (hc : ex.isCoffeePopupVisible = false) (hp : ex.isProjectInfoPopupVisible = false) :
    screenPoint sampleConfig sampleEnv (touchCycle ex t (steady x y)).inp ex =
      some (arduinoMap x 200 3700 0 320, arduinoMap y 240 3800 0 240) := by
  simp [screenPoint, cyclePoint, touchCycle, hc, hp, averageXY_steady, mapXOf, mapYOf,
    toLong_intCast, sampleEnv, sampleConfig]

/-! ### Claims about the reset and draw actions -/

/-- C8: in every cycle in which the reset button claims the touch, whatever the counter, the
drawing history is empty afterwards (the reset is not recorded), `relativeBootTimeOffset` is `0`,
the flags `iamEffectivelyMoreUptimeDevice`, `iamRequestingAllData` and
`initialSyncLogicProcessed` are false, and exactly one envelope is broadcast: of type
`MSG_TYPE_RESET_CANVAS`, with `isReset = true`, `x = 0`, `y = 0`, `senderUptime` and payload
`timestamp` equal to the uptime of the cycle, and `senderOffset` equal to the zeroed offset. -/
theorem C8_reset_cycle_clears_state_and_broadcasts_reset (cfg : Config) (env : Env)
    (inp : Input) (st : Statics) (ex : Externs) (mapX mapY : Int)
    (hp : screenPoint cfg env inp ex = some (mapX, mapY))
    (hr : resetClaims cfg env ex mapX mapY) :
    (handleLocalTouch cfg env inp st ex).externs.allDrawingHistory = [] ∧
    (handleLocalTouch cfg env inp st ex).externs.relativeBootTimeOffset = 0 ∧
    (handleLocalTouch cfg env inp st ex).externs.iamEffectivelyMoreUptimeDevice = false ∧
    (handleLocalTouch cfg env inp st ex).externs.iamRequestingAllData = false ∧
    (handleLocalTouch cfg env inp st ex).externs.initialSyncLogicProcessed = false ∧
    broadcasts (handleLocalTouch cfg env inp st ex).events =
      [{ type := MsgType.MSG_TYPE_RESET_CANVAS
         senderUptime := inp.currentRawUptime
         senderOffset := (handleLocalTouch cfg env inp st ex).externs.relativeBootTimeOffset
         touch_data :=
           { x := 0, y := 0, timestamp := inp.currentRawUptime, isReset := true,
             color := ex.currentColor } }] := by
  rw [handleLocalTouch_reset cfg env inp st ex mapX mapY hp hr]
  unfold resetBranch
  refine ⟨rfl, rfl, rfl, rfl, rfl, ?_⟩
  by_cases h : resetCountBumped inp.currentRawUptime st ≥ 10 <;> simp [broadcasts, h]

/-- C8 at a touch on the sample reset button at uptime `5000`: history cleared, offset zeroed
and one reset envelope. -/
theorem C8_witness_sample_reset :
    screenPoint sampleConfig sampleEnv (touchCycle (mainExterns 31) 5000 (steady 3430 500)).inp
      (mainExterns 31) = some (295, 17) ∧
    resetClaims sampleConfig sampleEnv (mainExterns 31) 295 17 ∧
    (handleLocalTouch sampleConfig sampleEnv (touchCycle (mainExterns 31) 5000 (steady 3430 500)).inp
      Statics.init (mainExterns 31)).externs.allDrawingHistory = [] ∧
    broadcasts (handleLocalTouch sampleConfig sampleEnv
      (touchCycle (mainExterns 31) 5000 (steady 3430 500)).inp Statics.init
      (mainExterns 31)).events =
      [{ type := MsgType.MSG_TYPE_RESET_CANVAS, senderUptime := 5000, senderOffset := 0,
         touch_data := { x := 0, y := 0, timestamp := 5000, isReset := true, color := 31 } }] := by
  have hp := screenPoint_steady (mainExterns 31) 5000 3430 500 rfl rfl
  have hr : resetClaims sampleConfig sampleEnv (mainExterns 31) 295 17 := by decide
  have h := C8_reset_cycle_clears_state_and_broadcasts_reset sampleConfig sampleEnv
    (touchCycle (mainExterns 31) 5000 (steady 3430 500)).inp Statics.init (mainExterns 31) 295 17
    hp hr
  refine ⟨hp, hr, h.1, ?_⟩
  rw [h.2.2.2.2.2, h.2.1]
  rfl

/-- C9: for every pen-mode draw action at screen point `(mapX, mapY)` and uptime `t`: when
`lastLocalPoint.z` is `0` or the unsigned difference `t - lastLocalTouchTime` exceeds
`TOUCH_STROKE_INTERVAL`, the only raster call is one pixel at the point; otherwise it is one line
from the stored previous point to the point; in both cases the stored state becomes the point
with `z = 1` and time `t`. Hence a pen-mode draw action that directly follows it, at
`(x2, y2)` and uptime `t2`, draws exactly the line from `(mapX, mapY)` to `(x2, y2)` when the
unsigned difference `t2 - t` is at most the interval and exactly a pixel at `(x2, y2)` when it is
more. -/
theorem C9_pen_draw_pixel_or_line (cfg : Config) (env : Env) (inp : Input) (st : Statics)
    (ex : Externs) (mapX mapY : Int)
    (hp : screenPoint cfg env inp ex = some (mapX, mapY))
    (hd : drawClaims cfg env ex mapX mapY) (hpen : ex.isEraserMode = false) :
    rasterCalls (handleLocalTouch cfg env inp st ex).events =
      (if st.lastLocalPoint.z = 0 ∨
          usub inp.currentRawUptime st.lastLocalTouchTime > cfg.TOUCH_STROKE_INTERVAL then
        [Event.drawPixel mapX mapY ex.currentColor]
      else
        [Event.drawLine st.lastLocalPoint.x st.lastLocalPoint.y mapX mapY ex.currentColor]) ∧
    (handleLocalTouch cfg env inp st ex).statics.lastLocalPoint = ⟨mapX, mapY, 1⟩ ∧
    (handleLocalTouch cfg env inp st ex).statics.lastLocalTouchTime = inp.currentRawUptime ∧
    (∀ (env2 : Env) (inp2 : Input) (ex2 : Externs) (x2 y2 : Int),
      screenPoint cfg env2 inp2 ex2 = some (x2, y2) → drawClaims cfg env2 ex2 x2 y2 →
      ex2.isEraserMode = false →
      rasterCalls (handleLocalTouch cfg env2 inp2
          (handleLocalTouch cfg env inp st ex).statics ex2).events =
        (if usub inp2.currentRawUptime inp.currentRawUptime ≤ cfg.TOUCH_STROKE_INTERVAL then
          [Event.drawLine mapX mapY x2 y2 ex2.currentColor]
        else
          [Event.drawPixel x2 y2 ex2.currentColor])) := by
  have key : ∀ (env' : Env) (inp' : Input) (st' : Statics) (ex' : Externs) (x' y' : Int),
      screenPoint cfg env' inp' ex' = some (x', y') → drawClaims cfg env' ex' x' y' →
      ex'.isEraserMode = false →
      rasterCalls (handleLocalTouch cfg env' inp' st' ex').events =
        (if st'.lastLocalPoint.z = 0 ∨
            usub inp'.currentRawUptime st'.lastLocalTouchTime > cfg.TOUCH_STROKE_INTERVAL then
          [Event.drawPixel x' y' ex'.currentColor]
        else
          [Event.drawLine st'.lastLocalPoint.x st'.lastLocalPoint.y x' y' ex'.currentColor]) ∧
      (handleLocalTouch cfg env' inp' st' ex').statics.lastLocalPoint = ⟨x', y', 1⟩ ∧
      (handleLocalTouch cfg env' inp' st' ex').statics.lastLocalTouchTime =
        inp'.currentRawUptime := by
    intro env' inp' st' ex' x' y' hp' hd' hpen'
    rw [handleLocalTouch_draw cfg env' inp' st' ex' x' y' hp' hd']
    refine ⟨?_, rfl, rfl⟩
    unfold drawBranch penOps drawColorOf
    cases hs : ex'.isEraserSliderVisible <;>
      by_cases hz : st'.lastLocalPoint.z = 0 <;>
      by_cases hi : usub inp'.currentRawUptime st'.lastLocalTouchTime > cfg.TOUCH_STROKE_INTERVAL <;>
      simp [rasterCalls, hpen', hz, hi]
  obtain ⟨h1, h2, h3⟩ := key env inp st ex mapX mapY hp hd hpen
  refine ⟨h1, h2, h3, ?_⟩
  intro env2 inp2 ex2 x2 y2 hp2 hd2 hpen2
  rw [(key env2 inp2 _ ex2 x2 y2 hp2 hd2 hpen2).1, h2, h3]
  by_cases hi : usub inp2.currentRawUptime inp.currentRawUptime ≤ cfg.TOUCH_STROKE_INTERVAL
  · have : ¬ usub inp2.currentRawUptime inp.currentRawUptime > cfg.TOUCH_STROKE_INTERVAL :=
      not_lt.2 hi
    simp [hi, this]
  · have : usub inp2.currentRawUptime inp.currentRawUptime > cfg.TOUCH_STROKE_INTERVAL :=
      not_le.1 hi
    simp [hi, this]

/-- C10: for every draw action at mapped point `(mapX, mapY)` and uptime `t`, exactly one record
`{x, y, timestamp = t, color = drawColor, isReset = false}` is appended to the drawing history,
where `drawColor` is black in eraser mode and the brush colour otherwise, and exactly one
envelope is broadcast: of type `MSG_TYPE_DRAW_POINT`, with `senderUptime = t`, `senderOffset`
equal to `relativeBootTimeOffset`, which is left unchanged, and that same record as payload. -/
theorem C10_draw_action_appends_and_broadcasts_point (cfg : Config) (env : Env) (inp : Input)
    (st : Statics) (ex : Externs) (mapX mapY : Int)
    (hp : screenPoint cfg env inp ex = some (mapX, mapY))
    (hd : drawClaims cfg env ex mapX mapY) :
    (handleLocalTouch cfg env inp st ex).externs.allDrawingHistory =
      ex.allDrawingHistory ++
        [{ x := mapX, y := mapY, timestamp := inp.currentRawUptime, isReset := false,
           color := if ex.isEraserMode then TFT_BLACK else ex.currentColor }] ∧
    broadcasts (handleLocalTouch cfg env inp st ex).events =
      [{ type := MsgType.MSG_TYPE_DRAW_POINT
         senderUptime := inp.currentRawUptime
         senderOffset := ex.relativeBootTimeOffset
         touch_data :=
           { x := mapX, y := mapY, timestamp := inp.currentRawUptime, isReset := false,
             color := if ex.isEraserMode then TFT_BLACK else ex.currentColor } }] ∧
    (handleLocalTouch cfg env inp st ex).externs.relativeBootTimeOffset =
      ex.relativeBootTimeOffset := by
  rw [handleLocalTouch_draw cfg env inp st ex mapX mapY hp hd]
  unfold drawBranch drawPointOf drawColorOf penOps
  cases hs : ex.isEraserSliderVisible <;> cases he : ex.isEraserMode <;>
    simp [broadcasts, eraseOps_eq, hs, he] <;>
    split_ifs <;> simp

/-- C9 at two touches on the sample screen, at `(10, 10)` and then `(12, 11)`: the first,
after no contact, draws a pixel; the second draws the line between them when it comes `30` ms
later (interval `50`) and a separate pixel when it comes `100` ms later. -/
theorem C9_witness_two_touches :
    screenPoint sampleConfig sampleEnv (touchCycle (mainExterns 31) 1000 (steady 310 390)).inp
      (mainExterns 31) = some (10, 10) ∧
    drawClaims sampleConfig sampleEnv (mainExterns 31) 10 10 ∧
    rasterCalls (handleLocalTouch sampleConfig sampleEnv
      (touchCycle (mainExterns 31) 1000 (steady 310 390)).inp Statics.init
      (mainExterns 31)).events = [Event.drawPixel 10 10 31] ∧
    rasterCalls (handleLocalTouch sampleConfig sampleEnv
      (touchCycle (mainExterns 31) 1030 (steady 335 410)).inp
      (handleLocalTouch sampleConfig sampleEnv
        (touchCycle (mainExterns 31) 1000 (steady 310 390)).inp Statics.init
        (mainExterns 31)).statics
      (mainExterns 31)).events = [Event.drawLine 10 10 12 11 31] ∧
    rasterCalls (handleLocalTouch sampleConfig sampleEnv
      (touchCycle (mainExterns 31) 1100 (steady 335 410)).inp
      (handleLocalTouch sampleConfig sampleEnv
        (touchCycle (mainExterns 31) 1000 (steady 310 390)).inp Statics.init
        (mainExterns 31)).statics
      (mainExterns 31)).events = [Event.drawPixel 12 11 31] := by
  have hp := screenPoint_steady (mainExterns 31) 1000 310 390 rfl rfl
  have hd : drawClaims sampleConfig sampleEnv (mainExterns 31) 10 10 := by decide
  have h := C9_pen_draw_pixel_or_line sampleConfig sampleEnv
    (touchCycle (mainExterns 31) 1000 (steady 310 390)).inp Statics.init (mainExterns 31) 10 10
    hp hd rfl
  refine ⟨hp, hd, ?_, ?_, ?_⟩
  · rw [h.1]
    rfl
  · rw [h.2.2.2 sampleEnv (touchCycle (mainExterns 31) 1030 (steady 335 410)).inp (mainExterns 31)
      12 11 (screenPoint_steady (mainExterns 31) 1030 335 410 rfl rfl) (by decide) rfl]
    rfl
  · rw [h.2.2.2 sampleEnv (touchCycle (mainExterns 31) 1100 (steady 335 410)).inp (mainExterns 31)
      12 11 (screenPoint_steady (mainExterns 31) 1100 335 410 rfl rfl) (by decide) rfl]
    rfl

/-- C10 at a pen touch on the sample screen at `(10, 10)`, uptime `1000`, brush colour `31`
and offset `7`: one record appended, one draw envelope carrying it. -/
theorem C10_witness_sample_draw :
    screenPoint sampleConfig sampleEnv (touchCycle (mainExterns 31) 1000 (steady 310 390)).inp
      (mainExterns 31) = some (10, 10) ∧
    drawClaims sampleConfig sampleEnv (mainExterns 31) 10 10 ∧
    (handleLocalTouch sampleConfig sampleEnv (touchCycle (mainExterns 31) 1000 (steady 310 390)).inp
      Statics.init (mainExterns 31)).externs.allDrawingHistory =
      [{ x := 10, y := 10, timestamp := 1000, isReset := false, color := 31 }] ∧
    broadcasts (handleLocalTouch sampleConfig sampleEnv
      (touchCycle (mainExterns 31) 1000 (steady 310 390)).inp Statics.init
      (mainExterns 31)).events =
      [{ type := MsgType.MSG_TYPE_DRAW_POINT, senderUptime := 1000, senderOffset := 7,
         touch_data := { x := 10, y := 10, timestamp := 1000, isReset := false, color := 31 } }] := by
  have hp := screenPoint_steady (mainExterns 31) 1000 310 390 rfl rfl
  have hd : drawClaims sampleConfig sampleEnv (mainExterns 31) 10 10 := by decide
  have h := C10_draw_action_appends_and_broadcasts_point sampleConfig sampleEnv
    (touchCycle (mainExterns 31) 1000 (steady 310 390)).inp Statics.init (mainExterns 31) 10 10
    hp hd
  exact ⟨hp, hd, h.1, h.2.1⟩

/-! ### Popup dismissal -/

theorem liftThenSteady_lift (x y : Int) : (streamOf (liftThenSteady x y) 0).z ≤ 200 := by
  simp [streamOf, liftThenSteady]

theorem averageXY_liftThenSteady (x y : Int) :
    (averageXY (streamOf (liftThenSteady x y))).fly = true :=
  averageXY_lift _ 0 (by decide) (fun i hi => absurd hi (Nat.not_lt_zero i))
    (liftThenSteady_lift x y)

theorem restAfter_liftThenSteady (x y : Int) :
    restAfter (streamOf (liftThenSteady x y)) = streamOf (steady x y) := by
  funext k
  have hc := collect_lift (streamOf (liftThenSteady x y)) 0 (by decide)
    (fun i hi => absurd hi (Nat.not_lt_zero i)) (liftThenSteady_lift x y)
  simp only [restAfter, averageXY_polls, hc]
  simp [streamOf, liftThenSteady, Nat.add_comm 1 k]

/-- With a popup shown, a valid first burst dismisses it and nothing else happens: the only
collaborator call hides the popup, and only `lastLocalPoint.z` changes. -/
theorem popup_dismissed_by_valid_first_burst (cfg : Config) (env : Env) (inp : Input)
    (st : Statics) (ex : Externs) (ht : inp.touched = true)
    (hv : (averageXY inp.ts).fly = false)
    (hpop : ex.isCoffeePopupVisible = true ∨ ex.isProjectInfoPopupVisible = true) :
    handleLocalTouch cfg env inp st ex =
      { statics := clearContact st, externs := ex
        events := [if ex.isCoffeePopupVisible then Event.hideCoffeePopup
          else Event.hideProjectInfoPopup] } := by
  unfold handleLocalTouch
  rcases hpop with h | h
  · simp [ht, hv, h]
  · cases hc : ex.isCoffeePopupVisible <;> simp [ht, hv, h, hc]

/-- C6 (evaluation at the failing input): the coffee popup is shown, the first burst of the
cycle is rejected (its first reading has no pressure) and the burst polled right after it is
valid and maps to the reset button at `(295, 17)`. In main mode the cycle does not hide the
popup; it runs the reset action instead: the counter goes from `0` to `1`, the screen and the
history are cleared and a reset envelope is broadcast. In popup mode the same valid touch leaves
the popup shown and does nothing at all. -/
theorem C6_valid_touch_after_rejected_burst_skips_popup_dismissal :
    (averageXY (streamOf (liftThenSteady 3430 500))).fly = true ∧
    cyclePoint (touchCycle (coffeePopupExterns 31 UIState_t.UI_STATE_MAIN) 5000
        (liftThenSteady 3430 500)).inp (coffeePopupExterns 31 UIState_t.UI_STATE_MAIN) =
      some { x := 3430, y := 500, fly := false } ∧
    screenPoint sampleConfig sampleEnv
        (touchCycle (coffeePopupExterns 31 UIState_t.UI_STATE_MAIN) 5000
          (liftThenSteady 3430 500)).inp (coffeePopupExterns 31 UIState_t.UI_STATE_MAIN) =
      some (295, 17) ∧
    sampleEnv.isResetButtonPressed 295 17 = true ∧
    (handleLocalTouch sampleConfig sampleEnv
        (touchCycle (coffeePopupExterns 31 UIState_t.UI_STATE_MAIN) 5000
          (liftThenSteady 3430 500)).inp Statics.init
        (coffeePopupExterns 31 UIState_t.UI_STATE_MAIN)).events =
      [Event.clearScreenAndCache,
       Event.sendSyncMessage
        { type := MsgType.MSG_TYPE_RESET_CANVAS, senderUptime := 5000, senderOffset := 0,
          touch_data := { x := 0, y := 0, timestamp := 5000, isReset := true, color := 31 } }] ∧
    (handleLocalTouch sampleConfig sampleEnv
        (touchCycle (coffeePopupExterns 31 UIState_t.UI_STATE_MAIN) 5000
          (liftThenSteady 3430 500)).inp Statics.init
        (coffeePopupExterns 31 UIState_t.UI_STATE_MAIN)).statics.resetPressCount = 1 ∧
    (handleLocalTouch sampleConfig sampleEnv
        (touchCycle (coffeePopupExterns 31 UIState_t.UI_STATE_POPUP) 5000
          (liftThenSteady 3430 500)).inp Statics.init
        (coffeePopupExterns 31 UIState_t.UI_STATE_POPUP)).events = [] := by
  have hfly := averageXY_liftThenSteady 3430 500
  have hrest := restAfter_liftThenSteady 3430 500
  have hxy := averageXY_steady 3430 500
  have hcp : ∀ mode, cyclePoint (touchCycle (coffeePopupExterns 31 mode) 5000
      (liftThenSteady 3430 500)).inp (coffeePopupExterns 31 mode) =
      some { x := 3430, y := 500, fly := false } := by
    intro mode
    simp [cyclePoint, touchCycle, coffeePopupExterns, hfly, hrest, hxy]
  have hsp : screenPoint sampleConfig sampleEnv
      (touchCycle (coffeePopupExterns 31 UIState_t.UI_STATE_MAIN) 5000
        (liftThenSteady 3430 500)).inp (coffeePopupExterns 31 UIState_t.UI_STATE_MAIN) =
      some (295, 17) := by
    have e1 : toLong (3430 : ℚ) = 3430 := by exact_mod_cast toLong_intCast 3430
    have e2 : toLong (500 : ℚ) = 500 := by exact_mod_cast toLong_intCast 500
    simp only [screenPoint, hcp, Option.map_some', mapXOf, mapYOf, e1, e2]
    rfl
  have hr : resetClaims sampleConfig sampleEnv (coffeePopupExterns 31 UIState_t.UI_STATE_MAIN)
      295 17 := by decide
  refine ⟨hfly, hcp _, hsp, by decide, ?_, ?_, ?_⟩
  · rw [handleLocalTouch_reset _ _ _ _ _ 295 17 hsp hr]
    rfl
  · rw [handleLocalTouch_reset _ _ _ _ _ 295 17 hsp hr]
    rfl
  · rw [handleLocalTouch_of_cyclePoint _ _ _ _ _ _ (hcp UIState_t.UI_STATE_POPUP)]
    rfl

/-! ### The rapid-press counter of the reset button -/

theorem dispatch_fly (cfg : Config) (env : Env) (t : Nat) (xy1 : XY_TouchPoint_t) (st : Statics)
    (ex : Externs) (h : xy1.fly = true) :
    dispatch cfg env t xy1 st ex = { statics := st, externs := ex, events := [] } := by
  simp [dispatch, h]

theorem eraserButtonBranch_resetFields (t : Nat) (st : Statics) (ex : Externs) :
    resetFieldsOf (eraserButtonBranch t st ex).statics = resetFieldsOf st := by
  unfold eraserButtonBranch
  split_ifs <;> rfl

theorem mainScreenTouch_resetFields_frame (cfg : Config) (env : Env) (t : Nat) (x y : Int)
    (st : Statics) (ex : Externs)
    (h : ¬ (claimedBeforeReset cfg env ex x y = false ∧ env.isResetButtonPressed x y = true)) :
    resetFieldsOf (mainScreenTouch cfg env t x y st ex).statics = resetFieldsOf st := by
  unfold claimedBeforeReset at h
  unfold mainScreenTouch
  cases h1 : (ex.showDebugToggleButton && env.isCoffeeButtonPressed x y)
  · cases h2 : (ex.isDebugInfoVisible && env.isInfoButtonPressed x y)
    · cases h3 : debugToggleClaims cfg env ex x y
      · cases h4 : env.isResetButtonPressed x y
        · simp only [Bool.false_eq_true, if_false]
          cases h5 : env.isColorButtonPressed x y
          · simp only []
            cases h6 : env.isEraserButtonPressed x y
            · simp only [Bool.false_eq_true, if_false]
              split_ifs <;> rfl
            · simp only [if_true]
              exact eraserButtonBranch_resetFields t st ex
          · rfl
        · exact absurd ⟨by simp [h1, h2, h3], h4⟩ h
      · simp
    · simp
  · simp

theorem dispatch_resetFields_frame (cfg : Config) (env : Env) (t : Nat) (xy1 : XY_TouchPoint_t)
    (st : Statics) (ex : Externs)
    (h : ¬ resetClaims cfg env ex (mapXOf cfg env xy1) (mapYOf cfg env xy1)) :
    resetFieldsOf (dispatch cfg env t xy1 st ex).statics = resetFieldsOf st := by
  unfold dispatch
  cases hf : xy1.fly
  · simp only [Bool.not_false, if_true]
    cases hm : ex.currentUIState
    · cases hc : ex.inCustomColorMode
      · simp only [Bool.false_eq_true, if_false]
        apply mainScreenTouch_resetFields_frame
        intro hh
        exact h ⟨⟨hm, hc⟩, hh.1, hh.2⟩
      · simp
    · simp
    · simp
    · simp only []
      split_ifs <;> rfl
  · simp

theorem handleLocalTouch_statics_of_none (cfg : Config) (env : Env) (inp : Input) (st : Statics)
    (ex : Externs) (h : cyclePoint inp ex = none) :
    (handleLocalTouch cfg env inp st ex).statics = st ∨
    (handleLocalTouch cfg env inp st ex).statics = clearContact st := by
  unfold cyclePoint at h
  unfold handleLocalTouch
  cases ht : inp.touched
  · right; simp
  · simp only [ht, if_true] at h ⊢
    cases hc : ex.isCoffeePopupVisible <;> cases hp : ex.isProjectInfoPopupVisible <;>
      simp only [hc, hp, Bool.or_false, Bool.or_true, Bool.or_self, if_true, if_false,
        Bool.false_eq_true] at h ⊢ <;>
      cases hf : (averageXY inp.ts).fly <;>
      simp only [hf, if_true, if_false, Bool.false_eq_true, Bool.not_true, Bool.not_false] at h ⊢
    all_goals first
      | (left; rw [dispatch_fly _ _ _ _ _ _ hf])
      | (left
         cases hf2 : (averageXY (restAfter inp.ts)).fly
         · simp [hf2] at h
         · rw [dispatch_fly _ _ _ _ _ _ hf2])
      | exact Or.inr trivial
      | exact absurd h (Option.some_ne_none _)

theorem resetFieldsOf_clearContact (st : Statics) :
    resetFieldsOf (clearContact st) = resetFieldsOf st := rfl

/-- One cycle changes the pair `(resetPressCount, lastResetTime)` by `resetStep` when the reset
button claims the touch and leaves it alone otherwise. -/
theorem stepStatics_resetFields (cfg : Config) (st : Statics) (c : Cycle) :
    resetFieldsOf (stepStatics cfg st c) =
      if isResetCycle cfg c then resetStep (resetFieldsOf st) c.inp.currentRawUptime
      else resetFieldsOf st := by
  unfold stepStatics isResetCycle
  cases hs : screenPoint cfg c.env c.inp c.ex with
  | none =>
    simp only [Bool.false_eq_true, if_false]
    have hn : cyclePoint c.inp c.ex = none := by
      unfold screenPoint at hs
      cases hcp : cyclePoint c.inp c.ex with
      | none => rfl
      | some v => simp [hcp] at hs
    rcases handleLocalTouch_statics_of_none cfg c.env c.inp st c.ex hn with h | h
    · rw [h]
    · rw [h, resetFieldsOf_clearContact]
  | some p =>
    obtain ⟨x, y⟩ := p
    simp only []
    by_cases hr : resetClaims cfg c.env c.ex x y
    · simp only [hr, decide_True, if_true]
      rw [handleLocalTouch_reset cfg c.env c.inp st c.ex x y hs hr]
      simp [resetBranch, resetFieldsOf, resetStep, resetCountBumped]
    · simp only [hr, decide_False, Bool.false_eq_true, if_false]
      obtain ⟨xy1, hcp, _, hx, hy⟩ := screenPoint_some cfg c.env c.inp c.ex x y hs
      rw [handleLocalTouch_of_cyclePoint cfg c.env c.inp st c.ex xy1 hcp]
      apply dispatch_resetFields_frame
      rw [hx, hy]
      exact hr

theorem runCycles_append (cfg : Config) (st : Statics) (pre suf : List Cycle) :
    runCycles cfg st (pre ++ suf) = runCycles cfg (runCycles cfg st pre) suf := by
  simp [runCycles, List.foldl_append]

theorem resetUptimes_append (cfg : Config) (pre suf : List Cycle) :
    resetUptimes cfg (pre ++ suf) = resetUptimes cfg pre ++ resetUptimes cfg suf := by
  simp [resetUptimes, List.filter_append]

/-- The counter pair after a run is the fold of `resetStep` over the uptimes of the reset-button
touches of the run. -/
theorem runCycles_resetFields (cfg : Config) (cs : List Cycle) :
    ∀ st : Statics, resetFieldsOf (runCycles cfg st cs) =
      (resetUptimes cfg cs).foldl resetStep (resetFieldsOf st) := by
  induction cs with
  | nil => intro st; rfl
  | cons c cs ih =>
    intro st
    have : runCycles cfg st (c :: cs) = runCycles cfg (stepStatics cfg st c) cs := rfl
    rw [this, ih, stepStatics_resetFields]
    by_cases hc : isResetCycle cfg c = true
    · simp [resetUptimes, List.filter_cons, hc]
    · simp [resetUptimes, List.filter_cons, hc]

theorem getLast?_getD_append_singleton (l : List Nat) (t : Nat) :
    (l ++ [t]).getLast?.getD 0 = t := by
  simp

theorem chain_last_rel {R : Nat → Nat → Prop} (l : List Nat) (t : Nat)
    (h : List.Chain' R (l ++ [t])) (hne : l ≠ []) : R (l.getLast?.getD 0) t := by
  obtain ⟨_, _, h3⟩ := List.chain'_append.1 h
  have hl : l.getLast? = some (l.getLast hne) := List.getLast?_eq_getLast l hne
  have := h3 (l.getLast hne) (by simp [hl]) t (by simp)
  simpa [hl] using this

/-- Counter pair after up to ten reset touches that each come less than 1000 ms after the
previous one. -/
theorem foldl_resetStep_quick (l : List Nat) :
    List.Chain' (fun a b => usub b a < 1000) l → l.length ≤ 10 →
    l.foldl resetStep (0, 0) =
      ((if l.length = 10 then 0 else (l.length : Int)), l.getLast?.getD 0) := by
  induction l using List.reverseRecOn with
  | nil => intro _ _; rfl
  | append_singleton l t ih =>
    intro hch hlen
    have hlen' : l.length ≤ 9 := by simpa using hlen
    have ih' := ih (List.chain'_append.1 hch).1 (by omega)
    have hne10 : ¬ l.length = 10 := by omega
    rw [List.foldl_append, ih']
    simp only [List.foldl_cons, List.foldl_nil, hne10, if_false, List.length_append,
      List.length_singleton, getLast?_getD_append_singleton]
    by_cases hnil : l = []
    · subst hnil
      simp [resetStep]
    · have hgap := chain_last_rel l t hch hnil
      simp only [resetStep, hgap, if_true]
      by_cases h9 : l.length = 9
      · simp [h9]
      · have h1 : ¬ ((l.length : Int) + 1 ≥ 10) := by omega
        have h2 : ¬ (l.length + 1 = 10) := by omega
        simp [h1, h2]

/-- Counter pair after reset touches that each come 1000 ms or more after the previous one. -/
theorem foldl_resetStep_slow (l : List Nat) :
    List.Chain' (fun a b => 1000 ≤ usub b a) l →
    l.foldl resetStep (0, 0) = ((if l = [] then 0 else 1), l.getLast?.getD 0) := by
  induction l using List.reverseRecOn with
  | nil => intro _; rfl
  | append_singleton l t ih =>
    intro hch
    have ih' := ih (List.chain'_append.1 hch).1
    rw [List.foldl_append, ih']
    simp only [List.foldl_cons, List.foldl_nil, getLast?_getD_append_singleton]
    by_cases hnil : l = []
    · subst hnil
      simp [resetStep]
    · have hgap := chain_last_rel l t hch hnil
      have hgap' : ¬ usub t (l.getLast?.getD 0) < 1000 := not_lt.2 hgap
      simp [resetStep, hgap', hnil]

theorem isResetCycle_true (cfg : Config) (c : Cycle) (h : isResetCycle cfg c = true) :
    ∃ x y, screenPoint cfg c.env c.inp c.ex = some (x, y) ∧ resetClaims cfg c.env c.ex x y := by
  unfold isResetCycle at h
  cases hs : screenPoint cfg c.env c.inp c.ex with
  | none => simp [hs] at h
  | some p =>
    obtain ⟨x, y⟩ := p
    simp only [hs, decide_eq_true_eq] at h
    exact ⟨x, y, rfl, h⟩

theorem resetUptimes_snoc (cfg : Config) (pre : List Cycle) (c : Cycle)
    (h : isResetCycle cfg c = true) :
    resetUptimes cfg (pre ++ [c]) = resetUptimes cfg pre ++ [c.inp.currentRawUptime] := by
  simp [resetUptimes, List.filter_append, List.filter_cons, h]

theorem resetUptimes_cons_of_reset (cfg : Config) (c : Cycle) (suf : List Cycle)
    (h : isResetCycle cfg c = true) :
    resetUptimes cfg (c :: suf) = c.inp.currentRawUptime :: resetUptimes cfg suf := by
  simp [resetUptimes, List.filter_cons, h]

theorem runCycles_snoc (cfg : Config) (st : Statics) (pre : List Cycle) (c : Cycle) :
    runCycles cfg st (pre ++ [c]) =
      (handleLocalTouch cfg c.env c.inp (runCycles cfg st pre) c.ex).statics := by
  simp [runCycles, List.foldl_append, stepStatics]

theorem resetBranch_count (t : Nat) (st : Statics) (ex : Externs) :
    (resetBranch t st ex).statics.resetPressCount =
      (if resetCountBumped t st ≥ 10 then 0 else resetCountBumped t st) ∧
    (Event.serialEggLines ∈ (resetBranch t st ex).events ↔ resetCountBumped t st ≥ 10) := by
  unfold resetBranch
  by_cases h : resetCountBumped t st ≥ 10 <;> simp [h]

/-- C7: run any sequence of cycles from the initial state (`resetPressCount = 0`,
`lastResetTime = 0`); gaps between consecutive reset-button touches are the unsigned differences
of their uptime readings. If the sequence holds ten reset-button touches and each comes less than
1000 ms after the previous one, then after any initial part holding `k` of them the counter is
`k` for `k = 0, 1, ..., 9`, the tenth touch raises it to `10`, fires the easter egg and sets it
back to `0` within that cycle. If every gap is 1000 ms or more, the counter is `1` after every
touch and no touch reaches the threshold of `10`. -/
theorem C7_reset_counter_over_touch_sequences (cfg : Config) (cs : List Cycle) :
    ((resetUptimes cfg cs).length = 10 →
      List.Chain' (fun a b => usub b a < 1000) (resetUptimes cfg cs) →
      (∀ pre suf, cs = pre ++ suf →
        (runCycles cfg Statics.init pre).resetPressCount =
          if (resetUptimes cfg pre).length = 10 then 0
          else ((resetUptimes cfg pre).length : Int)) ∧
      (∀ pre c suf, cs = pre ++ c :: suf → isResetCycle cfg c = true →
        (resetUptimes cfg pre).length = 9 →
        resetCountBumped c.inp.currentRawUptime (runCycles cfg Statics.init pre) = 10 ∧
        Event.serialEggLines ∈
          (handleLocalTouch cfg c.env c.inp (runCycles cfg Statics.init pre) c.ex).events ∧
        (runCycles cfg Statics.init (pre ++ [c])).resetPressCount = 0)) ∧
    (List.Chain' (fun a b => 1000 ≤ usub b a) (resetUptimes cfg cs) →
      (∀ pre suf, cs = pre ++ suf →
        (runCycles cfg Statics.init pre).resetPressCount =
          if resetUptimes cfg pre = [] then 0 else 1) ∧
      (∀ pre c suf, cs = pre ++ c :: suf → isResetCycle cfg c = true →
        resetCountBumped c.inp.currentRawUptime (runCycles cfg Statics.init pre) = 1 ∧
        Event.serialEggLines ∉
          (handleLocalTouch cfg c.env c.inp (runCycles cfg Statics.init pre) c.ex).events ∧
        (runCycles cfg Statics.init (pre ++ [c])).resetPressCount = 1)) := by
  have hfold : ∀ pre : List Cycle, resetFieldsOf (runCycles cfg Statics.init pre) =
      (resetUptimes cfg pre).foldl resetStep (0, 0) :=
    fun pre => runCycles_resetFields cfg pre Statics.init
  have hafter : ∀ (pre : List Cycle) (c : Cycle), isResetCycle cfg c = true →
      (Event.serialEggLines ∈
        (handleLocalTouch cfg c.env c.inp (runCycles cfg Statics.init pre) c.ex).events ↔
        resetCountBumped c.inp.currentRawUptime (runCycles cfg Statics.init pre) ≥ 10) ∧
      (runCycles cfg Statics.init (pre ++ [c])).resetPressCount =
        (if resetCountBumped c.inp.currentRawUptime (runCycles cfg Statics.init pre) ≥ 10 then 0
         else resetCountBumped c.inp.currentRawUptime (runCycles cfg Statics.init pre)) := by
    intro pre c hc
    obtain ⟨x, y, hs, hr⟩ := isResetCycle_true cfg c hc
    rw [runCycles_snoc, handleLocalTouch_reset cfg c.env c.inp _ c.ex x y hs hr]
    exact ⟨(resetBranch_count _ _ _).2, (resetBranch_count _ _ _).1⟩
  constructor
  · intro hlen hch
    constructor
    · intro pre suf hcs
      have happ : resetUptimes cfg cs = resetUptimes cfg pre ++ resetUptimes cfg suf := by
        rw [hcs, resetUptimes_append]
      have hch' : List.Chain' (fun a b => usub b a < 1000) (resetUptimes cfg pre) := by
        rw [happ] at hch
        exact (List.chain'_append.1 hch).1
      have hl : (resetUptimes cfg pre).length ≤ 10 := by
        have := congrArg List.length happ
        rw [List.length_append] at this
        omega
      have := congrArg Prod.fst
        ((hfold pre).trans (foldl_resetStep_quick (resetUptimes cfg pre) hch' hl))
      exact this
    · intro pre c suf hcs hc h9
      have happ : resetUptimes cfg cs =
          (resetUptimes cfg pre ++ [c.inp.currentRawUptime]) ++ resetUptimes cfg suf := by
        rw [hcs, resetUptimes_append, resetUptimes_cons_of_reset cfg c suf hc]
        simp
      rw [happ] at hch
      have hch1 := (List.chain'_append.1 hch).1
      have hch0 := (List.chain'_append.1 hch1).1
      have hne : resetUptimes cfg pre ≠ [] := by
        intro h0
        rw [h0] at h9
        simp at h9
      have hgap := chain_last_rel _ _ hch1 hne
      have hf := (hfold pre).trans
        (foldl_resetStep_quick (resetUptimes cfg pre) hch0 (by omega))
      have hcount : (runCycles cfg Statics.init pre).resetPressCount = 9 := by
        have := congrArg Prod.fst hf
        simpa [resetFieldsOf, h9] using this
      have htime : (runCycles cfg Statics.init pre).lastResetTime =
          (resetUptimes cfg pre).getLast?.getD 0 := congrArg Prod.snd hf
      have hb : resetCountBumped c.inp.currentRawUptime (runCycles cfg Statics.init pre) = 10 := by
        unfold resetCountBumped
        rw [htime, hcount, if_pos hgap]
        rfl
      obtain ⟨he, hn⟩ := hafter pre c hc
      refine ⟨hb, he.2 (by rw [hb]), ?_⟩
      rw [hn, hb]
      rfl
  · intro hch
    constructor
    · intro pre suf hcs
      have happ : resetUptimes cfg cs = resetUptimes cfg pre ++ resetUptimes cfg suf := by
        rw [hcs, resetUptimes_append]
      have hch' : List.Chain' (fun a b => 1000 ≤ usub b a) (resetUptimes cfg pre) := by
        rw [happ] at hch
        exact (List.chain'_append.1 hch).1
      have := congrArg Prod.fst
        ((hfold pre).trans (foldl_resetStep_slow (resetUptimes cfg pre) hch'))
      exact this
    · intro pre c suf hcs hc
      have happ : resetUptimes cfg cs =
          (resetUptimes cfg pre ++ [c.inp.currentRawUptime]) ++ resetUptimes cfg suf := by
        rw [hcs, resetUptimes_append, resetUptimes_cons_of_reset cfg c suf hc]
        simp
      rw [happ] at hch
      have hch1 := (List.chain'_append.1 hch).1
      have hch0 := (List.chain'_append.1 hch1).1
      have hf := (hfold pre).trans (foldl_resetStep_slow (resetUptimes cfg pre) hch0)
      have hcount : (runCycles cfg Statics.init pre).resetPressCount =
          if resetUptimes cfg pre = [] then 0 else 1 := congrArg Prod.fst hf
      have htime : (runCycles cfg Statics.init pre).lastResetTime =
          (resetUptimes cfg pre).getLast?.getD 0 := congrArg Prod.snd hf
      have hb : resetCountBumped c.inp.currentRawUptime (runCycles cfg Statics.init pre) = 1 := by
        unfold resetCountBumped
        rw [htime, hcount]
        by_cases hnil : resetUptimes cfg pre = []
        · simp [hnil]
        · have hgap := chain_last_rel _ _ hch1 hnil
          rw [if_neg (not_lt.2 hgap)]
      obtain ⟨he, hn⟩ := hafter pre c hc
      refine ⟨hb, fun hmem => ?_, ?_⟩
      · have := he.1 hmem
        rw [hb] at this
        exact absurd this (by decide)
      · rw [hn, hb]
        rfl

theorem isResetCycle_resetTouch (t : Nat) : isResetCycle sampleConfig (resetTouch t) = true := by
  have hp : screenPoint sampleConfig (resetTouch t).env (resetTouch t).inp (resetTouch t).ex =
      some (295, 17) := screenPoint_steady (mainExterns 31) t 3430 500 rfl rfl
  have hr : resetClaims sampleConfig (resetTouch t).env (resetTouch t).ex 295 17 := by
    show resetClaims sampleConfig sampleEnv (mainExterns 31) 295 17
    decide
  simp only [isResetCycle, hp, hr, decide_True]

theorem isResetCycle_idleCycle (t : Nat) : isResetCycle sampleConfig (idleCycle t) = false := by
  simp [isResetCycle, screenPoint, cyclePoint, idleCycle]

theorem resetUptimes_tenQuickResets :
    resetUptimes sampleConfig tenQuickResets =
      [100, 600, 1100, 1600, 2100, 2600, 3100, 3600, 4100, 4600] := by
  simp [resetUptimes, tenQuickResets, List.filter_cons, isResetCycle_resetTouch,
    isResetCycle_idleCycle]
  simp [resetTouch, touchCycle]

theorem resetUptimes_slowResets :
    resetUptimes sampleConfig slowResets = [100, 1600, 3100, 4600] := by
  simp [resetUptimes, slowResets, List.filter_cons, isResetCycle_resetTouch,
    isResetCycle_idleCycle]
  simp [resetTouch, touchCycle]

/-- C7 on the sample screen: ten reset touches 500 ms apart (idle cycles in between) count
`1, ..., 9`, the tenth reaches `10` and leaves `0`; reset touches 1500 ms apart leave `1`. -/
theorem C7_witness_quick_and_slow_resets :
    resetUptimes sampleConfig tenQuickResets =
      [100, 600, 1100, 1600, 2100, 2600, 3100, 3600, 4100, 4600] ∧
    List.Chain' (fun a b => usub b a < 1000) (resetUptimes sampleConfig tenQuickResets) ∧
    (runCycles sampleConfig Statics.init (tenQuickResets.take 1)).resetPressCount = 1 ∧
    (runCycles sampleConfig Statics.init (tenQuickResets.take 11)).resetPressCount = 9 ∧
    resetCountBumped 4600 (runCycles sampleConfig Statics.init (tenQuickResets.take 11)) = 10 ∧
    (runCycles sampleConfig Statics.init tenQuickResets).resetPressCount = 0 ∧
    List.Chain' (fun a b => 1000 ≤ usub b a) (resetUptimes sampleConfig slowResets) ∧
    (runCycles sampleConfig Statics.init slowResets).resetPressCount = 1 := by
  have hq : List.Chain' (fun a b => usub b a < 1000) (resetUptimes sampleConfig tenQuickResets) := by
    rw [resetUptimes_tenQuickResets]
    simp only [List.chain'_cons, List.chain'_singleton, and_true]
    decide
  have hs : List.Chain' (fun a b => 1000 ≤ usub b a) (resetUptimes sampleConfig slowResets) := by
    rw [resetUptimes_slowResets]
    simp only [List.chain'_cons, List.chain'_singleton, and_true]
    decide
  have hlen : (resetUptimes sampleConfig tenQuickResets).length = 10 := by
    rw [resetUptimes_tenQuickResets]; rfl
  have h1 := (C7_reset_counter_over_touch_sequences sampleConfig tenQuickResets).1 hlen hq
  have h2 := (C7_reset_counter_over_touch_sequences sampleConfig slowResets).2 hs
  have u1 : resetUptimes sampleConfig (tenQuickResets.take 1) = [100] := by
    simp [resetUptimes, tenQuickResets, List.filter_cons, isResetCycle_resetTouch]
    simp [resetTouch, touchCycle]
  have u11 : resetUptimes sampleConfig (tenQuickResets.take 11) =
      [100, 600, 1100, 1600, 2100, 2600, 3100, 3600, 4100] := by
    simp [resetUptimes, tenQuickResets, List.filter_cons, isResetCycle_resetTouch,
      isResetCycle_idleCycle]
    simp [resetTouch, touchCycle]
  refine ⟨resetUptimes_tenQuickResets, hq, ?_, ?_, ?_, ?_, hs, ?_⟩
  · have := h1.1 (tenQuickResets.take 1) (tenQuickResets.drop 1) (List.take_append_drop _ _).symm
    rw [this, u1]; rfl
  · have := h1.1 (tenQuickResets.take 11) (tenQuickResets.drop 11)
      (List.take_append_drop _ _).symm
    rw [this, u11]; rfl
  · exact (h1.2 (tenQuickResets.take 11) (resetTouch 4600) [] rfl (isResetCycle_resetTouch 4600)
      (by rw [u11]; rfl)).1
  · have := h1.1 tenQuickResets [] (List.append_nil _).symm
    rw [this, resetUptimes_tenQuickResets]; rfl
  · have := h2.1 slowResets [] (List.append_nil _).symm
    rw [this, resetUptimes_slowResets]; rfl

/-! ### Rejected cycles -/

/-- C11: in every cycle in which a touch is detected but every filtered point obtained in the
cycle is rejected (`fly`), `handleLocalTouch` changes nothing: it makes no collaborator call (no
raster operation, no broadcast, no UI action), appends nothing to the history, and leaves the
file-local variables (stored point and time, reset counter and time, debounce time) and the
shared variables (eraser flags among them) at their previous values. -/
theorem C11_rejected_cycle_changes_nothing (cfg : Config) (env : Env) (inp : Input)
    (st : Statics) (ex : Externs) (ht : inp.touched = true)
    (hall : ∀ xy ∈ filteredPoints inp ex, xy.fly = true) :
    handleLocalTouch cfg env inp st ex = { statics := st, externs := ex, events := [] } ∧
    (handleLocalTouch cfg env inp st ex).events = [] ∧
    rasterCalls (handleLocalTouch cfg env inp st ex).events = [] ∧
    broadcasts (handleLocalTouch cfg env inp st ex).events = [] ∧
    (handleLocalTouch cfg env inp st ex).externs.allDrawingHistory = ex.allDrawingHistory ∧
    (handleLocalTouch cfg env inp st ex).statics = st ∧
    (handleLocalTouch cfg env inp st ex).externs = ex := by
  have key : handleLocalTouch cfg env inp st ex =
      { statics := st, externs := ex, events := [] } := by
    unfold filteredPoints at hall
    unfold handleLocalTouch
    simp only [ht, if_true] at hall ⊢
    cases hc : ex.isCoffeePopupVisible <;> cases hp : ex.isProjectInfoPopupVisible <;>
      simp only [hc, hp, Bool.or_false, Bool.or_true, Bool.or_self, if_true, if_false,
        Bool.false_eq_true] at hall ⊢
    · have h1 : (averageXY inp.ts).fly = true := hall _ (by simp)
      exact dispatch_fly _ _ _ _ _ _ h1
    all_goals
      cases hf : (averageXY inp.ts).fly
      · have := hall (averageXY inp.ts) (by simp [hf])
        rw [hf] at this
        exact absurd this (by decide)
      · simp only [hf, if_true] at hall
        have h2 : (averageXY (restAfter inp.ts)).fly = true := hall _ (by simp)
        simp only [Bool.not_true, Bool.false_eq_true, if_false]
        exact dispatch_fly _ _ _ _ _ _ h2
  rw [key]
  exact ⟨rfl, rfl, rfl, rfl, rfl, rfl, rfl⟩

theorem averageXY_silent (ts : Nat → TS_Point) (h : (ts 0).z ≤ 200) : (averageXY ts).fly = true :=
  averageXY_lift ts 0 (by decide) (fun i hi => absurd hi (Nat.not_lt_zero i)) h

theorem filteredPoints_silent_popup (t : Nat) :
    filteredPoints (touchCycle (coffeePopupExterns 31 UIState_t.UI_STATE_MAIN) t []).inp
      (coffeePopupExterns 31 UIState_t.UI_STATE_MAIN) =
      [averageXY (streamOf []), averageXY (restAfter (streamOf []))] := by
  have h1 : (averageXY (streamOf [])).fly = true := averageXY_silent _ (by simp [streamOf])
  simp [filteredPoints, touchCycle, coffeePopupExterns, h1]

/-- C11 on the sample screen with the coffee popup shown and a sensor that reports no pressure:
both bursts of the cycle are rejected and the cycle changes nothing. -/
theorem C11_witness_silent_sensor :
    (∀ xy ∈ filteredPoints (touchCycle (coffeePopupExterns 31 UIState_t.UI_STATE_MAIN) 5000 []).inp
      (coffeePopupExterns 31 UIState_t.UI_STATE_MAIN), xy.fly = true) ∧
    handleLocalTouch sampleConfig sampleEnv
        (touchCycle (coffeePopupExterns 31 UIState_t.UI_STATE_MAIN) 5000 []).inp Statics.init
        (coffeePopupExterns 31 UIState_t.UI_STATE_MAIN) =
      { statics := Statics.init, externs := coffeePopupExterns 31 UIState_t.UI_STATE_MAIN,
        events := [] } := by
  have hall : ∀ xy ∈ filteredPoints
      (touchCycle (coffeePopupExterns 31 UIState_t.UI_STATE_MAIN) 5000 []).inp
      (coffeePopupExterns 31 UIState_t.UI_STATE_MAIN), xy.fly = true := by
    rw [filteredPoints_silent_popup]
    intro xy hxy
    simp only [List.mem_cons, List.mem_singleton, List.not_mem_nil, or_false] at hxy
    rcases hxy with h | h
    · rw [h]; exact averageXY_silent _ (by simp [streamOf])
    · rw [h]; exact averageXY_silent _ (by simp [restAfter, streamOf])
  exact ⟨hall, (C11_rejected_cycle_changes_nothing sampleConfig sampleEnv _ Statics.init _ rfl
    hall).1⟩

/-! ### Swatches, eraser toggle and draw actions -/

theorem handleLocalTouch_swatch (cfg : Config) (env : Env) (inp : Input) (st : Statics)
    (ex : Externs) (mapX mapY : Int) (c : Nat)
    (h : screenPoint cfg env inp ex = some (mapX, mapY))
    (hs : swatchClaims cfg env ex mapX mapY c) :
    handleLocalTouch cfg env inp st ex =
      { statics := st
        externs := { ex with isEraserMode := false }
        events := [Event.updateCurrentColor c, Event.redrawStarButton,
          Event.redrawEraserButton] } := by
  rw [handleLocalTouch_main cfg env inp st ex mapX mapY h hs.1]
  obtain ⟨_, hb, h1, h2⟩ := hs
  unfold claimedBeforeReset at hb
  simp only [Bool.or_eq_false_iff] at hb
  unfold mainScreenTouch
  simp [hb.1.1, hb.1.2, hb.2, h1, h2]

theorem handleLocalTouch_eraserButton (cfg : Config) (env : Env) (inp : Input) (st : Statics)
    (ex : Externs) (mapX mapY : Int)
    (h : screenPoint cfg env inp ex = some (mapX, mapY))
    (he : eraserButtonClaims cfg env ex mapX mapY) :
    handleLocalTouch cfg env inp st ex = eraserButtonBranch inp.currentRawUptime st ex := by
  rw [handleLocalTouch_main cfg env inp st ex mapX mapY h he.1]
  obtain ⟨_, hb, h1, h2, h3⟩ := he
  unfold claimedBeforeReset at hb
  simp only [Bool.or_eq_false_iff] at hb
  unfold mainScreenTouch
  simp [hb.1.1, hb.1.2, hb.2, h1, h2, h3]

theorem drawBranch_pen (cfg : Config) (t : Nat) (x y : Int) (st : Statics) (ex : Externs)
    (hpen : ex.isEraserMode = false) :
    (drawBranch cfg t x y st ex).externs.allDrawingHistory =
      ex.allDrawingHistory ++
        [{ x := x, y := y, timestamp := t, isReset := false, color := ex.currentColor }] ∧
    rasterCalls (drawBranch cfg t x y st ex).events =
      (if st.lastLocalPoint.z = 0 ∨ usub t st.lastLocalTouchTime > cfg.TOUCH_STROKE_INTERVAL then
        [Event.drawPixel x y ex.currentColor]
      else [Event.drawLine st.lastLocalPoint.x st.lastLocalPoint.y x y ex.currentColor]) := by
  unfold drawBranch penOps drawPointOf drawColorOf
  cases hs : ex.isEraserSliderVisible <;>
    by_cases hz : st.lastLocalPoint.z = 0 <;>
    by_cases hi : usub t st.lastLocalTouchTime > cfg.TOUCH_STROKE_INTERVAL <;>
    simp [rasterCalls, hpen, hz, hi]

/-- C12: in every cycle in which a standard colour swatch claims the touch, eraser mode is off
afterwards whatever it was before (the colour is handed to `updateCurrentColor` and the two
buttons are repainted); hence a draw action that meets the eraser flag as this cycle left it is a
pen action: its raster call is a pixel or a line, and its record carries the current brush
colour, which is black only if the brush itself is black. -/
theorem C12_swatch_switches_eraser_mode_off (cfg : Config) (env : Env) (inp : Input)
    (st : Statics) (ex : Externs) (mapX mapY : Int) (c : Nat)
    (hp : screenPoint cfg env inp ex = some (mapX, mapY))
    (hs : swatchClaims cfg env ex mapX mapY c) :
    (handleLocalTouch cfg env inp st ex).externs.isEraserMode = false ∧
    (handleLocalTouch cfg env inp st ex).events =
      [Event.updateCurrentColor c, Event.redrawStarButton, Event.redrawEraserButton] ∧
    (∀ (env2 : Env) (inp2 : Input) (st2 : Statics) (ex2 : Externs) (x2 y2 : Int),
      ex2.isEraserMode = (handleLocalTouch cfg env inp st ex).externs.isEraserMode →
      screenPoint cfg env2 inp2 ex2 = some (x2, y2) → drawClaims cfg env2 ex2 x2 y2 →
      (handleLocalTouch cfg env2 inp2 st2 ex2).externs.allDrawingHistory =
        ex2.allDrawingHistory ++
          [{ x := x2, y := y2, timestamp := inp2.currentRawUptime, isReset := false,
             color := ex2.currentColor }] ∧
      rasterCalls (handleLocalTouch cfg env2 inp2 st2 ex2).events =
        (if st2.lastLocalPoint.z = 0 ∨
            usub inp2.currentRawUptime st2.lastLocalTouchTime > cfg.TOUCH_STROKE_INTERVAL then
          [Event.drawPixel x2 y2 ex2.currentColor]
        else
          [Event.drawLine st2.lastLocalPoint.x st2.lastLocalPoint.y x2 y2 ex2.currentColor]) ∧
      (ex2.currentColor ≠ TFT_BLACK →
        ∀ r ∈ (handleLocalTouch cfg env2 inp2 st2 ex2).externs.allDrawingHistory,
          r ∉ ex2.allDrawingHistory → r.color ≠ TFT_BLACK)) := by
  rw [handleLocalTouch_swatch cfg env inp st ex mapX mapY c hp hs]
  refine ⟨rfl, rfl, ?_⟩
  intro env2 inp2 st2 ex2 x2 y2 hmode hp2 hd2
  have hpen : ex2.isEraserMode = false := hmode
  rw [handleLocalTouch_draw cfg env2 inp2 st2 ex2 x2 y2 hp2 hd2]
  obtain ⟨h1, h2⟩ := drawBranch_pen cfg inp2.currentRawUptime x2 y2 st2 ex2 hpen
  refine ⟨h1, h2, ?_⟩
  intro hcol r hr hnot
  rw [h1] at hr
  rcases List.mem_append.1 hr with h | h
  · exact absurd h hnot
  · rw [List.mem_singleton.1 h]
    exact hcol

theorem screenPoint_steady_env (env : Env) (hmap : env.map = arduinoMap) (ex : Externs) (t : Nat)
    (x y : Int) (hc : ex.isCoffeePopupVisible = false)
    (hp : ex.isProjectInfoPopupVisible = false) :
    screenPoint sampleConfig env
        { touched := true, currentRawUptime := t, ts := streamOf (steady x y) } ex =
      some (arduinoMap x 200 3700 0 320, arduinoMap y 240 3800 0 240) := by
  simp [screenPoint, cyclePoint, hc, hp, averageXY_steady, mapXOf, mapYOf,
    toLong_intCast, hmap, sampleConfig]

/-- C12 on the palette screen: a touch on the swatch at `(10, 10)` while the eraser is on
switches it off, and the draw action at `(100, 100)` that follows is recorded with the brush
colour `2016`. -/
theorem C12_witness_swatch_then_draw :
    screenPoint sampleConfig paletteEnv (paletteCycle (eraserExterns 31 5) 1000 (steady 310 390)).inp
      (eraserExterns 31 5) = some (10, 10) ∧
    swatchClaims sampleConfig paletteEnv (eraserExterns 31 5) 10 10 2016 ∧
    (handleLocalTouch sampleConfig paletteEnv
      (paletteCycle (eraserExterns 31 5) 1000 (steady 310 390)).inp Statics.init
      (eraserExterns 31 5)).externs.isEraserMode = false ∧
    (handleLocalTouch sampleConfig paletteEnv
      (paletteCycle (mainExterns 2016) 3000 (steady 1300 1730)).inp Statics.init
      (mainExterns 2016)).externs.allDrawingHistory =
      [{ x := 100, y := 100, timestamp := 3000, isReset := false, color := 2016 }] := by
  have hp := screenPoint_steady_env paletteEnv rfl (eraserExterns 31 5) 1000 310 390 rfl rfl
  have hs : swatchClaims sampleConfig paletteEnv (eraserExterns 31 5) 10 10 2016 := by decide
  have h := C12_swatch_switches_eraser_mode_off sampleConfig paletteEnv
    (paletteCycle (eraserExterns 31 5) 1000 (steady 310 390)).inp Statics.init
    (eraserExterns 31 5) 10 10 2016 hp hs
  refine ⟨hp, hs, h.1, ?_⟩
  exact (h.2.2 paletteEnv (paletteCycle (mainExterns 2016) 3000 (steady 1300 1730)).inp
    Statics.init (mainExterns 2016) 100 100 h.1.symm
    (screenPoint_steady_env paletteEnv rfl (mainExterns 2016) 3000 1300 1730 rfl rfl)
    (by decide)).1

/-- C15: in every cycle in which the eraser toggle button claims the touch at uptime `t`: when
the unsigned difference `t - lastEraserButtonTime` is below 300 ms the press is ignored, that is,
nothing changes (`isEraserMode`, `isEraserSliderVisible` and `lastEraserButtonTime` among it) and
no call, hence no repaint, is made; otherwise `isEraserMode` is negated, `isEraserSliderVisible`
becomes the new `isEraserMode`, `lastEraserButtonTime` becomes `t`, and the repaint is the whole
screen when the slider is hidden and the button with the slider when it is shown. In both cases
the touch is consumed: no raster call, no broadcast, no history record, and the stored point and
time are untouched. -/
theorem C15_eraser_toggle_is_debounced (cfg : Config) (env : Env) (inp : Input) (st : Statics)
    (ex : Externs) (mapX mapY : Int)
    (hp : screenPoint cfg env inp ex = some (mapX, mapY))
    (he : eraserButtonClaims cfg env ex mapX mapY) :
    (usub inp.currentRawUptime st.lastEraserButtonTime < 300 →
      handleLocalTouch cfg env inp st ex = { statics := st, externs := ex, events := [] }) ∧
    (¬ usub inp.currentRawUptime st.lastEraserButtonTime < 300 →
      (handleLocalTouch cfg env inp st ex).externs.isEraserMode = !ex.isEraserMode ∧
      (handleLocalTouch cfg env inp st ex).externs.isEraserSliderVisible =
        (handleLocalTouch cfg env inp st ex).externs.isEraserMode ∧
      (handleLocalTouch cfg env inp st ex).statics.lastEraserButtonTime = inp.currentRawUptime ∧
      (handleLocalTouch cfg env inp st ex).events =
        (if ex.isEraserMode then [Event.redrawMainScreen]
         else [Event.redrawEraserButton, Event.drawEraserSlider])) ∧
    rasterCalls (handleLocalTouch cfg env inp st ex).events = [] ∧
    broadcasts (handleLocalTouch cfg env inp st ex).events = [] ∧
    (handleLocalTouch cfg env inp st ex).externs.allDrawingHistory = ex.allDrawingHistory ∧
    (handleLocalTouch cfg env inp st ex).statics.lastLocalPoint = st.lastLocalPoint ∧
    (handleLocalTouch cfg env inp st ex).statics.lastLocalTouchTime = st.lastLocalTouchTime := by
  rw [handleLocalTouch_eraserButton cfg env inp st ex mapX mapY hp he]
  unfold eraserButtonBranch ERASER_BUTTON_DEBOUNCE_TIME
  by_cases hd : usub inp.currentRawUptime st.lastEraserButtonTime < 300
  · have hd' : ¬ usub inp.currentRawUptime st.lastEraserButtonTime ≥ 300 := not_le.2 hd
    simp [hd, hd', rasterCalls, broadcasts]
  · have hd' : usub inp.currentRawUptime st.lastEraserButtonTime ≥ 300 := not_lt.1 hd
    cases hm : ex.isEraserMode <;> simp [hd, hd', hm, rasterCalls, broadcasts]

/-- C15 on the palette screen: the first press of the eraser button at uptime `1000` switches
the eraser on and shows the slider; a press `100` ms later is ignored. -/
theorem C15_witness_press_and_bounce :
    screenPoint sampleConfig paletteEnv (paletteCycle (mainExterns 31) 1000 (steady 310 1000)).inp
      (mainExterns 31) = some (10, 51) ∧
    eraserButtonClaims sampleConfig paletteEnv (mainExterns 31) 10 51 ∧
    (handleLocalTouch sampleConfig paletteEnv
      (paletteCycle (mainExterns 31) 1000 (steady 310 1000)).inp Statics.init
      (mainExterns 31)).externs.isEraserMode = true ∧
    (handleLocalTouch sampleConfig paletteEnv
      (paletteCycle (mainExterns 31) 1000 (steady 310 1000)).inp Statics.init
      (mainExterns 31)).statics.lastEraserButtonTime = 1000 ∧
    handleLocalTouch sampleConfig paletteEnv
        (paletteCycle (mainExterns 31) 1100 (steady 310 1000)).inp
        { Statics.init with lastEraserButtonTime := 1000 } (mainExterns 31) =
      { statics := { Statics.init with lastEraserButtonTime := 1000 }, externs := mainExterns 31,
        events := [] } := by
  have hp := screenPoint_steady_env paletteEnv rfl (mainExterns 31) 1000 310 1000 rfl rfl
  have hp2 := screenPoint_steady_env paletteEnv rfl (mainExterns 31) 1100 310 1000 rfl rfl
  have he : eraserButtonClaims sampleConfig paletteEnv (mainExterns 31) 10 51 := by decide
  have h := C15_eraser_toggle_is_debounced sampleConfig paletteEnv
    (paletteCycle (mainExterns 31) 1000 (steady 310 1000)).inp Statics.init (mainExterns 31)
    10 51 hp he
  have h2 := C15_eraser_toggle_is_debounced sampleConfig paletteEnv
    (paletteCycle (mainExterns 31) 1100 (steady 310 1000)).inp
    { Statics.init with lastEraserButtonTime := 1000 } (mainExterns 31) 10 51 hp2 he
  have hlate : ¬ usub 1000 0 < 300 := by decide
  have hsoon : usub 1100 1000 < 300 := by decide
  exact ⟨hp, he, (h.2.1 hlate).1, (h.2.1 hlate).2.2.1, h2.1 hsoon⟩

theorem drawBranch_common (cfg : Config) (t : Nat) (x y : Int) (st : Statics) (ex : Externs) :
    (drawBranch cfg t x y st ex).externs.allDrawingHistory =
      ex.allDrawingHistory ++
        [{ x := x, y := y, timestamp := t, isReset := false,
           color := if ex.isEraserMode then TFT_BLACK else ex.currentColor }] ∧
    broadcasts (drawBranch cfg t x y st ex).events =
      [{ type := MsgType.MSG_TYPE_DRAW_POINT, senderUptime := t
         senderOffset := ex.relativeBootTimeOffset
         touch_data :=
           { x := x, y := y, timestamp := t, isReset := false,
             color := if ex.isEraserMode then TFT_BLACK else ex.currentColor } }] ∧
    (drawBranch cfg t x y st ex).statics.lastLocalPoint = ⟨x, y, 1⟩ ∧
    (drawBranch cfg t x y st ex).statics.lastLocalTouchTime = t ∧
    (drawBranch cfg t x y st ex).externs.isEraserSliderVisible = false ∧
    (drawBranch cfg t x y st ex).externs.isEraserMode = ex.isEraserMode ∧
    (Event.redrawMainScreen ∈ (drawBranch cfg t x y st ex).events ↔
      ex.isEraserSliderVisible = true) := by
  unfold drawBranch drawPointOf drawColorOf penOps
  cases hs : ex.isEraserSliderVisible <;> cases he : ex.isEraserMode <;>
    simp [broadcasts, eraseOps_eq, hs, he] <;>
    split_ifs <;> simp

theorem drawBranch_erase (cfg : Config) (t : Nat) (x y : Int) (st : Statics) (ex : Externs)
    (he : ex.isEraserMode = true) :
    rasterCalls (drawBranch cfg t x y st ex).events =
      (if eraserSuppressed cfg x y ex.eraserRadius then []
       else [Event.fillCircle x y ex.eraserRadius TFT_BLACK]) := by
  unfold drawBranch drawPointOf drawColorOf
  cases hs : ex.isEraserSliderVisible <;>
    cases hg : eraserSuppressed cfg x y ex.eraserRadius <;>
    simp [rasterCalls, eraseOps_eq, he, hg]

/-- C16: every valid touch on the main screen (no picker) that no button or region claims is a
draw action: one record and one draw envelope, the record black and the raster call the guarded
eraser fill when `isEraserMode` is on, the record in the brush colour and the raster call the
pen's pixel or line otherwise. The eraser slider is not shown afterwards: when it was shown at
entry it is hidden, with a repaint of the main screen, and the draw action takes place in the
same cycle. -/
theorem C16_unclaimed_touch_is_draw_action (cfg : Config) (env : Env) (inp : Input)
    (st : Statics) (ex : Externs) (mapX mapY : Int)
    (hp : screenPoint cfg env inp ex = some (mapX, mapY))
    (hd : drawClaims cfg env ex mapX mapY) :
    (handleLocalTouch cfg env inp st ex).externs.allDrawingHistory =
      ex.allDrawingHistory ++
        [{ x := mapX, y := mapY, timestamp := inp.currentRawUptime, isReset := false,
           color := if ex.isEraserMode then TFT_BLACK else ex.currentColor }] ∧
    broadcasts (handleLocalTouch cfg env inp st ex).events =
      [{ type := MsgType.MSG_TYPE_DRAW_POINT, senderUptime := inp.currentRawUptime
         senderOffset := ex.relativeBootTimeOffset
         touch_data :=
           { x := mapX, y := mapY, timestamp := inp.currentRawUptime, isReset := false,
             color := if ex.isEraserMode then TFT_BLACK else ex.currentColor } }] ∧
    (ex.isEraserMode = true →
      rasterCalls (handleLocalTouch cfg env inp st ex).events =
        (if eraserSuppressed cfg mapX mapY ex.eraserRadius then []
         else [Event.fillCircle mapX mapY ex.eraserRadius TFT_BLACK])) ∧
    (ex.isEraserMode = false →
      rasterCalls (handleLocalTouch cfg env inp st ex).events =
        (if st.lastLocalPoint.z = 0 ∨
            usub inp.currentRawUptime st.lastLocalTouchTime > cfg.TOUCH_STROKE_INTERVAL then
          [Event.drawPixel mapX mapY ex.currentColor]
        else
          [Event.drawLine st.lastLocalPoint.x st.lastLocalPoint.y mapX mapY ex.currentColor])) ∧
    (handleLocalTouch cfg env inp st ex).externs.isEraserSliderVisible = false ∧
    (Event.redrawMainScreen ∈ (handleLocalTouch cfg env inp st ex).events ↔
      ex.isEraserSliderVisible = true) ∧
    (handleLocalTouch cfg env inp st ex).externs.isEraserMode = ex.isEraserMode := by
  rw [handleLocalTouch_draw cfg env inp st ex mapX mapY hp hd]
  obtain ⟨h1, h2, _, _, h5, h6, h7⟩ := drawBranch_common cfg inp.currentRawUptime mapX mapY st ex
  exact ⟨h1, h2, fun he => drawBranch_erase cfg _ _ _ st ex he,
    fun hpen => (drawBranch_pen cfg _ _ _ st ex hpen).2, h5, h7, h6⟩

/-- C16 on the sample screen in eraser mode with the slider shown, at `(100, 100)`: the slider
is hidden, the circle of radius `5` is filled and the black record is appended. -/
theorem C16_witness_erase_hides_slider :
    screenPoint sampleConfig sampleEnv (touchCycle (eraserExterns 31 5) 2000 (steady 1300 1730)).inp
      (eraserExterns 31 5) = some (100, 100) ∧
    drawClaims sampleConfig sampleEnv (eraserExterns 31 5) 100 100 ∧
    (handleLocalTouch sampleConfig sampleEnv
      (touchCycle (eraserExterns 31 5) 2000 (steady 1300 1730)).inp Statics.init
      (eraserExterns 31 5)).externs.isEraserSliderVisible = false ∧
    (handleLocalTouch sampleConfig sampleEnv
      (touchCycle (eraserExterns 31 5) 2000 (steady 1300 1730)).inp Statics.init
      (eraserExterns 31 5)).externs.allDrawingHistory =
      [{ x := 100, y := 100, timestamp := 2000, isReset := false, color := TFT_BLACK }] ∧
    rasterCalls (handleLocalTouch sampleConfig sampleEnv
      (touchCycle (eraserExterns 31 5) 2000 (steady 1300 1730)).inp Statics.init
      (eraserExterns 31 5)).events = [Event.fillCircle 100 100 5 TFT_BLACK] := by
  have hp := screenPoint_steady (eraserExterns 31 5) 2000 1300 1730 rfl rfl
  have hd : drawClaims sampleConfig sampleEnv (eraserExterns 31 5) 100 100 := by decide
  have h := C16_unclaimed_touch_is_draw_action sampleConfig sampleEnv
    (touchCycle (eraserExterns 31 5) 2000 (steady 1300 1730)).inp Statics.init
    (eraserExterns 31 5) 100 100 hp hd
  refine ⟨hp, hd, h.2.2.2.2.1, h.1, ?_⟩
  rw [h.2.2.1 rfl]
  rfl

/-- C17: in an eraser-mode draw cycle the guard decides the raster call only: when it suppresses
the fill no raster call is made, and in either case the cycle appends the black record
`{x, y, t, black, isReset = false}`, broadcasts the draw envelope carrying it and stores
`{point, z = 1, t}`. Hence any two eraser-mode draw cycles at the same point and uptime that
start from the same history and offset append the same history, broadcast the same envelope and
store the same point and time, whatever their guards decide. -/
theorem C17_record_and_envelope_independent_of_guard (cfg : Config) (env : Env) (inp : Input)
    (st : Statics) (ex : Externs) (mapX mapY : Int)
    (hp : screenPoint cfg env inp ex = some (mapX, mapY))
    (hd : drawClaims cfg env ex mapX mapY) (he : ex.isEraserMode = true) :
    rasterCalls (handleLocalTouch cfg env inp st ex).events =
      (if eraserSuppressed cfg mapX mapY ex.eraserRadius then []
       else [Event.fillCircle mapX mapY ex.eraserRadius TFT_BLACK]) ∧
    (handleLocalTouch cfg env inp st ex).externs.allDrawingHistory =
      ex.allDrawingHistory ++
        [{ x := mapX, y := mapY, timestamp := inp.currentRawUptime, isReset := false,
           color := TFT_BLACK }] ∧
    broadcasts (handleLocalTouch cfg env inp st ex).events =
      [{ type := MsgType.MSG_TYPE_DRAW_POINT, senderUptime := inp.currentRawUptime
         senderOffset := ex.relativeBootTimeOffset
         touch_data :=
           { x := mapX, y := mapY, timestamp := inp.currentRawUptime, isReset := false,
             color := TFT_BLACK } }] ∧
    (handleLocalTouch cfg env inp st ex).statics.lastLocalPoint = ⟨mapX, mapY, 1⟩ ∧
    (handleLocalTouch cfg env inp st ex).statics.lastLocalTouchTime = inp.currentRawUptime ∧
    (∀ (cfg2 : Config) (env2 : Env) (inp2 : Input) (st2 : Statics) (ex2 : Externs),
      screenPoint cfg2 env2 inp2 ex2 = some (mapX, mapY) → drawClaims cfg2 env2 ex2 mapX mapY →
      ex2.isEraserMode = true → inp2.currentRawUptime = inp.currentRawUptime →
      ex2.allDrawingHistory = ex.allDrawingHistory →
      ex2.relativeBootTimeOffset = ex.relativeBootTimeOffset →
      (handleLocalTouch cfg2 env2 inp2 st2 ex2).externs.allDrawingHistory =
        (handleLocalTouch cfg env inp st ex).externs.allDrawingHistory ∧
      broadcasts (handleLocalTouch cfg2 env2 inp2 st2 ex2).events =
        broadcasts (handleLocalTouch cfg env inp st ex).events ∧
      (handleLocalTouch cfg2 env2 inp2 st2 ex2).statics.lastLocalPoint =
        (handleLocalTouch cfg env inp st ex).statics.lastLocalPoint ∧
      (handleLocalTouch cfg2 env2 inp2 st2 ex2).statics.lastLocalTouchTime =
        (handleLocalTouch cfg env inp st ex).statics.lastLocalTouchTime) := by
  rw [handleLocalTouch_draw cfg env inp st ex mapX mapY hp hd]
  obtain ⟨h1, h2, h3, h4, _, _, _⟩ :=
    drawBranch_common cfg inp.currentRawUptime mapX mapY st ex
  simp only [he, if_true] at h1 h2
  refine ⟨drawBranch_erase cfg _ _ _ st ex he, h1, h2, h3, h4, ?_⟩
  intro cfg2 env2 inp2 st2 ex2 hp2 hd2 he2 ht hh ho
  rw [handleLocalTouch_draw cfg2 env2 inp2 st2 ex2 mapX mapY hp2 hd2]
  obtain ⟨g1, g2, g3, g4, _, _, _⟩ :=
    drawBranch_common cfg2 inp2.currentRawUptime mapX mapY st2 ex2
  simp only [he2, if_true] at g1 g2
  rw [g1, g2, g3, g4, h1, h2, h3, h4, ht, hh, ho]
  exact ⟨rfl, rfl, rfl, rfl⟩

/-- C17 on the sample screen at `(75, 100)`, five pixels right of the left protected area: with
radius `6` the fill is suppressed, with radius `3` it is issued, and both cycles append the same
black record. -/
theorem C17_witness_suppressed_and_unsuppressed :
    screenPoint sampleConfig sampleEnv (touchCycle (eraserExterns 31 6) 2000 (steady 1025 1730)).inp
      (eraserExterns 31 6) = some (75, 100) ∧
    drawClaims sampleConfig sampleEnv (eraserExterns 31 6) 75 100 ∧
    rasterCalls (handleLocalTouch sampleConfig sampleEnv
      (touchCycle (eraserExterns 31 6) 2000 (steady 1025 1730)).inp Statics.init
      (eraserExterns 31 6)).events = [] ∧
    rasterCalls (handleLocalTouch sampleConfig sampleEnv
      (touchCycle (eraserExterns 31 3) 2000 (steady 1025 1730)).inp Statics.init
      (eraserExterns 31 3)).events = [Event.fillCircle 75 100 3 TFT_BLACK] ∧
    (handleLocalTouch sampleConfig sampleEnv
      (touchCycle (eraserExterns 31 6) 2000 (steady 1025 1730)).inp Statics.init
      (eraserExterns 31 6)).externs.allDrawingHistory =
      [{ x := 75, y := 100, timestamp := 2000, isReset := false, color := TFT_BLACK }] ∧
    (handleLocalTouch sampleConfig sampleEnv
      (touchCycle (eraserExterns 31 3) 2000 (steady 1025 1730)).inp Statics.init
      (eraserExterns 31 3)).externs.allDrawingHistory =
      (handleLocalTouch sampleConfig sampleEnv
        (touchCycle (eraserExterns 31 6) 2000 (steady 1025 1730)).inp Statics.init
        (eraserExterns 31 6)).externs.allDrawingHistory := by
  have hp6 := screenPoint_steady (eraserExterns 31 6) 2000 1025 1730 rfl rfl
  have hp3 := screenPoint_steady (eraserExterns 31 3) 2000 1025 1730 rfl rfl
  have hd6 : drawClaims sampleConfig sampleEnv (eraserExterns 31 6) 75 100 := by decide
  have hd3 : drawClaims sampleConfig sampleEnv (eraserExterns 31 3) 75 100 := by decide
  have h6 := C17_record_and_envelope_independent_of_guard sampleConfig sampleEnv
    (touchCycle (eraserExterns 31 6) 2000 (steady 1025 1730)).inp Statics.init
    (eraserExterns 31 6) 75 100 hp6 hd6 rfl
  have h3 := C17_record_and_envelope_independent_of_guard sampleConfig sampleEnv
    (touchCycle (eraserExterns 31 3) 2000 (steady 1025 1730)).inp Statics.init
    (eraserExterns 31 3) 75 100 hp3 hd3 rfl
  refine ⟨hp6, hd6, ?_, ?_, h6.2.1, ?_⟩
  · rw [h6.1]; rfl
  · rw [h3.1]; rfl
  · exact (h6.2.2.2.2.2 sampleConfig sampleEnv
      (touchCycle (eraserExterns 31 3) 2000 (steady 1025 1730)).inp Statics.init
      (eraserExterns 31 3) hp3 hd3 rfl rfl rfl rfl).1

/-! ### The stored contact state -/

theorem eraserButtonBranch_contact (t : Nat) (st : Statics) (ex : Externs) :
    contactOf (eraserButtonBranch t st ex).statics = contactOf st := by
  unfold eraserButtonBranch
  split_ifs <;> rfl

theorem resetBranch_contact (t : Nat) (st : Statics) (ex : Externs) :
    contactOf (resetBranch t st ex).statics = contactOf st := rfl

theorem mainScreenTouch_contact_frame (cfg : Config) (env : Env) (t : Nat) (x y : Int)
    (st : Statics) (ex : Externs)
    (h : ¬ (claimedBeforeReset cfg env ex x y = false ∧
      env.isResetButtonPressed x y = false ∧
      env.isColorButtonPressed x y = none ∧
      env.isEraserButtonPressed x y = false ∧
      env.isEraserSliderPressed x y = false ∧
      env.isPeerInfoButtonPressed x y = false ∧
      env.isCustomColorButtonPressed x y = false ∧
      env.isScreenshotButtonPressed x y = false)) :
    contactOf (mainScreenTouch cfg env t x y st ex).statics = contactOf st := by
  unfold claimedBeforeReset at h
  unfold mainScreenTouch
  cases h1 : (ex.showDebugToggleButton && env.isCoffeeButtonPressed x y)
  · cases h2 : (ex.isDebugInfoVisible && env.isInfoButtonPressed x y)
    · cases h3 : debugToggleClaims cfg env ex x y
      · cases h4 : env.isResetButtonPressed x y
        · simp only [Bool.false_eq_true, if_false]
          cases h5 : env.isColorButtonPressed x y
          · simp only []
            cases h6 : env.isEraserButtonPressed x y
            · cases h7 : env.isEraserSliderPressed x y
              · cases h8 : env.isPeerInfoButtonPressed x y
                · cases h9 : env.isCustomColorButtonPressed x y
                  · cases h10 : env.isScreenshotButtonPressed x y
                    · exact absurd ⟨by simp [h1, h2, h3], h4, h5, h6, h7, h8, h9, h10⟩ h
                    · simp
                  · simp
                · simp
              · simp
            · simp only [if_true]
              exact eraserButtonBranch_contact t st ex
          · rfl
        · simp only [if_true, Bool.false_eq_true, if_false]
          exact resetBranch_contact t st ex
      · simp
    · simp
  · simp

theorem dispatch_contact_frame (cfg : Config) (env : Env) (t : Nat) (xy1 : XY_TouchPoint_t)
    (st : Statics) (ex : Externs)
    (h : ¬ drawClaims cfg env ex (mapXOf cfg env xy1) (mapYOf cfg env xy1)) :
    contactOf (dispatch cfg env t xy1 st ex).statics = contactOf st := by
  unfold dispatch
  cases hf : xy1.fly
  · simp only [Bool.not_false, if_true]
    cases hm : ex.currentUIState
    · cases hc : ex.inCustomColorMode
      · simp only [Bool.false_eq_true, if_false]
        apply mainScreenTouch_contact_frame
        intro hh
        exact h ⟨⟨hm, hc⟩, hh⟩
      · simp
    · simp
    · simp
    · simp only []
      split_ifs <;> rfl
  · simp

/-- A valid touch that is not a draw action leaves the stored point and time as they were. -/
theorem handleLocalTouch_contact_frame (cfg : Config) (env : Env) (inp : Input) (st : Statics)
    (ex : Externs) (x y : Int) (hp : screenPoint cfg env inp ex = some (x, y))
    (hnd : ¬ drawClaims cfg env ex x y) :
    contactOf (handleLocalTouch cfg env inp st ex).statics = contactOf st := by
  obtain ⟨xy1, hcp, _, hx, hy⟩ := screenPoint_some cfg env inp ex x y hp
  rw [handleLocalTouch_of_cyclePoint cfg env inp st ex xy1 hcp]
  apply dispatch_contact_frame
  rw [hx, hy]
  exact hnd

theorem drawnStatics_reached :
    (handleLocalTouch sampleConfig sampleEnv (touchCycle (mainExterns 31) 1000 (steady 310 390)).inp
      Statics.init (mainExterns 31)).statics = drawnStatics := by
  rw [handleLocalTouch_draw sampleConfig sampleEnv _ Statics.init (mainExterns 31) 10 10
    (screenPoint_steady (mainExterns 31) 1000 310 390 rfl rfl) (by decide)]
  rfl

/-- C13 (evaluation at the failing input): after a pen stroke began at `(10, 10)` at uptime
`1000`, a touch on the reset button at uptime `1010` is a cycle that is neither a draw action
nor rejected, yet `lastLocalPoint.z` is still `1` after it, and the draw action at `(12, 11)`
at uptime `1030` that follows does not start with a pixel: it draws the line from `(10, 10)`
across the canvas the reset has just cleared. -/
theorem C13_reset_touch_keeps_contact :
    (handleLocalTouch sampleConfig sampleEnv (touchCycle (mainExterns 31) 1000 (steady 310 390)).inp
      Statics.init (mainExterns 31)).statics = drawnStatics ∧
    isResetCycle sampleConfig (resetTouch 1010) = true ∧
    (handleLocalTouch sampleConfig sampleEnv (resetTouch 1010).inp drawnStatics
      (mainExterns 31)).statics.lastLocalPoint.z = 1 ∧
    ¬ ((handleLocalTouch sampleConfig sampleEnv (resetTouch 1010).inp drawnStatics
      (mainExterns 31)).statics.lastLocalPoint.z = 0) ∧
    rasterCalls (handleLocalTouch sampleConfig sampleEnv
      (touchCycle (mainExterns 31) 1030 (steady 335 410)).inp
      (handleLocalTouch sampleConfig sampleEnv (resetTouch 1010).inp drawnStatics
        (mainExterns 31)).statics
      (mainExterns 31)).events = [Event.drawLine 10 10 12 11 31] := by
  have hreset : handleLocalTouch sampleConfig sampleEnv (resetTouch 1010).inp drawnStatics
      (mainExterns 31) = resetBranch 1010 drawnStatics (mainExterns 31) :=
    handleLocalTouch_reset sampleConfig sampleEnv _ drawnStatics (mainExterns 31) 295 17
      (screenPoint_steady (mainExterns 31) 1010 3430 500 rfl rfl) (by decide)
  refine ⟨drawnStatics_reached, isResetCycle_resetTouch 1010, ?_, ?_, ?_⟩
  · rw [hreset]; rfl
  · rw [hreset]; decide
  · rw [hreset, handleLocalTouch_draw sampleConfig sampleEnv _ _ (mainExterns 31) 12 11
      (screenPoint_steady (mainExterns 31) 1030 335 410 rfl rfl) (by decide)]
    rfl

/-- Where the stored contact is cleared: after every cycle in which no touch is detected, and
after every cycle in which a popup is dismissed, `lastLocalPoint.z` is `0`, so that a pen draw
action that follows starts a fresh stroke with a single pixel. A cycle in which a valid touch is
consumed without
being a draw action (popup-open, debug toggle, reset, colour swatch, eraser toggle, slider,
peer-info, custom-colour entry, screenshot, peer-info back, picker, or no region at all in the
popup and peer-info modes) leaves the stored point, its `z` and the stored time unchanged. -/
theorem contact_cleared_without_touch_or_on_popup_dismissal (cfg : Config) (env : Env)
    (inp : Input) (st : Statics) (ex : Externs) :
    (inp.touched = false →
      (handleLocalTouch cfg env inp st ex).statics.lastLocalPoint.z = 0) ∧
    (inp.touched = true →
      (ex.isCoffeePopupVisible = true ∨ ex.isProjectInfoPopupVisible = true) →
      (averageXY inp.ts).fly = false →
      (handleLocalTouch cfg env inp st ex).statics.lastLocalPoint.z = 0) ∧
    (∀ x y, screenPoint cfg env inp ex = some (x, y) → ¬ drawClaims cfg env ex x y →
      (handleLocalTouch cfg env inp st ex).statics.lastLocalPoint = st.lastLocalPoint ∧
      (handleLocalTouch cfg env inp st ex).statics.lastLocalTouchTime = st.lastLocalTouchTime) ∧
    ((handleLocalTouch cfg env inp st ex).statics.lastLocalPoint.z = 0 →
      ∀ (env2 : Env) (inp2 : Input) (ex2 : Externs) (x2 y2 : Int),
        screenPoint cfg env2 inp2 ex2 = some (x2, y2) → drawClaims cfg env2 ex2 x2 y2 →
        ex2.isEraserMode = false →
        rasterCalls (handleLocalTouch cfg env2 inp2
            (handleLocalTouch cfg env inp st ex).statics ex2).events =
          [Event.drawPixel x2 y2 ex2.currentColor]) := by
  refine ⟨?_, ?_, ?_, ?_⟩
  · intro ht
    simp [handleLocalTouch, ht, clearContact]
  · intro ht hpop hv
    rw [popup_dismissed_by_valid_first_burst cfg env inp st ex ht hv hpop]
    rfl
  · intro x y hp hnd
    have := handleLocalTouch_contact_frame cfg env inp st ex x y hp hnd
    exact ⟨congrArg Prod.fst this, congrArg Prod.snd this⟩
  · intro hz env2 inp2 ex2 x2 y2 hp2 hd2 hpen
    rw [handleLocalTouch_draw cfg env2 inp2 _ ex2 x2 y2 hp2 hd2,
      (drawBranch_pen cfg inp2.currentRawUptime x2 y2 _ ex2 hpen).2]
    simp [hz]

/-- The stored contact on the sample screen: after the stroke begun at `(10, 10)`, an idle cycle
clears the contact and the draw action at `(12, 11)` only `30` ms after the first draws a pixel;
a touch on the reset button instead leaves the stored point `(10, 10, 1)` in place. -/
theorem contact_example_idle_clears_reset_keeps :
    (handleLocalTouch sampleConfig sampleEnv (idleCycle 1010).inp drawnStatics
      (mainExterns 31)).statics.lastLocalPoint.z = 0 ∧
    rasterCalls (handleLocalTouch sampleConfig sampleEnv
      (touchCycle (mainExterns 31) 1030 (steady 335 410)).inp
      (handleLocalTouch sampleConfig sampleEnv (idleCycle 1010).inp drawnStatics
        (mainExterns 31)).statics
      (mainExterns 31)).events = [Event.drawPixel 12 11 31] ∧
    (handleLocalTouch sampleConfig sampleEnv (resetTouch 1010).inp drawnStatics
      (mainExterns 31)).statics.lastLocalPoint = ⟨10, 10, 1⟩ := by
  have h := contact_cleared_without_touch_or_on_popup_dismissal sampleConfig sampleEnv
    (idleCycle 1010).inp drawnStatics (mainExterns 31)
  have hr := contact_cleared_without_touch_or_on_popup_dismissal sampleConfig sampleEnv
    (resetTouch 1010).inp drawnStatics (mainExterns 31)
  refine ⟨h.1 rfl, ?_, ?_⟩
  · exact h.2.2.2 (h.1 rfl) sampleEnv (touchCycle (mainExterns 31) 1030 (steady 335 410)).inp
      (mainExterns 31) 12 11 (screenPoint_steady (mainExterns 31) 1030 335 410 rfl rfl)
      (by decide) rfl
  · exact (hr.2.2.1 295 17 (screenPoint_steady (mainExterns 31) 1010 3430 500 rfl rfl)
      (by decide)).1

/-! ### The priority chain -/

theorem mainScreenTouch_eq_first_match (cfg : Config) (env : Env) (t : Nat) (x y : Int)
    (st : Statics) (ex : Externs) :
    mainScreenTouch cfg env t x y st ex =
      (match claimingRegion cfg env ex x y with
       | some r => regionAction env t x y st ex r
       | none => drawBranch cfg t x y st ex) := by
  unfold mainScreenTouch claimingRegion regionOrder
  simp only [List.find?_cons, regionFires, List.find?_nil]
  cases h1 : (ex.showDebugToggleButton && env.isCoffeeButtonPressed x y)
  · cases h2 : (ex.isDebugInfoVisible && env.isInfoButtonPressed x y)
    · cases h3 : debugToggleClaims cfg env ex x y
      · cases h4 : env.isResetButtonPressed x y
        · cases h5 : env.isColorButtonPressed x y
          · cases h6 : env.isEraserButtonPressed x y
            · cases h7 : env.isEraserSliderPressed x y
              · cases h8 : env.isPeerInfoButtonPressed x y
                · cases h9 : env.isCustomColorButtonPressed x y
                  · cases h10 : env.isScreenshotButtonPressed x y
                    · simp
                    · simp [regionAction]
                  · simp [regionAction]
                · simp [regionAction]
              · simp [regionAction]
            · simp [regionAction]
          · simp [regionAction, h5]
        · simp [regionAction]
      · simp [regionAction]
    · simp [regionAction]
  · simp [regionAction]

theorem find?_rank_le (p : Region → Bool) :
    ∀ l : List Region, l.Pairwise (fun a b => a.rank < b.rank) →
      ∀ r, l.find? p = some r → ∀ A ∈ l, p A = true → r.rank ≤ A.rank := by
  intro l
  induction l with
  | nil => intro _ r h; simp at h
  | cons a l ih =>
    intro hpw r hfind A hA hpA
    rw [List.pairwise_cons] at hpw
    rw [List.find?_cons] at hfind
    cases hpa : p a
    · rw [hpa] at hfind
      rcases List.mem_cons.1 hA with hAa | hAl
      · rw [hAa, hpa] at hpA
        exact absurd hpA (by decide)
      · exact ih hpw.2 r hfind A hAl hpA
    · rw [hpa] at hfind
      simp only [Option.some.injEq] at hfind
      rw [← hfind]
      rcases List.mem_cons.1 hA with hAa | hAl
      · rw [hAa]
      · exact Nat.le_of_lt (hpw.1 A hAl)

theorem regionOrder_sorted : regionOrder.Pairwise (fun a b => a.rank < b.rank) := by
  unfold regionOrder
  simp [Region.rank]

theorem mem_regionOrder (A : Region) : A ∈ regionOrder := by
  cases A <;> simp [regionOrder]

/-- The claiming region fires and no region before it does. -/
theorem claimingRegion_some (cfg : Config) (env : Env) (ex : Externs) (x y : Int) (r : Region)
    (h : claimingRegion cfg env ex x y = some r) :
    regionFires cfg env ex x y r = true ∧
    ∀ A, regionFires cfg env ex x y A = true → r.rank ≤ A.rank :=
  ⟨List.find?_some h, fun A hA =>
    find?_rank_le _ regionOrder regionOrder_sorted r h A (mem_regionOrder A) hA⟩

theorem claimingRegion_of_fires (cfg : Config) (env : Env) (ex : Externs) (x y : Int)
    (A : Region) (hA : regionFires cfg env ex x y A = true) :
    ∃ r, claimingRegion cfg env ex x y = some r ∧ r.rank ≤ A.rank ∧
      regionFires cfg env ex x y r = true := by
  cases hc : claimingRegion cfg env ex x y with
  | none =>
    have := List.find?_eq_none.1 hc A (mem_regionOrder A)
    exact absurd hA this
  | some r =>
    obtain ⟨h1, h2⟩ := claimingRegion_some cfg env ex x y r hc
    exact ⟨r, rfl, h2 A hA, h1⟩

theorem rank_injective (a b : Region) (h : a.rank = b.rank) : a = b := by
  cases a <;> cases b <;> first | rfl | (exact absurd h (by decide))

theorem regionAction_calls (env : Env) (t : Nat) (x y : Int) (st : Statics) (ex : Externs)
    (r0 : Region) :
    ∀ e ∈ (regionAction env t x y st ex r0).events, ∀ r, regionOfCall e = some r → r = r0 := by
  intro e he r hr
  cases r0
  case reset =>
    simp only [regionAction, resetBranch] at he
    by_cases hegg : resetCountBumped t st ≥ 10
    · simp [hegg] at he
      rcases he with h | h | h <;> (rw [h] at hr; simp [regionOfCall] at hr; exact hr.symm)
    · simp [hegg] at he
      rcases he with h | h <;> (rw [h] at hr; simp [regionOfCall] at hr; exact hr.symm)
  case swatch =>
    simp only [regionAction] at he
    cases hc : env.isColorButtonPressed x y with
    | none => simp [hc] at he
    | some c =>
      simp [hc] at he
      rcases he with h | h | h <;> (rw [h] at hr; simp [regionOfCall] at hr; try exact hr.symm)
  case eraserToggle =>
    simp only [regionAction, eraserButtonBranch] at he
    split_ifs at he
    · rw [List.mem_singleton.1 he] at hr
      simp [regionOfCall] at hr
    · rcases List.mem_cons.1 he with h | h
      · rw [h] at hr
        simp [regionOfCall] at hr
      · rw [List.mem_singleton.1 h] at hr
        simp [regionOfCall] at hr
        exact hr.symm
    · simp at he
  case customColor =>
    simp [regionAction] at he
    rcases he with h | h | h <;> (rw [h] at hr; simp [regionOfCall] at hr; exact hr.symm)
  all_goals
    simp [regionAction] at he
    rw [he] at hr
    simp [regionOfCall] at hr
    exact hr.symm

theorem drawBranch_calls (cfg : Config) (t : Nat) (x y : Int) (st : Statics) (ex : Externs) :
    ∀ e ∈ (drawBranch cfg t x y st ex).events, regionOfCall e = none := by
  intro e he
  unfold drawBranch penOps at he
  simp only [eraseOps_eq] at he
  simp only [List.mem_append, List.mem_singleton] at he
  rcases he with (h | h) | h
  · split_ifs at h
    · rw [List.mem_singleton.1 h]; rfl
    · simp at h
  · split_ifs at h <;> first
      | (rw [List.mem_singleton.1 h]; rfl)
      | (simp at h)
  · rw [h]
    simp [regionOfCall]

/-- A region action is no draw action: no raster call, no draw envelope, no record appended,
stored point and time unchanged. -/
theorem regionAction_no_draw (env : Env) (t : Nat) (x y : Int) (st : Statics) (ex : Externs)
    (r0 : Region) :
    rasterCalls (regionAction env t x y st ex r0).events = [] ∧
    (∀ m ∈ broadcasts (regionAction env t x y st ex r0).events,
      m.type = MsgType.MSG_TYPE_RESET_CANVAS) ∧
    (∀ p ∈ (regionAction env t x y st ex r0).externs.allDrawingHistory,
      p ∈ ex.allDrawingHistory) ∧
    contactOf (regionAction env t x y st ex r0).statics = contactOf st := by
  cases r0
  case reset =>
    simp only [regionAction, resetBranch]
    by_cases hegg : resetCountBumped t st ≥ 10 <;>
      simp [hegg, rasterCalls, broadcasts, contactOf]
  case swatch =>
    simp only [regionAction]
    cases hc : env.isColorButtonPressed x y <;> simp [rasterCalls, broadcasts, contactOf]
  case eraserToggle =>
    simp only [regionAction, eraserButtonBranch]
    split_ifs <;> simp [rasterCalls, broadcasts, contactOf]
  all_goals simp [regionAction, rasterCalls, broadcasts, contactOf]

/-- C14: for every valid touch on the main screen (no picker overlay; a shown popup has not
ended the cycle), the cycle runs the action of the first region, in the order popup-open button,
project-info button, debug toggle, reset button, colour swatches, eraser toggle, eraser slider,
peer-info button, custom-colour button, screenshot button, that is enabled and whose hit test
holds, and the draw action when there is none. Hence when a region `A` fires: no region `B`
after `A` is the one whose action runs and no call of `B` is made; the acting region is `A` or
an earlier one that fires; and no draw action takes place (no raster call, no draw envelope, no
record appended, stored point and time unchanged). All region calls of a cycle belong to one
region, and a cycle that broadcasts a draw envelope makes no region call. -/
theorem C14_first_firing_region_wins (cfg : Config) (env : Env) (inp : Input) (st : Statics)
    (ex : Externs) (mapX mapY : Int)
    (hp : screenPoint cfg env inp ex = some (mapX, mapY)) (hm : onMainScreen ex) :
    handleLocalTouch cfg env inp st ex =
      (match claimingRegion cfg env ex mapX mapY with
       | some r => regionAction env inp.currentRawUptime mapX mapY st ex r
       | none => drawBranch cfg inp.currentRawUptime mapX mapY st ex) ∧
    (∀ A B : Region, A.rank < B.rank → regionFires cfg env ex mapX mapY A = true →
      claimingRegion cfg env ex mapX mapY ≠ some B ∧
      (∀ e ∈ (handleLocalTouch cfg env inp st ex).events, regionOfCall e ≠ some B)) ∧
    (∀ A : Region, regionFires cfg env ex mapX mapY A = true →
      (∃ r, claimingRegion cfg env ex mapX mapY = some r ∧ r.rank ≤ A.rank ∧
        regionFires cfg env ex mapX mapY r = true) ∧
      rasterCalls (handleLocalTouch cfg env inp st ex).events = [] ∧
      (∀ m ∈ broadcasts (handleLocalTouch cfg env inp st ex).events,
        m.type ≠ MsgType.MSG_TYPE_DRAW_POINT) ∧
      (∀ p ∈ (handleLocalTouch cfg env inp st ex).externs.allDrawingHistory,
        p ∈ ex.allDrawingHistory) ∧
      (handleLocalTouch cfg env inp st ex).statics.lastLocalPoint = st.lastLocalPoint ∧
      (handleLocalTouch cfg env inp st ex).statics.lastLocalTouchTime = st.lastLocalTouchTime) ∧
    (∀ e ∈ (handleLocalTouch cfg env inp st ex).events, ∀ r, regionOfCall e = some r →
      claimingRegion cfg env ex mapX mapY = some r) ∧
    ((∃ m ∈ broadcasts (handleLocalTouch cfg env inp st ex).events,
        m.type = MsgType.MSG_TYPE_DRAW_POINT) →
      claimingRegion cfg env ex mapX mapY = none ∧
      ∀ e ∈ (handleLocalTouch cfg env inp st ex).events, regionOfCall e = none) := by
  have href : handleLocalTouch cfg env inp st ex =
      (match claimingRegion cfg env ex mapX mapY with
       | some r => regionAction env inp.currentRawUptime mapX mapY st ex r
       | none => drawBranch cfg inp.currentRawUptime mapX mapY st ex) := by
    rw [handleLocalTouch_main cfg env inp st ex mapX mapY hp hm]
    exact mainScreenTouch_eq_first_match cfg env inp.currentRawUptime mapX mapY st ex
  have hcalls : ∀ e ∈ (handleLocalTouch cfg env inp st ex).events, ∀ r,
      regionOfCall e = some r → claimingRegion cfg env ex mapX mapY = some r := by
    intro e he r hr
    rw [href] at he
    cases hc : claimingRegion cfg env ex mapX mapY with
    | none =>
      rw [hc] at he
      have := drawBranch_calls cfg inp.currentRawUptime mapX mapY st ex e he
      rw [this] at hr
      exact absurd hr (by simp)
    | some r0 =>
      rw [hc] at he
      rw [regionAction_calls env inp.currentRawUptime mapX mapY st ex r0 e he r hr]
  refine ⟨href, ?_, ?_, hcalls, ?_⟩
  · intro A B hAB hA
    obtain ⟨r, hr, hle, _⟩ := claimingRegion_of_fires cfg env ex mapX mapY A hA
    have hne : claimingRegion cfg env ex mapX mapY ≠ some B := by
      rw [hr]
      intro h
      simp only [Option.some.injEq] at h
      rw [h] at hle
      omega
    exact ⟨hne, fun e he h => hne (hcalls e he B h)⟩
  · intro A hA
    obtain ⟨r, hr, hle, hfr⟩ := claimingRegion_of_fires cfg env ex mapX mapY A hA
    obtain ⟨n1, n2, n3, n4⟩ := regionAction_no_draw env inp.currentRawUptime mapX mapY st ex r
    rw [href, hr]
    refine ⟨⟨r, rfl, hle, hfr⟩, n1, ?_, n3, congrArg Prod.fst n4, congrArg Prod.snd n4⟩
    intro m hmem h
    have := n2 m hmem
    rw [this] at h
    exact absurd h (by decide)
  · rintro ⟨m, hmem, hty⟩
    cases hc : claimingRegion cfg env ex mapX mapY with
    | none =>
      refine ⟨rfl, ?_⟩
      intro e he
      rw [href, hc] at he
      exact drawBranch_calls cfg inp.currentRawUptime mapX mapY st ex e he
    | some r0 =>
      rw [href, hc] at hmem
      have := (regionAction_no_draw env inp.currentRawUptime mapX mapY st ex r0).2.1 m hmem
      rw [this] at hty
      exact absurd hty (by decide)

/-- C14 on a screen where the reset button and a colour swatch overlap at `(295, 17)`: the
reset button comes first, so the reset action runs, the swatch's `updateCurrentColor` is not
called and nothing is drawn. -/
theorem C14_witness_reset_before_swatch :
    screenPoint sampleConfig overlapEnv
      { touched := true, currentRawUptime := 5000, ts := streamOf (steady 3430 500) }
      (mainExterns 31) = some (295, 17) ∧
    regionFires sampleConfig overlapEnv (mainExterns 31) 295 17 Region.reset = true ∧
    regionFires sampleConfig overlapEnv (mainExterns 31) 295 17 Region.swatch = true ∧
    claimingRegion sampleConfig overlapEnv (mainExterns 31) 295 17 ≠ some Region.swatch ∧
    (∀ e ∈ (handleLocalTouch sampleConfig overlapEnv
        { touched := true, currentRawUptime := 5000, ts := streamOf (steady 3430 500) }
        Statics.init (mainExterns 31)).events, regionOfCall e ≠ some Region.swatch) ∧
    rasterCalls (handleLocalTouch sampleConfig overlapEnv
        { touched := true, currentRawUptime := 5000, ts := streamOf (steady 3430 500) }
        Statics.init (mainExterns 31)).events = [] := by
  have hp := screenPoint_steady_env overlapEnv rfl (mainExterns 31) 5000 3430 500 rfl rfl
  have h := C14_first_firing_region_wins sampleConfig overlapEnv
    { touched := true, currentRawUptime := 5000, ts := streamOf (steady 3430 500) }
    Statics.init (mainExterns 31) 295 17 hp (by decide)
  have hr : regionFires sampleConfig overlapEnv (mainExterns 31) 295 17 Region.reset = true := by
    decide
  exact ⟨hp, hr, by decide, (h.2.1 Region.reset Region.swatch (by decide) hr).1,
    (h.2.1 Region.reset Region.swatch (by decide) hr).2, (h.2.2.1 Region.reset hr).2.1⟩

/-! ### Range of the rapid-press counter -/

theorem resetStep_range (p : Int × Nat) (t : Nat) (h : 0 ≤ p.1 ∧ p.1 ≤ 9) :
    0 ≤ (resetStep p t).1 ∧ (resetStep p t).1 ≤ 9 := by
  unfold resetStep
  simp only []
  split_ifs <;> omega

theorem foldl_resetStep_range (l : List Nat) :
    ∀ p : Int × Nat, 0 ≤ p.1 ∧ p.1 ≤ 9 →
      0 ≤ (l.foldl resetStep p).1 ∧ (l.foldl resetStep p).1 ≤ 9 := by
  induction l with
  | nil => intro p h; exact h
  | cons t l ih =>
    intro p h
    exact ih (resetStep p t) (resetStep_range p t h)

/-- C18: `resetPressCount` is between `0` and `9` after every `handleLocalTouch` cycle of every
run from the initial state, whatever the inputs, the collaborators' answers and the values of
the shared variables in each cycle. The range is kept by every single cycle started in it, and
only a cycle in which the reset button claims the touch changes the counter. -/
theorem C18_reset_counter_between_0_and_9 (cfg : Config) (cs : List Cycle) :
    0 ≤ (runCycles cfg Statics.init cs).resetPressCount ∧
    (runCycles cfg Statics.init cs).resetPressCount ≤ 9 ∧
    (∀ (st : Statics) (c : Cycle), 0 ≤ st.resetPressCount → st.resetPressCount ≤ 9 →
      0 ≤ (handleLocalTouch cfg c.env c.inp st c.ex).statics.resetPressCount ∧
      (handleLocalTouch cfg c.env c.inp st c.ex).statics.resetPressCount ≤ 9) ∧
    (∀ (st : Statics) (c : Cycle), isResetCycle cfg c = false →
      (handleLocalTouch cfg c.env c.inp st c.ex).statics.resetPressCount =
        st.resetPressCount) := by
  have hrun := runCycles_resetFields cfg cs Statics.init
  have hr := foldl_resetStep_range (resetUptimes cfg cs) (resetFieldsOf Statics.init)
    ⟨by decide, by decide⟩
  rw [← hrun] at hr
  refine ⟨hr.1, hr.2, ?_, ?_⟩
  · intro st c h0 h9
    have hs := stepStatics_resetFields cfg st c
    have hfst : (handleLocalTouch cfg c.env c.inp st c.ex).statics.resetPressCount =
        (if isResetCycle cfg c then resetStep (resetFieldsOf st) c.inp.currentRawUptime
         else resetFieldsOf st).1 := congrArg Prod.fst hs
    rw [hfst]
    split_ifs
    · exact resetStep_range _ _ ⟨h0, h9⟩
    · exact ⟨h0, h9⟩
  · intro st c hc
    have hs := stepStatics_resetFields cfg st c
    rw [hc] at hs
    exact congrArg Prod.fst hs

/-! ### Order independence of the filter -/

theorem rankOf_mono (l : List Int) (i j : Nat) (hij : i ≤ j) (hj : j < l.length) :
    rankOf l i ≤ rankOf l j := by
  have hs := List.sorted_insertionSort (· ≤ ·) l
  have hlen : (l.insertionSort (· ≤ ·)).length = l.length := List.length_insertionSort _ l
  unfold rankOf
  rcases Nat.eq_or_lt_of_le hij with h | h
  · rw [h]
  · rw [List.Sorted, List.pairwise_iff_getElem] at hs
    have hi' : i < (l.insertionSort (· ≤ ·)).length := by omega
    have hj' : j < (l.insertionSort (· ≤ ·)).length := by omega
    have := hs i j hi' hj' h
    show cell _ i ≤ cell _ j
    rw [cell_eq_getElem _ _ hi', cell_eq_getElem _ _ hj']
    exact this

theorem meanOfRanks3to6_bounds (l : List Int) (h : l.length = 10) :
    (rankOf l 3 : ℚ) ≤ meanOfRanks3to6 l ∧ meanOfRanks3to6 l ≤ (rankOf l 6 : ℚ) := by
  have h34 : (rankOf l 3 : ℚ) ≤ rankOf l 4 := by
    exact_mod_cast rankOf_mono l 3 4 (by decide) (by omega)
  have h45 : (rankOf l 4 : ℚ) ≤ rankOf l 5 := by
    exact_mod_cast rankOf_mono l 4 5 (by decide) (by omega)
  have h56 : (rankOf l 5 : ℚ) ≤ rankOf l 6 := by
    exact_mod_cast rankOf_mono l 5 6 (by decide) (by omega)
  unfold meanOfRanks3to6
  push_cast
  constructor
  · rw [le_div_iff₀ (by norm_num)]; linarith
  · rw [div_le_iff₀ (by norm_num)]; linarith

theorem meanOfRanks3to6_perm (l l' : List Int) (h : List.Perm l' l) :
    meanOfRanks3to6 l' = meanOfRanks3to6 l := by
  have : l'.insertionSort (· ≤ ·) = l.insertionSort (· ≤ ·) :=
    List.eq_of_perm_of_sorted
      (((List.perm_insertionSort (· ≤ ·) l').trans h).trans
        (List.perm_insertionSort (· ≤ ·) l).symm)
      (List.sorted_insertionSort (· ≤ ·) l') (List.sorted_insertionSort (· ≤ ·) l)
  simp [meanOfRanks3to6, rankOf, this]

theorem range_map_eq_ofFn (n : Nat) (g : Nat → Int) :
    (List.range n).map g = List.ofFn (fun i : Fin n => g i.val) := by
  rw [List.ofFn_eq_map, ← List.map_coe_finRange, List.map_map]
  rfl

theorem sampleXs_reorder (ts : Nat → TS_Point) (σ τ : Equiv.Perm (Fin 10)) :
    List.Perm (sampleXs (reorderSamples ts σ τ) 10) (sampleXs ts 10) := by
  unfold sampleXs
  rw [range_map_eq_ofFn, range_map_eq_ofFn]
  have : (fun i : Fin 10 => (reorderSamples ts σ τ i.val).x) =
      (fun i : Fin 10 => (ts i.val).x) ∘ σ := by
    funext i
    simp [reorderSamples, i.isLt]
  rw [this]
  exact σ.ofFn_comp_perm _

theorem sampleYs_reorder (ts : Nat → TS_Point) (σ τ : Equiv.Perm (Fin 10)) :
    List.Perm (sampleYs (reorderSamples ts σ τ) 10) (sampleYs ts 10) := by
  unfold sampleYs
  rw [range_map_eq_ofFn, range_map_eq_ofFn]
  have : (fun i : Fin 10 => (reorderSamples ts σ τ i.val).y) =
      (fun i : Fin 10 => (ts i.val).y) ∘ τ := by
    funext i
    simp [reorderSamples, i.isLt]
  rw [this]
  exact τ.ofFn_comp_perm _

theorem reorderSamples_pressed (ts : Nat → TS_Point) (σ τ : Equiv.Perm (Fin 10))
    (h : ∀ i < 10, (ts i).z > 200) : ∀ i < 10, (reorderSamples ts σ τ i).z > 200 := by
  intro i hi
  simp only [reorderSamples, hi, dif_pos]
  exact h i hi

/-- C19: for every burst of ten samples with pressure above 200, the in-place sort turns each
axis into an ascending permutation of its readings, so the returned point depends only on the
multiset of X readings and the multiset of Y readings: it is the same for every other pressed
burst whose X readings are a rearrangement of these and whose Y readings are a rearrangement of
these, in particular when the two axes are reordered by two arbitrary, independent permutations
of the ten positions. The returned `x` lies between the 4th-smallest and the 7th-smallest X
reading, and likewise `y`. -/
theorem C19_filter_depends_on_multisets_only (ts : Nat → TS_Point)
    (h : ∀ i < 10, (ts i).z > 200) :
    (List.Perm (sortRow 10 (sampleXs ts 10)) (sampleXs ts 10) ∧
      List.Sorted (· ≤ ·) (sortRow 10 (sampleXs ts 10)) ∧
      List.Perm (sortRow 10 (sampleYs ts 10)) (sampleYs ts 10) ∧
      List.Sorted (· ≤ ·) (sortRow 10 (sampleYs ts 10))) ∧
    (∀ ts2 : Nat → TS_Point, (∀ i < 10, (ts2 i).z > 200) →
      List.Perm (sampleXs ts2 10) (sampleXs ts 10) →
      List.Perm (sampleYs ts2 10) (sampleYs ts 10) →
      averageXY ts2 = averageXY ts) ∧
    (∀ σ τ : Equiv.Perm (Fin 10), averageXY (reorderSamples ts σ τ) = averageXY ts) ∧
    ((rankOf (sampleXs ts 10) 3 : ℚ) ≤ (averageXY ts).x ∧
      (averageXY ts).x ≤ (rankOf (sampleXs ts 10) 6 : ℚ)) ∧
    ((rankOf (sampleYs ts 10) 3 : ℚ) ≤ (averageXY ts).y ∧
      (averageXY ts).y ≤ (rankOf (sampleYs ts 10) 6 : ℚ)) := by
  have hperm : ∀ ts2 : Nat → TS_Point, (∀ i < 10, (ts2 i).z > 200) →
      List.Perm (sampleXs ts2 10) (sampleXs ts 10) →
      List.Perm (sampleYs ts2 10) (sampleYs ts 10) →
      averageXY ts2 = averageXY ts := by
    intro ts2 h2 hx hy
    rw [averageXY_pressed ts2 h2, averageXY_pressed ts h, meanOfRanks3to6_perm _ _ hx,
      meanOfRanks3to6_perm _ _ hy]
  have hsx := sortRow_perm (sampleXs ts 10)
  have hox := sortRow_sorted (sampleXs ts 10)
  have hsy := sortRow_perm (sampleYs ts 10)
  have hoy := sortRow_sorted (sampleYs ts 10)
  rw [sampleXs_length] at hsx hox
  rw [sampleYs_length] at hsy hoy
  refine ⟨⟨hsx, hox, hsy, hoy⟩, hperm, ?_, ?_, ?_⟩
  · intro σ τ
    exact hperm _ (reorderSamples_pressed ts σ τ h) (sampleXs_reorder ts σ τ)
      (sampleYs_reorder ts σ τ)
  · rw [averageXY_pressed ts h]
    exact meanOfRanks3to6_bounds _ (sampleXs_length ts 10)
  · rw [averageXY_pressed ts h]
    exact meanOfRanks3to6_bounds _ (sampleYs_length ts 10)

/-- C19 at the burst `tenSamples` and the burst `tenShuffled` (X readings reversed, Y readings
rotated): both give the same point, and its `x` lies between the readings `3` and `6`. -/
theorem C19_witness_shuffled_burst :
    (∀ i < 10, (streamOf tenSamples i).z > 200) ∧
    averageXY (streamOf tenShuffled) = averageXY (streamOf tenSamples) ∧
    (3 : ℚ) ≤ (averageXY (streamOf tenSamples)).x ∧
    (averageXY (streamOf tenSamples)).x ≤ (6 : ℚ) := by
  have hz : ∀ i < 10, (streamOf tenSamples i).z > 200 := by decide
  have h := C19_filter_depends_on_multisets_only (streamOf tenSamples) hz
  have hx : sampleXs (streamOf tenShuffled) 10 = (sampleXs (streamOf tenSamples) 10).reverse := by
    decide
  have hy : sampleYs (streamOf tenShuffled) 10 = (sampleYs (streamOf tenSamples) 10).rotate 1 := by
    decide
  have e3 : rankOf (sampleXs (streamOf tenSamples) 10) 3 = 3 := by decide
  have e6 : rankOf (sampleXs (streamOf tenSamples) 10) 6 = 6 := by decide
  refine ⟨hz, ?_, ?_, ?_⟩
  · exact h.2.1 (streamOf tenShuffled) (by decide) (hx ▸ List.reverse_perm _)
      (hy ▸ List.rotate_perm _ 1)
  · have := h.2.2.2.1.1
    rw [e3] at this
    exact_mod_cast this
  · have := h.2.2.2.1.2
    rw [e6] at this
    exact_mod_cast this

end TouchHandler
